import Mathlib

/-!
# Drive-by-wire arbitration of `DbwNode.cpp`

A shallow embedding of the enable / fault / override state machine of
`dbw_pacifica_can/src/DbwNode.cpp`, of its command encoders, of the periodic
override-clearing timer and of the report decoder `recvCAN`, followed by theorems about
them.

Conventions of the embedding:

* every member function becomes a function from the state it reads to the state it
  writes, paired with the list of outward effects it performs, in program order;
* a DBC signal holds a C `double`; finite values are modelled by `ℚ`;
* the `float` expressions of the steering encoder that involve `M_PI` and `roundf`
  are taken as parameters (`FloatOps`);
* `uint8_t` values are `Nat` (they are only stored and compared, never computed with);
* a received frame carries the values that the DBC decoder yields for its signals, and
  the length that the DBC file expects for a message is the parameter `GetDlc`.
-/

namespace DbwNode

/-! ## Data model -/

/-- Enable state machine members of `DbwNode`, in the order in which the constructor
initialises them (DbwNode.cpp lines 46-66). -/
structure State where
  prev_enable_ : Bool
  enable_ : Bool
  override_brake_ : Bool
  override_accelerator_pedal_ : Bool
  override_steering_ : Bool
  override_gear_ : Bool
  fault_brakes_ : Bool
  fault_accelerator_pedal_ : Bool
  fault_steering_ : Bool
  fault_steering_cal_ : Bool
  fault_watchdog_ : Bool
  fault_watchdog_using_brakes_ : Bool
  fault_watchdog_warned_ : Bool
  timeout_brakes_ : Bool
  timeout_accelerator_pedal_ : Bool
  timeout_steering_ : Bool
  enabled_brakes_ : Bool
  enabled_accelerator_pedal_ : Bool
  enabled_steering_ : Bool
  gear_warned_ : Bool
  deriving DecidableEq, Repr

/-- Console diagnostics (`ROS_INFO`, `ROS_WARN`, `ROS_ERROR`), one constructor per
message text of the enable state machine. -/
inductive Diag where
  /-- Text "DBW system not enabled. Steering calibration fault." -/
  | notEnabledSteeringCal
  /-- Text "DBW system not enabled. Braking fault." -/
  | notEnabledBrakes
  /-- Text "DBW system not enabled. Accelerator Pedal fault." -/
  | notEnabledAcceleratorPedal
  /-- Text "DBW system not enabled. Steering fault." -/
  | notEnabledSteering
  /-- Text "DBW system not enabled. Watchdog fault." -/
  | notEnabledWatchdog
  /-- Text "DBW system enabled." -/
  | systemEnabled
  /-- Text "DBW system enable requested. Waiting for ready." -/
  | enableRequestedWaiting
  /-- Text "DBW system disabled." -/
  | systemDisabled
  /-- Text "DBW system disabled. Cancel button pressed." -/
  | disabledCancelButton
  /-- Text "DBW system disabled. Driver override on brake/Accelerator Pedal pedal." -/
  | disabledOverridePedal
  /-- Text "DBW system disabled. Driver override on steering wheel." -/
  | disabledOverrideSteering
  /-- Text "DBW system disabled. Driver override on shifter." -/
  | disabledOverrideShifter
  /-- Text "Brake subsystem disabled after 100ms command timeout" -/
  | timeoutBrake
  /-- Text "Accelerator Pedal subsystem disabled after 100ms command timeout" -/
  | timeoutAcceleratorPedal
  /-- Text "Steering subsystem disabled after 100ms command timeout" -/
  | timeoutSteering
  /-- Text "DBW system disabled. Braking fault." -/
  | disabledFaultBrakes
  /-- Text "DBW system disabled. Accelerator Pedal fault." -/
  | disabledFaultAcceleratorPedal
  /-- Text "DBW system disabled. Steering fault." -/
  | disabledFaultSteering
  /-- Text "DBW system disabled. Steering calibration fault." -/
  | disabledFaultSteeringCal
  /-- Text "DBW system disabled. Watchdog fault." -/
  | disabledFaultWatchdog
  /-- Text "Watchdog event: Alerting driver and applying brakes." -/
  | watchdogApplyingBrakes
  /-- Text "Watchdog event: Driver has successfully taken control." -/
  | watchdogDriverTookControl
  /-- The `switch (src)` of `faultWatchdog` was executed with this source value; the
  text printed is the one of the matching `WatchdogStatus` case label, if any (the
  numeric values of the labels come from the message definitions). -/
  | watchdogSource (src : Nat)
  /-- Text "Watchdog event: Press left OK button on the steering wheel or cycle power to
  clear event." (`ROS_WARN_THROTTLE`, at most once every 2 s). -/
  | watchdogClearReminder
  /-- Text "Brake fault.    FLT1: %s FLT2: %s" with the two channel faults
  (`ROS_WARN_THROTTLE`, at most once every 5 s). -/
  | brakeFault (ch1 ch2 : Bool)
  /-- Text "Accelerator Pedal fault. FLT1: %s FLT2: %s" with the two channel faults
  (`ROS_WARN_THROTTLE`, at most once every 5 s). -/
  | acceleratorPedalFault (ch1 ch2 : Bool)
  /-- Text "Steering fault: %s" (`ROS_WARN_THROTTLE`, at most once every 5 s). -/
  | steeringFault
  /-- The `switch (out.reject.value)` of the gear report branch was executed with this
  value; the text printed is the one of the matching `GearReject` case label, if any. -/
  | gearRejected (value : Nat)
  deriving DecidableEq, Repr

/-- Signals of the DBC message `AKit_BrakeCommand` that the node writes. -/
structure AKit_BrakeCommand where
  AKit_BrakeCtrlEnblCmd : ℚ
  AKit_BrakePedalCmd : ℚ
  AKit_BrakePedalCtrlMode : ℚ
  AKit_BrakePedalClearDriverOvrd : ℚ
  AKit_BrakeWatchdogCntr : ℚ
  deriving DecidableEq, Repr

/-- Signals of the DBC message `AKit_AccelPdlCommand` that the node writes. -/
structure AKit_AccelPdlCommand where
  AKit_AccelPdlEnblCmd : ℚ
  AKit_AccelPdlCmd : ℚ
  AKit_AccelPdlWatchdogCntr : ℚ
  AKit_AccelPdlCtrlMode : ℚ
  AKit_AccelPdlClearDriverOvrd : ℚ
  Akit_AccelPdlIgnoreDriverOvrd : ℚ
  deriving DecidableEq, Repr

/-- Signals of the DBC message `AKit_SteeringCommand` that the node writes. -/
structure AKit_SteeringCommand where
  AKit_SteerCtrlEnblCmd : ℚ
  AKit_SteeringWhlAngleCmd : ℚ
  AKit_SteeringWhlTrqCmd : ℚ
  AKit_SteeringWhlAngleVelocity : ℚ
  AKit_SteeringWhlClearDriverOvrd : ℚ
  AKit_SteeringWhlIgnoreDriverOvrd : ℚ
  AKit_SteeringWhlQuiet : ℚ
  AKit_SteeringWhlCtrlMode : ℚ
  AKit_SteeringWhlCmdType : ℚ
  AKit_SteerCmdWatchdogCntr : ℚ
  deriving DecidableEq, Repr

/-- Signals of the DBC message `AKit_GearCommand` that the node writes. -/
structure AKit_GearCommand where
  AKit_PrndStateCmd : ℚ
  AKit_PrndClearDriverOvrd : ℚ
  AKit_PrndCmdWatchdogCntr : ℚ
  deriving DecidableEq, Repr

/-- Signals of the DBC message `AKit_Misc` that the node writes. -/
structure AKit_Misc where
  AKit_TurnSignalCmd : ℚ
  AKit_DoorToggleReq : ℚ
  AKit_MiscCmdWatchdogCntr : ℚ
  deriving DecidableEq, Repr

/-- The command messages held by `dbwDbc_`. `GetMessage` returns a pointer into this
store, so a signal keeps the value of the last `SetResult` across calls. -/
structure Dbc where
  brakeCommand : AKit_BrakeCommand
  accelPdlCommand : AKit_AccelPdlCommand
  steeringCommand : AKit_SteeringCommand
  gearCommand : AKit_GearCommand
  misc : AKit_Misc
  deriving DecidableEq, Repr

/-- A frame handed to `pub_can_`: `GetFrame()` packs the current value of every
signal of the message. -/
inductive Frame where
  | brake (m : AKit_BrakeCommand)
  | accel (m : AKit_AccelPdlCommand)
  | steering (m : AKit_SteeringCommand)
  | gear (m : AKit_GearCommand)
  | misc (m : AKit_Misc)
  deriving DecidableEq, Repr

/-- Fields of `dbw_pacifica_msgs::WheelSpeedReport` that `recvCAN` fills and
`publishJointStates` reads. -/
structure WheelSpeedReport where
  front_left : ℚ
  front_right : ℚ
  rear_left : ℚ
  rear_right : ℚ
  deriving DecidableEq, Repr

/-- The typed reports that `recvCAN` publishes, one constructor per report type. The
field values of a report are conversions of decoded signals; only those of the wheel
speed report, which `publishJointStates` reads, are represented. `lowVoltage` is the
`LowVoltageSystemReport`, which line 588 hands to `pub_misc_`. -/
inductive Report where
  | brake
  | acceleratorPedal
  | steering
  | gear
  | wheelSpeed (r : WheelSpeedReport)
  | wheelPosition
  | tirePressure
  | surround
  | imu
  | driverInput
  | misc
  | lowVoltage
  deriving DecidableEq, Repr

/-- The member `joint_state_`: the stamp of its header, the positions of the six joints
and the velocities of the four wheels (the other entries are never written). Times are
in seconds. -/
structure JointState where
  stamp : ℚ
  position_FL : ℚ
  position_FR : ℚ
  position_RL : ℚ
  position_RR : ℚ
  position_SL : ℚ
  position_SR : ℚ
  velocity_FL : ℚ
  velocity_FR : ℚ
  velocity_RL : ℚ
  velocity_RR : ℚ
  deriving DecidableEq, Repr

/-- Outward effects of the node that the embedding records. -/
inductive Out where
  /-- A message with this `data` published on `pub_sys_enable_` ("dbw_enabled"). -/
  | sysEnable (data : Bool)
  /-- A console diagnostic. -/
  | log (d : Diag)
  /-- A frame published on `pub_can_` ("can_tx"). -/
  | can (f : Frame)
  /-- A typed report handed to its publisher. -/
  | report (r : Report)
  /-- A string published on `pub_vin_` ("vin"), as the list of the values pushed. -/
  | vin (data : List ℚ)
  /-- The joint states published on `pub_joint_states_` ("joint_states"). -/
  | jointStates (j : JointState)
  deriving DecidableEq, Repr

/-- Fields of `dbw_pacifica_msgs::BrakeCmd` read by `recvBrakeCmd`. -/
structure BrakeCmd where
  pedal_cmd : ℚ
  count : Nat
  control_mode : Nat
  clear : Bool
  deriving DecidableEq, Repr

/-- Fields of `dbw_pacifica_msgs::AcceleratorPedalCmd` read by
`recvAcceleratorPedalCmd`. -/
structure AcceleratorPedalCmd where
  pedal_cmd : ℚ
  accelerator_pedal_cmd_rolling_counter : Nat
  control_mode : Nat
  clear : Bool
  ignore : Bool
  deriving DecidableEq, Repr

/-- Fields of `dbw_pacifica_msgs::SteeringCmd` read by `recvSteeringCmd`. -/
structure SteeringCmd where
  command_type : Nat
  steering_wheel_angle_cmd : ℚ
  steering_wheel_torque_cmd : ℚ
  steering_wheel_angle_velocity : ℚ
  clear : Bool
  ignore : Bool
  quiet : Bool
  control_mode : Nat
  count : Nat
  deriving DecidableEq, Repr

/-- Fields of `dbw_pacifica_msgs::GearCmd` read by `recvGearCmd`. -/
structure GearCmd where
  cmd_gear : Nat
  clear : Bool
  gear_cmd_rolling_counter : Nat
  deriving DecidableEq, Repr

/-- Fields of `dbw_pacifica_msgs::MiscCmd` read by `recvMiscCmd`. -/
structure MiscCmd where
  cmd : Nat
  door_request : Nat
  misc_cmd_rolling_counter : Nat
  deriving DecidableEq, Repr

/-- The two single-precision expressions of `recvSteeringCmd` that involve `M_PI`. -/
structure FloatOps where
  /-- `(float)(x * (180 / M_PI * 10))`, line 712. -/
  angleTenths : ℚ → ℚ
  /-- `roundf(fabsf(v) * 180 / M_PI / 2)`, line 724. -/
  rateRaw : ℚ → ℚ

/-- The node: the enable state machine, the DBC message store of the commands, the
VIN accumulator `vin_` (the values pushed so far) and `joint_state_`. -/
structure Node where
  st : State
  dbc : Dbc
  vin_ : List ℚ
  joint_state_ : JointState
  deriving DecidableEq, Repr

/-! ## Queries declared in `DbwNode.h` -/

/-- Modelled from the spec: the inline query `fault()` is declared in `DbwNode.h`, which
is not among the sources. The spec defines it as "the logical OR of all fault booleans
including watchdog". -/
def fault (s : State) : Bool :=
  s.fault_brakes_ || s.fault_accelerator_pedal_ || s.fault_steering_ ||
    s.fault_steering_cal_ || s.fault_watchdog_

/-- Modelled from the spec: the inline query `override()` of `DbwNode.h` (not among the
sources): the OR of the four per-subsystem `override_active` flags. -/
def override (s : State) : Bool :=
  s.override_brake_ || s.override_accelerator_pedal_ || s.override_steering_ ||
    s.override_gear_

/-- Modelled from the spec: the inline query `enabled()` is declared in `DbwNode.h`,
which is not among the sources. The spec calls it the computed "enabled predicate" and
requires that it is true only while no fault flag and no override flag is true; the
master flag `enable_` is the permission it gates. `DbwNode.cpp` relies on the same
reading: `enableSystem` sets `enable_ = true` and then reports "Waiting for ready" when
`enabled()` did not become true, and every override and fault setter has a branch
"DBW system enabled." for `enabled()` turning true although it only cleared a flag. -/
def enabled (s : State) : Bool :=
  s.enable_ && !fault s && !override s

/-! ## Enable state machine (DbwNode.cpp lines 794-806 and 860-1142) -/

/-- `DbwNode::publishDbwEnabled` (lines 794-806): returns `change`, the new state and
the publication made. -/
def publishDbwEnabled (s : State) : Bool × State × List Out :=
  let en := enabled s
  if s.prev_enable_ != en then
    (true, { s with prev_enable_ := en }, [Out.sysEnable en])
  else
    (false, { s with prev_enable_ := en }, [])

/-- `DbwNode::enableSystem` (lines 860-888). -/
def enableSystem (s : State) : State × List Out :=
  if !s.enable_ then
    if fault s then
      (s,
        (if s.fault_steering_cal_ then [Out.log Diag.notEnabledSteeringCal] else []) ++
        (if s.fault_brakes_ then [Out.log Diag.notEnabledBrakes] else []) ++
        (if s.fault_accelerator_pedal_ then [Out.log Diag.notEnabledAcceleratorPedal]
          else []) ++
        (if s.fault_steering_ then [Out.log Diag.notEnabledSteering] else []) ++
        (if s.fault_watchdog_ then [Out.log Diag.notEnabledWatchdog] else []))
    else
      let r := publishDbwEnabled { s with enable_ := true }
      (r.2.1,
        r.2.2 ++ [Out.log (if r.1 then Diag.systemEnabled else Diag.enableRequestedWaiting)])
  else
    (s, [])

/-- `DbwNode::disableSystem` (lines 890-897). -/
def disableSystem (s : State) : State × List Out :=
  if s.enable_ then
    let r := publishDbwEnabled { s with enable_ := false }
    (r.2.1, r.2.2 ++ [Out.log Diag.systemDisabled])
  else
    (s, [])

/-- `DbwNode::buttonCancel` (lines 899-906). -/
def buttonCancel (s : State) : State × List Out :=
  if s.enable_ then
    let r := publishDbwEnabled { s with enable_ := false }
    (r.2.1, r.2.2 ++ [Out.log Diag.disabledCancelButton])
  else
    (s, [])

/-- The tail shared by the override and fault setters: `publishDbwEnabled()` and, on a
change, the diagnostic chosen by the value `en` that `enabled()` had on entry. -/
def publishAndReport (en : Bool) (disabledText : Diag) (s : State) : State × List Out :=
  let r := publishDbwEnabled s
  (r.2.1,
    r.2.2 ++ (if r.1 then [Out.log (if en then disabledText else Diag.systemEnabled)]
      else []))

/-- `DbwNode::overrideBrake` (lines 908-922). -/
def overrideBrake (s : State) (override : Bool) : State × List Out :=
  let en := enabled s
  let s1 := if override && en then { s with enable_ := false } else s
  publishAndReport en Diag.disabledOverridePedal { s1 with override_brake_ := override }

/-- `DbwNode::overrideAcceleratorPedal` (lines 924-938). -/
def overrideAcceleratorPedal (s : State) (override : Bool) : State × List Out :=
  let en := enabled s
  let s1 := if override && en then { s with enable_ := false } else s
  publishAndReport en Diag.disabledOverridePedal
    { s1 with override_accelerator_pedal_ := override }

/-- `DbwNode::overrideSteering` (lines 940-954). -/
def overrideSteering (s : State) (override : Bool) : State × List Out :=
  let en := enabled s
  let s1 := if override && en then { s with enable_ := false } else s
  publishAndReport en Diag.disabledOverrideSteering { s1 with override_steering_ := override }

/-- `DbwNode::overrideGear` (lines 956-970). -/
def overrideGear (s : State) (override : Bool) : State × List Out :=
  let en := enabled s
  let s1 := if override && en then { s with enable_ := false } else s
  publishAndReport en Diag.disabledOverrideShifter { s1 with override_gear_ := override }

/-- `DbwNode::timeoutBrake` (lines 972-979). -/
def timeoutBrake (s : State) (timeout enabled : Bool) : State × List Out :=
  ({ s with timeout_brakes_ := timeout, enabled_brakes_ := enabled },
    if !s.timeout_brakes_ && s.enabled_brakes_ && timeout && !enabled then
      [Out.log Diag.timeoutBrake] else [])

/-- `DbwNode::timeoutAcceleratorPedal` (lines 981-988). -/
def timeoutAcceleratorPedal (s : State) (timeout enabled : Bool) : State × List Out :=
  ({ s with timeout_accelerator_pedal_ := timeout, enabled_accelerator_pedal_ := enabled },
    if !s.timeout_accelerator_pedal_ && s.enabled_accelerator_pedal_ && timeout && !enabled
    then [Out.log Diag.timeoutAcceleratorPedal] else [])

/-- `DbwNode::timeoutSteering` (lines 990-997). -/
def timeoutSteering (s : State) (timeout enabled : Bool) : State × List Out :=
  ({ s with timeout_steering_ := timeout, enabled_steering_ := enabled },
    if !s.timeout_steering_ && s.enabled_steering_ && timeout && !enabled then
      [Out.log Diag.timeoutSteering] else [])

/-- `DbwNode::faultBrakes` (lines 999-1013). -/
def faultBrakes (s : State) (fault : Bool) : State × List Out :=
  let en := enabled s
  let s1 := if fault && en then { s with enable_ := false } else s
  publishAndReport en Diag.disabledFaultBrakes { s1 with fault_brakes_ := fault }

/-- `DbwNode::faultAcceleratorPedal` (lines 1015-1029). -/
def faultAcceleratorPedal (s : State) (fault : Bool) : State × List Out :=
  let en := enabled s
  let s1 := if fault && en then { s with enable_ := false } else s
  publishAndReport en Diag.disabledFaultAcceleratorPedal
    { s1 with fault_accelerator_pedal_ := fault }

/-- `DbwNode::faultSteering` (lines 1031-1045). -/
def faultSteering (s : State) (fault : Bool) : State × List Out :=
  let en := enabled s
  let s1 := if fault && en then { s with enable_ := false } else s
  publishAndReport en Diag.disabledFaultSteering { s1 with fault_steering_ := fault }

/-- `DbwNode::faultSteeringCal` (lines 1047-1061). -/
def faultSteeringCal (s : State) (fault : Bool) : State × List Out :=
  let en := enabled s
  let s1 := if fault && en then { s with enable_ := false } else s
  publishAndReport en Diag.disabledFaultSteeringCal { s1 with fault_steering_cal_ := fault }

/-- `DbwNode::faultWatchdog(bool, uint8_t, bool)` (lines 1063-1138). -/
def faultWatchdog (s : State) (fault : Bool) (src : Nat) (braking : Bool) :
    State × List Out :=
  let en := enabled s
  let s1 := if fault && en then { s with enable_ := false } else s
  let r := publishAndReport en Diag.disabledFaultWatchdog { s1 with fault_watchdog_ := fault }
  let s2 := r.1
  let brakingText :=
    if braking && !s2.fault_watchdog_using_brakes_ then
      [Out.log Diag.watchdogApplyingBrakes]
    else if !braking && s2.fault_watchdog_using_brakes_ then
      [Out.log Diag.watchdogDriverTookControl]
    else []
  let warn := fault && (src != 0) && !s2.fault_watchdog_warned_
  let s3 :=
    if warn then { s2 with fault_watchdog_warned_ := true }
    else if !fault then { s2 with fault_watchdog_warned_ := false }
    else s2
  let s4 := { s3 with fault_watchdog_using_brakes_ := braking }
  (s4,
    r.2 ++ brakingText ++ (if warn then [Out.log (Diag.watchdogSource src)] else []) ++
      (if fault && !s4.fault_watchdog_using_brakes_ && s4.fault_watchdog_warned_ then
        [Out.log Diag.watchdogClearReminder] else []))

/-- `DbwNode::faultWatchdog(bool, uint8_t)` (lines 1140-1142), the overload that passes
the stored `fault_watchdog_using_brakes_` as `braking`. -/
def faultWatchdog₂ (s : State) (fault : Bool) (src : Nat) : State × List Out :=
  faultWatchdog s fault src s.fault_watchdog_using_brakes_

/-- The two-argument watchdog report as the spec words it, for comparison with
`faultWatchdog₂`: the three-argument report with "the braking-transition update"
omitted, that is without the diagnostic on a change of `braking` and without the store
into `fault_watchdog_using_brakes_`, whose stored value the reminder reads. -/
def specTwoArgumentWatchdog (s : State) (fault : Bool) (src : Nat) : State × List Out :=
  let en := enabled s
  let s1 := if fault && en then { s with enable_ := false } else s
  let r := publishAndReport en Diag.disabledFaultWatchdog { s1 with fault_watchdog_ := fault }
  let s2 := r.1
  let warn := fault && (src != 0) && !s2.fault_watchdog_warned_
  let s3 :=
    if warn then { s2 with fault_watchdog_warned_ := true }
    else if !fault then { s2 with fault_watchdog_warned_ := false }
    else s2
  (s3,
    r.2 ++ (if warn then [Out.log (Diag.watchdogSource src)] else []) ++
      (if fault && !s3.fault_watchdog_using_brakes_ && s3.fault_watchdog_warned_ then
        [Out.log Diag.watchdogClearReminder] else []))

/-! ## Command encoders (DbwNode.cpp lines 619-792)

`clear` stands for the inline query `clear()` of `DbwNode.h`, which is not among the
sources; the encoders and the timer are parametric in it. -/

/-- `DbwNode::recvBrakeCmd` (lines 619-649): the updated message store and the frame
published. -/
def recvBrakeCmd (clear : State → Bool) (s : State) (d : Dbc) (msg : BrakeCmd) :
    Dbc × List Out :=
  let m0 := { d.brakeCommand with
    AKit_BrakeCtrlEnblCmd := 0, AKit_BrakePedalCmd := 0, AKit_BrakePedalCtrlMode := 0,
    AKit_BrakePedalClearDriverOvrd := 0 }
  let m1 := if enabled s then
      { m0 with AKit_BrakePedalCmd := msg.pedal_cmd, AKit_BrakeCtrlEnblCmd := 1 }
    else m0
  let m2 := { m1 with AKit_BrakeWatchdogCntr := (msg.count : ℚ) }
  let m3 := if msg.control_mode = 1 then { m2 with AKit_BrakePedalCtrlMode := 1 } else m2
  let m4 := if clear s || msg.clear then { m3 with AKit_BrakePedalClearDriverOvrd := 1 }
    else m3
  ({ d with brakeCommand := m4 }, [Out.can (Frame.brake m4)])

/-- `DbwNode::recvAcceleratorPedalCmd` (lines 651-692). The `if` of line 672 governs the
statement of line 673; the braces of lines 674-675 are an empty block. -/
def recvAcceleratorPedalCmd (clear : State → Bool) (s : State) (d : Dbc)
    (msg : AcceleratorPedalCmd) : Dbc × List Out :=
  let m0 := { d.accelPdlCommand with
    AKit_AccelPdlEnblCmd := 0, AKit_AccelPdlCmd := 0, AKit_AccelPdlWatchdogCntr := 0,
    AKit_AccelPdlCtrlMode := 0, AKit_AccelPdlClearDriverOvrd := 0,
    Akit_AccelPdlIgnoreDriverOvrd := 0 }
  let m1 := if enabled s then
      { m0 with AKit_AccelPdlCmd := msg.pedal_cmd, AKit_AccelPdlEnblCmd := 1 }
    else m0
  let m2 := { m1 with
    AKit_AccelPdlWatchdogCntr := (msg.accelerator_pedal_cmd_rolling_counter : ℚ) }
  let m3 := if msg.control_mode = 1 then { m2 with AKit_AccelPdlWatchdogCntr := 1 } else m2
  let m4 := if msg.control_mode = 1 then { m3 with AKit_AccelPdlCtrlMode := 1 } else m3
  let m5 := if clear s || msg.clear then { m4 with AKit_AccelPdlClearDriverOvrd := 1 }
    else m4
  let m6 := if msg.ignore then { m5 with Akit_AccelPdlIgnoreDriverOvrd := 1 } else m5
  ({ d with accelPdlCommand := m6 }, [Out.can (Frame.accel m6)])

/-- `DbwNode::recvSteeringCmd` (lines 694-752). `AKit_SteeringWhlCmdType` is not among
the signals reset at lines 698-705. `vcmd` is a `uint16_t`: the clamped value, which is
at least 1, is truncated to an integer. -/
def recvSteeringCmd (fl : FloatOps) (clear : State → Bool) (s : State) (d : Dbc)
    (msg : SteeringCmd) : Dbc × List Out :=
  let m0 := { d.steeringCommand with
    AKit_SteerCtrlEnblCmd := 0, AKit_SteeringWhlAngleCmd := 0, AKit_SteeringWhlTrqCmd := 0,
    AKit_SteeringWhlAngleVelocity := 0, AKit_SteeringWhlClearDriverOvrd := 0,
    AKit_SteeringWhlIgnoreDriverOvrd := 0, AKit_SteeringWhlQuiet := 0,
    AKit_SteeringWhlCtrlMode := 0 }
  let scmd : ℚ := max (-5000) (min 5000 (fl.angleTenths msg.steering_wheel_angle_cmd)) / 10
  let vcmd : ℚ := (⌊max 1 (min 254 (fl.rateRaw msg.steering_wheel_angle_velocity))⌋₊ : ℕ)
  let m1 := if enabled s then
      let a := { m0 with AKit_SteeringWhlCmdType := (msg.command_type : ℚ) }
      let b := if msg.command_type = 0 then { a with AKit_SteeringWhlAngleCmd := scmd }
        else { a with AKit_SteeringWhlTrqCmd := msg.steering_wheel_torque_cmd }
      let c := if 0 < |msg.steering_wheel_angle_velocity| then
          { b with AKit_SteeringWhlAngleVelocity := vcmd }
        else b
      { c with AKit_SteerCtrlEnblCmd := 1 }
    else m0
  let m2 := if clear s || msg.clear then { m1 with AKit_SteeringWhlClearDriverOvrd := 1 }
    else m1
  let m3 := if msg.ignore then { m2 with AKit_SteeringWhlIgnoreDriverOvrd := 1 } else m2
  let m4 := if msg.quiet then { m3 with AKit_SteeringWhlQuiet := 1 } else m3
  let m5 := if msg.control_mode = 1 then { m4 with AKit_SteeringWhlCtrlMode := 1 } else m4
  let m6 := { m5 with AKit_SteerCmdWatchdogCntr := (msg.count : ℚ) }
  ({ d with steeringCommand := m6 }, [Out.can (Frame.steering m6)])

/-- `DbwNode::recvGearCmd` (lines 754-773). -/
def recvGearCmd (clear : State → Bool) (s : State) (d : Dbc) (msg : GearCmd) :
    Dbc × List Out :=
  let m0 := { d.gearCommand with AKit_PrndStateCmd := 0, AKit_PrndClearDriverOvrd := 0 }
  let m1 := if enabled s then { m0 with AKit_PrndStateCmd := (msg.cmd_gear : ℚ) } else m0
  let m2 := if clear s || msg.clear then { m1 with AKit_PrndClearDriverOvrd := 1 } else m1
  let m3 := { m2 with AKit_PrndCmdWatchdogCntr := (msg.gear_cmd_rolling_counter : ℚ) }
  ({ d with gearCommand := m3 }, [Out.can (Frame.gear m3)])

/-- `DbwNode::recvMiscCmd` (lines 775-792). -/
def recvMiscCmd (s : State) (d : Dbc) (msg : MiscCmd) : Dbc × List Out :=
  let m0 := { d.misc with AKit_TurnSignalCmd := 0 }
  let m1 := if enabled s then { m0 with AKit_TurnSignalCmd := (msg.cmd : ℚ) } else m0
  let m2 := { m1 with AKit_DoorToggleReq := (msg.door_request : ℚ) }
  let m3 := { m2 with AKit_MiscCmdWatchdogCntr := (msg.misc_cmd_rolling_counter : ℚ) }
  ({ d with misc := m3 }, [Out.can (Frame.misc m3)])

/-! ## Periodic timer (DbwNode.cpp lines 808-858) -/

/-- `DbwNode::timerCallback` (lines 808-858): the updated message store and the frames
published, in program order. -/
def timerCallback (clear : State → Bool) (s : State) (d : Dbc) : Dbc × List Out :=
  if clear s then
    let b := if s.override_brake_ then
        { d.brakeCommand with
          AKit_BrakePedalCmd := 0, AKit_BrakeCtrlEnblCmd := 0, AKit_BrakePedalCtrlMode := 0,
          AKit_BrakePedalClearDriverOvrd := 1 }
      else d.brakeCommand
    let a := if s.override_accelerator_pedal_ then
        { d.accelPdlCommand with
          AKit_AccelPdlCmd := 0, AKit_AccelPdlEnblCmd := 0,
          Akit_AccelPdlIgnoreDriverOvrd := 0, AKit_AccelPdlCtrlMode := 0,
          AKit_AccelPdlClearDriverOvrd := 1 }
      else d.accelPdlCommand
    let st := if s.override_steering_ then
        { d.steeringCommand with
          AKit_SteeringWhlAngleCmd := 0, AKit_SteeringWhlAngleVelocity := 0,
          AKit_SteeringWhlIgnoreDriverOvrd := 0, AKit_SteeringWhlQuiet := 0,
          AKit_SteeringWhlTrqCmd := 0, AKit_SteeringWhlCtrlMode := 0,
          AKit_SteeringWhlCmdType := 0, AKit_SteeringWhlClearDriverOvrd := 1 }
      else d.steeringCommand
    let g := if s.override_gear_ then
        { d.gearCommand with AKit_PrndStateCmd := 0, AKit_PrndClearDriverOvrd := 1 }
      else d.gearCommand
    ({ d with brakeCommand := b, accelPdlCommand := a, steeringCommand := st,
              gearCommand := g },
      (if s.override_brake_ then [Out.can (Frame.brake b)] else []) ++
      (if s.override_accelerator_pedal_ then [Out.can (Frame.accel a)] else []) ++
      (if s.override_steering_ then [Out.can (Frame.steering st)] else []) ++
      (if s.override_gear_ then [Out.can (Frame.gear g)] else []))
  else
    (d, [])

/-! ## Report decoding (DbwNode.cpp lines 151-617 and 1144-1167)

`recvCAN` uses the decoder of the DBC library, constants of `dispatch.h`, of `DbwNode.h`
and of the message definitions, and, in its steering branch, names that `DbwNode.cpp`
does not declare. None of these is among the sources; they are parameters of the
embedding. -/

/-- The identifiers that the `switch (msg->id)` of `recvCAN` names; `other` is an
identifier without a case label. -/
inductive MsgId where
  | ID_BRAKE_REPORT
  | ID_ACCEL_PEDAL_REPORT
  | ID_STEERING_REPORT
  | ID_GEAR_REPORT
  | ID_REPORT_WHEEL_SPEED
  | ID_REPORT_WHEEL_POSITION
  | ID_REPORT_TIRE_PRESSURE
  | ID_REPORT_SURROUND
  | ID_VIN
  | ID_REPORT_IMU
  | ID_REPORT_DRIVER_INPUT
  | ID_MISC_REPORT
  | ID_LOW_VOLTAGE_SYSTEM_REPORT
  | ID_BRAKE_CMD
  | ID_ACCELERATOR_PEDAL_CMD
  | ID_STEERING_CMD
  | ID_GEAR_CMD
  | other
  deriving DecidableEq, Repr

/-- The DBC signals whose decoded value reaches the state of the node, the VIN or the
joint states; the signals that only fill fields of a typed report are left out. -/
inductive Signal where
  | DBW_BrakeFault_Ch1
  | DBW_BrakeFault_Ch2
  | DBW_BrakeFault
  | DBW_BrakeDriverActivity
  | DBW_AccelPdlFault_Ch1
  | DBW_AccelPdlFault_Ch2
  | DBW_AccelPdlFault
  | DBW_AccelPdlDriverActivity
  | DBW_SteeringFault
  | DBW_SteeringDriverActivity
  | DBW_PrndDriverActivity
  | DBW_PrndStateReject
  | DBW_WhlSpdType
  | DBW_WhlRpm_FL
  | DBW_WhlRpm_FR
  | DBW_WhlRpm_RL
  | DBW_WhlRpm_RR
  | DBW_WhlSpd_FL
  | DBW_WhlSpd_FR
  | DBW_WhlSpd_RL
  | DBW_WhlSpd_RR
  | DBW_VinMultiplexor
  | DBW_VinDigit_01
  deriving DecidableEq, Repr

/-- A received `can_msgs::Frame`: `dlc` is its payload length, `stamp` the time of its
header in seconds, and `signal x` the value that `message->GetSignal(x)->GetResult()`
returns once `message->SetFrame(msg)` has decoded the frame. -/
structure CanMsg where
  id : MsgId
  is_rtr : Bool
  is_error : Bool
  dlc : Nat
  stamp : ℚ
  signal : Signal → ℚ

/-- Constants of `DbwNode.h` and of the message definitions that `recvCAN` compares
decoded values with. -/
structure Constants where
  WHEEL_SPEED_MUX0 : Nat
  WHEEL_SPEED_MUX1 : Nat
  VIN_MUX_VIN0 : Nat
  VIN_MUX_VIN1 : Nat
  VIN_MUX_VIN2 : Nat
  /-- The constant `dbw_pacifica_msgs::GearReject::NONE`. -/
  GearReject_NONE : Nat

/-- What the steering branch of `recvCAN` reads without a declaration in scope. -/
structure Unbound where
  /-- The value of `dbwSystemFault` at line 269. -/
  dbwSystemFault : Bool
  /-- The source that the one-argument call `faultWatchdog(dbwSystemFault)` of line 269
  passes on, a default argument of the declaration in `DbwNode.h`. -/
  faultWatchdog_src : Nat
  /-- The value of `out.steering_wheel_angle`, for the `&out` of line 291. -/
  out_steering_wheel_angle : ℚ

/-- The double-precision expressions of `publishJointStates` that involve `tan`, `atan`
and `fmod`; the Ackermann parameters are part of the first two. -/
structure JointOps where
  /-- `atan(L / (r - W/2))` with `r = L / tan(a / steering_ratio_)`, lines 1154-1157. -/
  steer_SL : ℚ → ℚ
  /-- `atan(L / (r + W/2))` with `r = L / tan(a / steering_ratio_)`, lines 1154-1158. -/
  steer_SR : ℚ → ℚ
  /-- `fmod(x, 2*M_PI)`, line 1162. -/
  fmod2pi : ℚ → ℚ

/-- `DbwNode::publishJointStates` (lines 1144-1167); `steering` is the
`steering_wheel_angle` of the report passed. The loop from `JOINT_FL` to `JOINT_RR`
visits the four wheel joints. -/
def publishJointStates (jo : JointOps) (j : JointState) (stamp : ℚ)
    (wheels : Option WheelSpeedReport) (steering : Option ℚ) : JointState × List Out :=
  let dt := stamp - j.stamp
  let j1 := match wheels with
    | some w => { j with
        velocity_FL := w.front_left, velocity_FR := w.front_right,
        velocity_RL := w.rear_left, velocity_RR := w.rear_right }
    | none => j
  let j2 := match steering with
    | some a => { j1 with position_SL := jo.steer_SL a, position_SR := jo.steer_SR a }
    | none => j1
  let j3 := if dt < 1 / 2 then
      { j2 with
        position_FL := jo.fmod2pi (j2.position_FL + dt * j2.velocity_FL),
        position_FR := jo.fmod2pi (j2.position_FR + dt * j2.velocity_FR),
        position_RL := jo.fmod2pi (j2.position_RL + dt * j2.velocity_RL),
        position_RR := jo.fmod2pi (j2.position_RR + dt * j2.velocity_RR) }
    else j2
  let j4 := { j3 with stamp := stamp }
  (j4, [Out.jointStates j4])

/-- The case `ID_BRAKE_REPORT` of `recvCAN` (lines 156-206). The second argument of
`faultWatchdog` is a `uint8_t` that receives the `bool` `brakeSystemFault`. -/
def recvCAN_ID_BRAKE_REPORT (GetDlc : MsgId → Nat) (n : Node) (msg : CanMsg) :
    Node × List Out :=
  if GetDlc MsgId.ID_BRAKE_REPORT ≤ msg.dlc then
    let faultCh1 := msg.signal Signal.DBW_BrakeFault_Ch1 != 0
    let faultCh2 := msg.signal Signal.DBW_BrakeFault_Ch2 != 0
    let brakeSystemFault := msg.signal Signal.DBW_BrakeFault != 0
    let dbwSystemFault := brakeSystemFault
    let r1 := faultBrakes n.st (faultCh1 && faultCh2)
    let r2 := faultWatchdog₂ r1.1 dbwSystemFault (if brakeSystemFault then 1 else 0)
    let r3 := overrideBrake r2.1 (msg.signal Signal.DBW_BrakeDriverActivity != 0)
    ({ n with st := r3.1 },
      r1.2 ++ r2.2 ++ r3.2 ++ [Out.report Report.brake] ++
        (if faultCh1 || faultCh2 then [Out.log (Diag.brakeFault faultCh1 faultCh2)] else []))
  else
    (n, [])

/-- The case `ID_ACCEL_PEDAL_REPORT` of `recvCAN` (lines 208-255). -/
def recvCAN_ID_ACCEL_PEDAL_REPORT (GetDlc : MsgId → Nat) (n : Node) (msg : CanMsg) :
    Node × List Out :=
  if GetDlc MsgId.ID_ACCEL_PEDAL_REPORT ≤ msg.dlc then
    let faultCh1 := msg.signal Signal.DBW_AccelPdlFault_Ch1 != 0
    let faultCh2 := msg.signal Signal.DBW_AccelPdlFault_Ch2 != 0
    let accelPdlSystemFault := msg.signal Signal.DBW_AccelPdlFault != 0
    let dbwSystemFault := accelPdlSystemFault
    let r1 := faultAcceleratorPedal n.st (faultCh1 && faultCh2)
    let r2 := faultWatchdog₂ r1.1 dbwSystemFault (if accelPdlSystemFault then 1 else 0)
    let r3 := overrideAcceleratorPedal r2.1
      (msg.signal Signal.DBW_AccelPdlDriverActivity != 0)
    ({ n with st := r3.1 },
      r1.2 ++ r2.2 ++ r3.2 ++ [Out.report Report.acceleratorPedal] ++
        (if faultCh1 || faultCh2 then
          [Out.log (Diag.acceleratorPedalFault faultCh1 faultCh2)] else []))
  else
    (n, [])

/-- The case `ID_STEERING_REPORT` of `recvCAN` (lines 257-299). -/
def recvCAN_ID_STEERING_REPORT (GetDlc : MsgId → Nat) (u : Unbound) (jo : JointOps)
    (n : Node) (msg : CanMsg) : Node × List Out :=
  if GetDlc MsgId.ID_STEERING_REPORT ≤ msg.dlc then
    let steeringSystemFault := msg.signal Signal.DBW_SteeringFault != 0
    let r1 := faultSteering n.st steeringSystemFault
    let r2 := faultWatchdog₂ r1.1 u.dbwSystemFault u.faultWatchdog_src
    let r3 := overrideSteering r2.1 (msg.signal Signal.DBW_SteeringDriverActivity != 0)
    let j := publishJointStates jo n.joint_state_ msg.stamp none
      (some u.out_steering_wheel_angle)
    ({ n with st := r3.1, joint_state_ := j.1 },
      r1.2 ++ r2.2 ++ r3.2 ++ [Out.report Report.steering] ++ j.2 ++
        (if steeringSystemFault then [Out.log Diag.steeringFault] else []))
  else
    (n, [])

/-- The case `ID_GEAR_REPORT` of `recvCAN` (lines 301-348): the outer guard is
`msg->dlc >= 1`, and only the reject field waits for `msg->dlc >= message->GetDlc()`.
`out.reject` receives a `bool`, so its value is 0 or 1. -/
def recvCAN_ID_GEAR_REPORT (K : Constants) (GetDlc : MsgId → Nat) (n : Node)
    (msg : CanMsg) : Node × List Out :=
  if 1 ≤ msg.dlc then
    let driverActivity := msg.signal Signal.DBW_PrndDriverActivity != 0
    let r1 := overrideGear n.st driverActivity
    let reject : Nat := if msg.signal Signal.DBW_PrndStateReject != 0 then 1 else 0
    let r2 : State × List Out :=
      if GetDlc MsgId.ID_GEAR_REPORT ≤ msg.dlc then
        if reject = K.GearReject_NONE then
          ({ r1.1 with gear_warned_ := false }, [])
        else if !r1.1.gear_warned_ then
          ({ r1.1 with gear_warned_ := true }, [Out.log (Diag.gearRejected reject)])
        else
          (r1.1, [])
      else
        (r1.1, [])
    ({ n with st := r2.1 }, r1.2 ++ r2.2 ++ [Out.report Report.gear])
  else
    (n, [])

/-- The case `ID_REPORT_WHEEL_SPEED` of `recvCAN` (lines 350-376). -/
def recvCAN_ID_REPORT_WHEEL_SPEED (K : Constants) (GetDlc : MsgId → Nat) (jo : JointOps)
    (n : Node) (msg : CanMsg) : Node × List Out :=
  if GetDlc MsgId.ID_REPORT_WHEEL_SPEED ≤ msg.dlc then
    let out : WheelSpeedReport :=
      if msg.signal Signal.DBW_WhlSpdType = (K.WHEEL_SPEED_MUX0 : ℚ) then
        { front_left := msg.signal Signal.DBW_WhlRpm_FL,
          front_right := msg.signal Signal.DBW_WhlRpm_FR,
          rear_left := msg.signal Signal.DBW_WhlRpm_RL,
          rear_right := msg.signal Signal.DBW_WhlRpm_RR }
      else if msg.signal Signal.DBW_WhlSpdType = (K.WHEEL_SPEED_MUX1 : ℚ) then
        { front_left := msg.signal Signal.DBW_WhlSpd_FL,
          front_right := msg.signal Signal.DBW_WhlSpd_FR,
          rear_left := msg.signal Signal.DBW_WhlSpd_RL,
          rear_right := msg.signal Signal.DBW_WhlSpd_RR }
      else
        { front_left := 0, front_right := 0, rear_left := 0, rear_right := 0 }
    let j := publishJointStates jo n.joint_state_ msg.stamp (some out) none
    ({ n with joint_state_ := j.1 }, [Out.report (Report.wheelSpeed out)] ++ j.2)
  else
    (n, [])

/-- The case `ID_VIN` of `recvCAN` (lines 447-481): every `push_back` reads the signal
`DBW_VinDigit_01`. -/
def recvCAN_ID_VIN (K : Constants) (GetDlc : MsgId → Nat) (n : Node) (msg : CanMsg) :
    Node × List Out :=
  if GetDlc MsgId.ID_VIN ≤ msg.dlc then
    let c := msg.signal Signal.DBW_VinDigit_01
    if msg.signal Signal.DBW_VinMultiplexor = (K.VIN_MUX_VIN0 : ℚ) then
      ({ n with vin_ := n.vin_ ++ [c, c, c, c, c, c, c] }, [])
    else if msg.signal Signal.DBW_VinMultiplexor = (K.VIN_MUX_VIN1 : ℚ) then
      ({ n with vin_ := n.vin_ ++ [c, c, c, c, c, c, c] }, [])
    else if msg.signal Signal.DBW_VinMultiplexor = (K.VIN_MUX_VIN2 : ℚ) then
      ({ n with vin_ := n.vin_ ++ [c, c, c] }, [Out.vin (n.vin_ ++ [c, c, c])])
    else
      (n, [])
  else
    (n, [])

/-- The cases of `recvCAN` that only publish a typed report (lines 378-445 and
483-591). -/
def recvCAN_report (GetDlc : MsgId → Nat) (id : MsgId) (r : Report) (n : Node)
    (msg : CanMsg) : Node × List Out :=
  if GetDlc id ≤ msg.dlc then (n, [Out.report r]) else (n, [])

/-- `DbwNode::recvCAN` (lines 151-617). -/
def recvCAN (K : Constants) (GetDlc : MsgId → Nat) (u : Unbound) (jo : JointOps)
    (n : Node) (msg : CanMsg) : Node × List Out :=
  if !msg.is_rtr && !msg.is_error then
    match msg.id with
    | MsgId.ID_BRAKE_REPORT => recvCAN_ID_BRAKE_REPORT GetDlc n msg
    | MsgId.ID_ACCEL_PEDAL_REPORT => recvCAN_ID_ACCEL_PEDAL_REPORT GetDlc n msg
    | MsgId.ID_STEERING_REPORT => recvCAN_ID_STEERING_REPORT GetDlc u jo n msg
    | MsgId.ID_GEAR_REPORT => recvCAN_ID_GEAR_REPORT K GetDlc n msg
    | MsgId.ID_REPORT_WHEEL_SPEED => recvCAN_ID_REPORT_WHEEL_SPEED K GetDlc jo n msg
    | MsgId.ID_REPORT_WHEEL_POSITION =>
      recvCAN_report GetDlc MsgId.ID_REPORT_WHEEL_POSITION Report.wheelPosition n msg
    | MsgId.ID_REPORT_TIRE_PRESSURE =>
      recvCAN_report GetDlc MsgId.ID_REPORT_TIRE_PRESSURE Report.tirePressure n msg
    | MsgId.ID_REPORT_SURROUND =>
      recvCAN_report GetDlc MsgId.ID_REPORT_SURROUND Report.surround n msg
    | MsgId.ID_VIN => recvCAN_ID_VIN K GetDlc n msg
    | MsgId.ID_REPORT_IMU => recvCAN_report GetDlc MsgId.ID_REPORT_IMU Report.imu n msg
    | MsgId.ID_REPORT_DRIVER_INPUT =>
      recvCAN_report GetDlc MsgId.ID_REPORT_DRIVER_INPUT Report.driverInput n msg
    | MsgId.ID_MISC_REPORT => recvCAN_report GetDlc MsgId.ID_MISC_REPORT Report.misc n msg
    | MsgId.ID_LOW_VOLTAGE_SYSTEM_REPORT =>
      recvCAN_report GetDlc MsgId.ID_LOW_VOLTAGE_SYSTEM_REPORT Report.lowVoltage n msg
    | MsgId.ID_BRAKE_CMD => (n, [])
    | MsgId.ID_ACCELERATOR_PEDAL_CMD => (n, [])
    | MsgId.ID_STEERING_CMD => (n, [])
    | MsgId.ID_GEAR_CMD => (n, [])
    | MsgId.other => (n, [])
  else
    (n, [])

/-! ## Construction and event traces -/

/-- The member initialisation of the constructor (lines 46-66), before the first
`publishDbwEnabled()`. -/
def constructorFields : State where
  prev_enable_ := true
  enable_ := false
  override_brake_ := false
  override_accelerator_pedal_ := false
  override_steering_ := false
  override_gear_ := false
  fault_brakes_ := false
  fault_accelerator_pedal_ := false
  fault_steering_ := false
  fault_steering_cal_ := false
  fault_watchdog_ := false
  fault_watchdog_using_brakes_ := false
  fault_watchdog_warned_ := false
  timeout_brakes_ := false
  timeout_accelerator_pedal_ := false
  timeout_steering_ := false
  enabled_brakes_ := false
  enabled_accelerator_pedal_ := false
  enabled_steering_ := false
  gear_warned_ := false

/-- `DbwNode::DbwNode` as far as the enable state machine goes: the member
initialisation followed by the `publishDbwEnabled()` of line 115. -/
def construct : State × List Out :=
  let r := publishDbwEnabled constructorFields
  (r.2.1, r.2.2)

/-- The node as the constructor leaves it; `dbc` is the message store that `NewDbc`
built from the DBC file (line 131). `vin_` is empty, the joint vectors are resized to
zeros (lines 86-87) and the stamp of `joint_state_` is the zero time. -/
def initial (dbc : Dbc) : Node :=
  { st := construct.1, dbc := dbc, vin_ := [],
    joint_state_ := ⟨0, 0, 0, 0, 0, 0, 0, 0, 0, 0, 0⟩ }

/-- The events that the node serves, one per callback or state machine entry point. -/
inductive Event where
  /-- `recvEnable`, i.e. `enableSystem()`. -/
  | enable
  /-- `recvDisable`, i.e. `disableSystem()`. -/
  | disable
  | buttonCancel
  | overrideBrake (active : Bool)
  | overrideAcceleratorPedal (active : Bool)
  | overrideSteering (active : Bool)
  | overrideGear (active : Bool)
  | timeoutBrake (timeout enabled : Bool)
  | timeoutAcceleratorPedal (timeout enabled : Bool)
  | timeoutSteering (timeout enabled : Bool)
  | faultBrakes (fault : Bool)
  | faultAcceleratorPedal (fault : Bool)
  | faultSteering (fault : Bool)
  | faultSteeringCal (fault : Bool)
  | faultWatchdog (fault : Bool) (src : Nat) (braking : Bool)
  | faultWatchdog₂ (fault : Bool) (src : Nat)
  /-- One tick of `timer_`. -/
  | timer
  | brakeCmd (msg : BrakeCmd)
  | acceleratorPedalCmd (msg : AcceleratorPedalCmd)
  | steeringCmd (msg : SteeringCmd)
  | gearCmd (msg : GearCmd)
  | miscCmd (msg : MiscCmd)
  deriving DecidableEq, Repr

/-- Lift a state machine entry point to the node. -/
def onState (n : Node) (r : State × List Out) : Node × List Out :=
  ({ n with st := r.1 }, r.2)

/-- Lift an encoder to the node. -/
def onDbc (n : Node) (r : Dbc × List Out) : Node × List Out :=
  ({ n with dbc := r.1 }, r.2)

/-- Serve one event. -/
def step (fl : FloatOps) (clear : State → Bool) (n : Node) : Event → Node × List Out
  | Event.enable => onState n (enableSystem n.st)
  | Event.disable => onState n (disableSystem n.st)
  | Event.buttonCancel => onState n (buttonCancel n.st)
  | Event.overrideBrake b => onState n (overrideBrake n.st b)
  | Event.overrideAcceleratorPedal b => onState n (overrideAcceleratorPedal n.st b)
  | Event.overrideSteering b => onState n (overrideSteering n.st b)
  | Event.overrideGear b => onState n (overrideGear n.st b)
  | Event.timeoutBrake t e => onState n (timeoutBrake n.st t e)
  | Event.timeoutAcceleratorPedal t e => onState n (timeoutAcceleratorPedal n.st t e)
  | Event.timeoutSteering t e => onState n (timeoutSteering n.st t e)
  | Event.faultBrakes f => onState n (faultBrakes n.st f)
  | Event.faultAcceleratorPedal f => onState n (faultAcceleratorPedal n.st f)
  | Event.faultSteering f => onState n (faultSteering n.st f)
  | Event.faultSteeringCal f => onState n (faultSteeringCal n.st f)
  | Event.faultWatchdog f src b => onState n (faultWatchdog n.st f src b)
  | Event.faultWatchdog₂ f src => onState n (faultWatchdog₂ n.st f src)
  | Event.timer => onDbc n (timerCallback clear n.st n.dbc)
  | Event.brakeCmd msg => onDbc n (recvBrakeCmd clear n.st n.dbc msg)
  | Event.acceleratorPedalCmd msg => onDbc n (recvAcceleratorPedalCmd clear n.st n.dbc msg)
  | Event.steeringCmd msg => onDbc n (recvSteeringCmd fl clear n.st n.dbc msg)
  | Event.gearCmd msg => onDbc n (recvGearCmd clear n.st n.dbc msg)
  | Event.miscCmd msg => onDbc n (recvMiscCmd n.st n.dbc msg)

/-- Serve a sequence of events in order, from node `n`. -/
def run (fl : FloatOps) (clear : State → Bool) (n : Node) (es : List Event) : Node :=
  es.foldl (fun m e => (step fl clear m e).1) n

/-- The `data` of the "dbw_enabled" publications among a list of effects, in order. -/
def sysEnables : List Out → List Bool
  | [] => []
  | Out.sysEnable b :: os => b :: sysEnables os
  | _ :: os => sysEnables os

/-- The frames published on "can_tx" among a list of effects, in order. -/
def canFrames : List Out → List Frame
  | [] => []
  | Out.can f :: os => f :: canFrames os
  | _ :: os => canFrames os

/-- Serve a sequence of received frames in order, from node `n`. -/
def recvCANs (K : Constants) (GetDlc : MsgId → Nat) (u : Unbound) (jo : JointOps)
    (n : Node) (msgs : List CanMsg) : Node :=
  msgs.foldl (fun m x => (recvCAN K GetDlc u jo m x).1) n

/-! ## Concrete inputs for the examples -/

/-- A message store with every signal at 0. -/
def zeroDbc : Dbc where
  brakeCommand := ⟨0, 0, 0, 0, 0⟩
  accelPdlCommand := ⟨0, 0, 0, 0, 0, 0⟩
  steeringCommand := ⟨0, 0, 0, 0, 0, 0, 0, 0, 0, 0⟩
  gearCommand := ⟨0, 0, 0⟩
  misc := ⟨0, 0, 0⟩

/-- Float operations for the examples, with 3 in place of `M_PI` and no rounding. -/
def exampleFloatOps : FloatOps where
  angleTenths := fun x => x * 600
  rateRaw := fun v => |v| * 30

/-- The reading of `clear()` that the spec gives: true whenever `fault()` is false. -/
def exampleClear (s : State) : Bool :=
  !fault s

/-- A message store in which every signal holds 9, as left by earlier commands. -/
def staleDbc : Dbc where
  brakeCommand := ⟨9, 9, 9, 9, 9⟩
  accelPdlCommand := ⟨9, 9, 9, 9, 9, 9⟩
  steeringCommand := ⟨9, 9, 9, 9, 9, 9, 9, 9, 9, 9⟩
  gearCommand := ⟨9, 9, 9⟩
  misc := ⟨9, 9, 9⟩

/-- A brake request: pedal command 25, counter 3, control mode 1, no clear. -/
def exampleBrakeCmd : BrakeCmd :=
  { pedal_cmd := 25, count := 3, control_mode := 1, clear := false }

/-- An accelerator pedal request: pedal command 40, rolling counter 5, control mode 1,
no clear, no ignore. -/
def exampleAcceleratorPedalCmd : AcceleratorPedalCmd :=
  { pedal_cmd := 40, accelerator_pedal_cmd_rolling_counter := 5, control_mode := 1,
    clear := false, ignore := false }

/-- A steering request in angle mode: angle 10 (600 degrees under `exampleFloatOps`),
torque 2, angular rate 1/2, ignore and quiet set, control mode 1, counter 7. -/
def exampleSteeringCmd : SteeringCmd :=
  { command_type := 0, steering_wheel_angle_cmd := 10, steering_wheel_torque_cmd := 2,
    steering_wheel_angle_velocity := 1 / 2, clear := false, ignore := true, quiet := true,
    control_mode := 1, count := 7 }

/-- A gear request: gear 4, no clear, rolling counter 9. -/
def exampleGearCmd : GearCmd :=
  { cmd_gear := 4, clear := false, gear_cmd_rolling_counter := 9 }

/-- A miscellaneous request: turn signal 2, door request 1, rolling counter 11. -/
def exampleMiscCmd : MiscCmd :=
  { cmd := 2, door_request := 1, misc_cmd_rolling_counter := 11 }

/-- The state after construction and an enable request: `enabled()` is true. -/
def exampleEnabled : State :=
  (enableSystem construct.1).1

/-- The state after construction and override reports on the brake and on the steering
wheel. -/
def exampleOverridden : State :=
  (overrideSteering (overrideBrake construct.1 true).1 true).1

/-- Values for the constants of the header, for the examples. -/
def exampleConstants : Constants :=
  { WHEEL_SPEED_MUX0 := 0, WHEEL_SPEED_MUX1 := 1, VIN_MUX_VIN0 := 0, VIN_MUX_VIN1 := 1,
    VIN_MUX_VIN2 := 2, GearReject_NONE := 0 }

/-- A DBC file in which every message is 8 bytes long. -/
def exampleGetDlc (_ : MsgId) : Nat :=
  8

/-- Values for the undeclared names of the steering branch, for the examples. -/
def exampleUnbound : Unbound :=
  { dbwSystemFault := false, faultWatchdog_src := 0, out_steering_wheel_angle := 0 }

/-- Stand-ins for the trigonometric expressions, for the examples. -/
def exampleJointOps : JointOps :=
  { steer_SL := fun a => a, steer_SR := fun a => a, fmod2pi := fun x => x }

/-- A gear report frame of one byte that reports driver activity on the shifter. -/
def exampleShortGearReport : CanMsg :=
  { id := MsgId.ID_GEAR_REPORT, is_rtr := false, is_error := false, dlc := 1, stamp := 0,
    signal := fun x => if x = Signal.DBW_PrndDriverActivity then 1 else 0 }

/-- A brake report frame of seven bytes that reports a fault on both channels. -/
def exampleShortBrakeReport : CanMsg :=
  { id := MsgId.ID_BRAKE_REPORT, is_rtr := false, is_error := false, dlc := 7, stamp := 0,
    signal := fun _ => 1 }

/-- A full-length VIN frame with this multiplexor value whose `DBW_VinDigit_01` decodes
to `digit`. -/
def exampleVin (mux : ℚ) (digit : ℚ) : CanMsg :=
  { id := MsgId.ID_VIN, is_rtr := false, is_error := false, dlc := 8, stamp := 0,
    signal := fun x => if x = Signal.DBW_VinMultiplexor then mux else digit }

/-- A steering request in torque mode: command type 1, torque 2, no rate, counter 7. -/
def exampleTorqueCmd : SteeringCmd :=
  { command_type := 1, steering_wheel_angle_cmd := 10, steering_wheel_torque_cmd := 2,
    steering_wheel_angle_velocity := 0, clear := false, ignore := false, quiet := false,
    control_mode := 0, count := 7 }

/-- The constructed state with the brake and watchdog fault flags set. -/
def exampleFaulted : State :=
  { construct.1 with fault_brakes_ := true, fault_watchdog_ := true }

/-- A brake report frame of eight bytes that reports a fault on channel 1 only. -/
def exampleBrakeReport : CanMsg :=
  { id := MsgId.ID_BRAKE_REPORT, is_rtr := false, is_error := false, dlc := 8, stamp := 0,
    signal := fun x => if x = Signal.DBW_BrakeFault_Ch1 then 1 else 0 }

/-- An accelerator pedal report frame of eight bytes that reports a fault on channel 2
only. -/
def exampleAccelPedalReport : CanMsg :=
  { id := MsgId.ID_ACCEL_PEDAL_REPORT, is_rtr := false, is_error := false, dlc := 8,
    stamp := 0, signal := fun x => if x = Signal.DBW_AccelPdlFault_Ch2 then 1 else 0 }

/-! ## Auxiliary facts -/

theorem publishDbwEnabled_change (s : State) :
    (publishDbwEnabled s).1 = (s.prev_enable_ != enabled s) := by
  simp only [publishDbwEnabled]
  split <;> simp_all

theorem publishDbwEnabled_state (s : State) :
    (publishDbwEnabled s).2.1 = { s with prev_enable_ := enabled s } := by
  simp only [publishDbwEnabled]
  split <;> rfl

theorem publishDbwEnabled_outs (s : State) :
    (publishDbwEnabled s).2.2 =
      if s.prev_enable_ != enabled s then [Out.sysEnable (enabled s)] else [] := by
  simp only [publishDbwEnabled]
  split <;> rfl

theorem sysEnables_append (xs ys : List Out) :
    sysEnables (xs ++ ys) = sysEnables xs ++ sysEnables ys := by
  induction xs with
  | nil => rfl
  | cons x xs ih => cases x <;> simp [sysEnables, ih]

theorem sysEnables_logIf (c : Bool) (d : Diag) :
    sysEnables (if c = true then [Out.log d] else []) = [] := by
  cases c <;> rfl

theorem sysEnables_publishDbwEnabled (s : State) :
    sysEnables (publishDbwEnabled s).2.2 =
      if s.prev_enable_ != enabled s then [enabled s] else [] := by
  rw [publishDbwEnabled_outs]
  split <;> rfl

/-- The record fields that `enabled()` reads do not include `prev_enable_`. -/
theorem enabled_prev (s : State) (p : Bool) :
    enabled { s with prev_enable_ := p } = enabled s := rfl

theorem publishAndReport_state (en : Bool) (d : Diag) (s : State) :
    (publishAndReport en d s).1 = { s with prev_enable_ := enabled s } := by
  simp [publishAndReport, publishDbwEnabled_state]

theorem publishAndReport_sysEnables (en : Bool) (d : Diag) (s : State) :
    sysEnables (publishAndReport en d s).2 =
      if s.prev_enable_ != enabled s then [enabled s] else [] := by
  simp only [publishAndReport, publishDbwEnabled_outs, publishDbwEnabled_change,
    sysEnables_append]
  split <;> simp [sysEnables]

/-- The conditional `enable_ = false` of the setters, as one record update. -/
theorem gate_eq (c : Bool) (s : State) :
    (if c = true then { s with enable_ := false } else s) =
      { s with enable_ := s.enable_ && !c } := by
  cases c <;> simp

/-! ### The state each entry point leaves, in closed form -/

theorem overrideBrake_state (s : State) (b : Bool) :
    (overrideBrake s b).1 =
      { s with
        enable_ := s.enable_ && !(b && enabled s)
        override_brake_ := b
        prev_enable_ := enabled { s with
          enable_ := s.enable_ && !(b && enabled s), override_brake_ := b } } := by
  simp only [overrideBrake, gate_eq, publishAndReport_state]

theorem overrideAcceleratorPedal_state (s : State) (b : Bool) :
    (overrideAcceleratorPedal s b).1 =
      { s with
        enable_ := s.enable_ && !(b && enabled s)
        override_accelerator_pedal_ := b
        prev_enable_ := enabled { s with
          enable_ := s.enable_ && !(b && enabled s), override_accelerator_pedal_ := b } } := by
  simp only [overrideAcceleratorPedal, gate_eq, publishAndReport_state]

theorem overrideSteering_state (s : State) (b : Bool) :
    (overrideSteering s b).1 =
      { s with
        enable_ := s.enable_ && !(b && enabled s)
        override_steering_ := b
        prev_enable_ := enabled { s with
          enable_ := s.enable_ && !(b && enabled s), override_steering_ := b } } := by
  simp only [overrideSteering, gate_eq, publishAndReport_state]

theorem overrideGear_state (s : State) (b : Bool) :
    (overrideGear s b).1 =
      { s with
        enable_ := s.enable_ && !(b && enabled s)
        override_gear_ := b
        prev_enable_ := enabled { s with
          enable_ := s.enable_ && !(b && enabled s), override_gear_ := b } } := by
  simp only [overrideGear, gate_eq, publishAndReport_state]

theorem faultBrakes_state (s : State) (b : Bool) :
    (faultBrakes s b).1 =
      { s with
        enable_ := s.enable_ && !(b && enabled s)
        fault_brakes_ := b
        prev_enable_ := enabled { s with
          enable_ := s.enable_ && !(b && enabled s), fault_brakes_ := b } } := by
  simp only [faultBrakes, gate_eq, publishAndReport_state]

theorem faultAcceleratorPedal_state (s : State) (b : Bool) :
    (faultAcceleratorPedal s b).1 =
      { s with
        enable_ := s.enable_ && !(b && enabled s)
        fault_accelerator_pedal_ := b
        prev_enable_ := enabled { s with
          enable_ := s.enable_ && !(b && enabled s), fault_accelerator_pedal_ := b } } := by
  simp only [faultAcceleratorPedal, gate_eq, publishAndReport_state]

theorem faultSteering_state (s : State) (b : Bool) :
    (faultSteering s b).1 =
      { s with
        enable_ := s.enable_ && !(b && enabled s)
        fault_steering_ := b
        prev_enable_ := enabled { s with
          enable_ := s.enable_ && !(b && enabled s), fault_steering_ := b } } := by
  simp only [faultSteering, gate_eq, publishAndReport_state]

theorem faultSteeringCal_state (s : State) (b : Bool) :
    (faultSteeringCal s b).1 =
      { s with
        enable_ := s.enable_ && !(b && enabled s)
        fault_steering_cal_ := b
        prev_enable_ := enabled { s with
          enable_ := s.enable_ && !(b && enabled s), fault_steering_cal_ := b } } := by
  simp only [faultSteeringCal, gate_eq, publishAndReport_state]

theorem faultWatchdog_state (s : State) (f : Bool) (src : Nat) (b : Bool) :
    (faultWatchdog s f src b).1 =
      { s with
        enable_ := s.enable_ && !(f && enabled s)
        fault_watchdog_ := f
        prev_enable_ := enabled { s with
          enable_ := s.enable_ && !(f && enabled s), fault_watchdog_ := f }
        fault_watchdog_warned_ :=
          if f && (src != 0) && !s.fault_watchdog_warned_ then true
          else if !f then false else s.fault_watchdog_warned_
        fault_watchdog_using_brakes_ := b } := by
  simp only [faultWatchdog, gate_eq, publishAndReport_state]
  split
  · simp_all
  · split <;> simp_all

theorem enableSystem_state (s : State) :
    (enableSystem s).1 =
      if !s.enable_ && !fault s then
        { s with enable_ := true, prev_enable_ := enabled { s with enable_ := true } }
      else s := by
  simp only [enableSystem]
  cases s.enable_ <;> cases fault s <;> simp [publishDbwEnabled_state]

theorem disableSystem_state (s : State) :
    (disableSystem s).1 =
      if s.enable_ then { s with enable_ := false, prev_enable_ := false } else s := by
  simp only [disableSystem]
  cases s.enable_ <;> simp [publishDbwEnabled_state, enabled]

theorem buttonCancel_state (s : State) :
    (buttonCancel s).1 =
      if s.enable_ then { s with enable_ := false, prev_enable_ := false } else s := by
  simp only [buttonCancel]
  cases s.enable_ <;> simp [publishDbwEnabled_state, enabled]

/-! ### What each setter publishes, and that it is idempotent -/

theorem overrideBrake_prev (s : State) (b : Bool) :
    (overrideBrake s b).1.prev_enable_ = enabled (overrideBrake s b).1 := by
  simp [overrideBrake_state, enabled, fault, override]

theorem overrideBrake_sysEnables (s : State) (b : Bool) :
    sysEnables (overrideBrake s b).2 =
      if s.prev_enable_ != enabled (overrideBrake s b).1 then [enabled (overrideBrake s b).1] else [] := by
  simp only [overrideBrake, gate_eq, publishAndReport_sysEnables, publishAndReport_state]
  simp [enabled, fault, override]

theorem overrideBrake_idem (s : State) (b : Bool) :
    (overrideBrake (overrideBrake s b).1 b).1 = (overrideBrake s b).1 := by
  simp only [overrideBrake_state]
  cases b <;> simp [enabled, fault, override]

theorem overrideAcceleratorPedal_prev (s : State) (b : Bool) :
    (overrideAcceleratorPedal s b).1.prev_enable_ = enabled (overrideAcceleratorPedal s b).1 := by
  simp [overrideAcceleratorPedal_state, enabled, fault, override]

theorem overrideAcceleratorPedal_sysEnables (s : State) (b : Bool) :
    sysEnables (overrideAcceleratorPedal s b).2 =
      if s.prev_enable_ != enabled (overrideAcceleratorPedal s b).1 then [enabled (overrideAcceleratorPedal s b).1] else [] := by
  simp only [overrideAcceleratorPedal, gate_eq, publishAndReport_sysEnables, publishAndReport_state]
  simp [enabled, fault, override]

theorem overrideAcceleratorPedal_idem (s : State) (b : Bool) :
    (overrideAcceleratorPedal (overrideAcceleratorPedal s b).1 b).1 = (overrideAcceleratorPedal s b).1 := by
  simp only [overrideAcceleratorPedal_state]
  cases b <;> simp [enabled, fault, override]

theorem overrideSteering_prev (s : State) (b : Bool) :
    (overrideSteering s b).1.prev_enable_ = enabled (overrideSteering s b).1 := by
  simp [overrideSteering_state, enabled, fault, override]

theorem overrideSteering_sysEnables (s : State) (b : Bool) :
    sysEnables (overrideSteering s b).2 =
      if s.prev_enable_ != enabled (overrideSteering s b).1 then [enabled (overrideSteering s b).1] else [] := by
  simp only [overrideSteering, gate_eq, publishAndReport_sysEnables, publishAndReport_state]
  simp [enabled, fault, override]

theorem overrideSteering_idem (s : State) (b : Bool) :
    (overrideSteering (overrideSteering s b).1 b).1 = (overrideSteering s b).1 := by
  simp only [overrideSteering_state]
  cases b <;> simp [enabled, fault, override]

theorem overrideGear_prev (s : State) (b : Bool) :
    (overrideGear s b).1.prev_enable_ = enabled (overrideGear s b).1 := by
  simp [overrideGear_state, enabled, fault, override]

theorem overrideGear_sysEnables (s : State) (b : Bool) :
    sysEnables (overrideGear s b).2 =
      if s.prev_enable_ != enabled (overrideGear s b).1 then [enabled (overrideGear s b).1] else [] := by
  simp only [overrideGear, gate_eq, publishAndReport_sysEnables, publishAndReport_state]
  simp [enabled, fault, override]

theorem overrideGear_idem (s : State) (b : Bool) :
    (overrideGear (overrideGear s b).1 b).1 = (overrideGear s b).1 := by
  simp only [overrideGear_state]
  cases b <;> simp [enabled, fault, override]

theorem faultBrakes_prev (s : State) (b : Bool) :
    (faultBrakes s b).1.prev_enable_ = enabled (faultBrakes s b).1 := by
  simp [faultBrakes_state, enabled, fault, override]

theorem faultBrakes_sysEnables (s : State) (b : Bool) :
    sysEnables (faultBrakes s b).2 =
      if s.prev_enable_ != enabled (faultBrakes s b).1 then [enabled (faultBrakes s b).1] else [] := by
  simp only [faultBrakes, gate_eq, publishAndReport_sysEnables, publishAndReport_state]
  simp [enabled, fault, override]

theorem faultBrakes_idem (s : State) (b : Bool) :
    (faultBrakes (faultBrakes s b).1 b).1 = (faultBrakes s b).1 := by
  simp only [faultBrakes_state]
  cases b <;> simp [enabled, fault, override]

theorem faultAcceleratorPedal_prev (s : State) (b : Bool) :
    (faultAcceleratorPedal s b).1.prev_enable_ = enabled (faultAcceleratorPedal s b).1 := by
  simp [faultAcceleratorPedal_state, enabled, fault, override]

theorem faultAcceleratorPedal_sysEnables (s : State) (b : Bool) :
    sysEnables (faultAcceleratorPedal s b).2 =
      if s.prev_enable_ != enabled (faultAcceleratorPedal s b).1 then [enabled (faultAcceleratorPedal s b).1] else [] := by
  simp only [faultAcceleratorPedal, gate_eq, publishAndReport_sysEnables, publishAndReport_state]
  simp [enabled, fault, override]

theorem faultAcceleratorPedal_idem (s : State) (b : Bool) :
    (faultAcceleratorPedal (faultAcceleratorPedal s b).1 b).1 = (faultAcceleratorPedal s b).1 := by
  simp only [faultAcceleratorPedal_state]
  cases b <;> simp [enabled, fault, override]

theorem faultSteering_prev (s : State) (b : Bool) :
    (faultSteering s b).1.prev_enable_ = enabled (faultSteering s b).1 := by
  simp [faultSteering_state, enabled, fault, override]

theorem faultSteering_sysEnables (s : State) (b : Bool) :
    sysEnables (faultSteering s b).2 =
      if s.prev_enable_ != enabled (faultSteering s b).1 then [enabled (faultSteering s b).1] else [] := by
  simp only [faultSteering, gate_eq, publishAndReport_sysEnables, publishAndReport_state]
  simp [enabled, fault, override]

theorem faultSteering_idem (s : State) (b : Bool) :
    (faultSteering (faultSteering s b).1 b).1 = (faultSteering s b).1 := by
  simp only [faultSteering_state]
  cases b <;> simp [enabled, fault, override]

theorem faultSteeringCal_prev (s : State) (b : Bool) :
    (faultSteeringCal s b).1.prev_enable_ = enabled (faultSteeringCal s b).1 := by
  simp [faultSteeringCal_state, enabled, fault, override]

theorem faultSteeringCal_sysEnables (s : State) (b : Bool) :
    sysEnables (faultSteeringCal s b).2 =
      if s.prev_enable_ != enabled (faultSteeringCal s b).1 then [enabled (faultSteeringCal s b).1] else [] := by
  simp only [faultSteeringCal, gate_eq, publishAndReport_sysEnables, publishAndReport_state]
  simp [enabled, fault, override]

theorem faultSteeringCal_idem (s : State) (b : Bool) :
    (faultSteeringCal (faultSteeringCal s b).1 b).1 = (faultSteeringCal s b).1 := by
  simp only [faultSteeringCal_state]
  cases b <;> simp [enabled, fault, override]

theorem sysEnables_logIf₂ (c₁ c₂ : Bool) (d₁ d₂ : Diag) :
    sysEnables (if c₁ = true then [Out.log d₁] else if c₂ = true then [Out.log d₂] else [])
      = [] := by
  cases c₁ <;> cases c₂ <;> rfl

theorem faultWatchdog_prev (s : State) (f : Bool) (src : Nat) (b : Bool) :
    (faultWatchdog s f src b).1.prev_enable_ = enabled (faultWatchdog s f src b).1 := by
  simp [faultWatchdog_state, enabled, fault, override]

theorem faultWatchdog_sysEnables (s : State) (f : Bool) (src : Nat) (b : Bool) :
    sysEnables (faultWatchdog s f src b).2 =
      if s.prev_enable_ != enabled (faultWatchdog s f src b).1 then
        [enabled (faultWatchdog s f src b).1] else [] := by
  rw [faultWatchdog_state]
  simp only [faultWatchdog, gate_eq, publishAndReport_sysEnables, publishAndReport_state,
    sysEnables_append, sysEnables_logIf, sysEnables_logIf₂, List.append_nil]
  simp [enabled, fault, override]

theorem faultWatchdog_idem (s : State) (f : Bool) (src : Nat) (b : Bool) :
    (faultWatchdog (faultWatchdog s f src b).1 f src b).1 = (faultWatchdog s f src b).1 := by
  simp only [faultWatchdog_state]
  cases f <;> cases s.fault_watchdog_warned_ <;> simp [enabled, fault, override]

/-! ### `enableSystem`, `disableSystem`, `buttonCancel` and the timeouts -/

theorem enableSystem_sysEnables (s : State) :
    sysEnables (enableSystem s).2 =
      if !s.enable_ && !fault s then
        (if s.prev_enable_ != enabled (enableSystem s).1 then
          [enabled (enableSystem s).1] else [])
      else [] := by
  rw [enableSystem_state]
  simp only [enableSystem]
  cases s.enable_ <;> cases hf : fault s <;>
    simp [sysEnables_append, sysEnables_logIf, sysEnables, sysEnables_publishDbwEnabled,
      enabled, fault, override]

theorem disableSystem_sysEnables (s : State) :
    sysEnables (disableSystem s).2 =
      if s.enable_ then
        (if s.prev_enable_ != enabled (disableSystem s).1 then
          [enabled (disableSystem s).1] else [])
      else [] := by
  rw [disableSystem_state]
  simp only [disableSystem]
  cases s.enable_ <;>
    simp [sysEnables_append, sysEnables, sysEnables_publishDbwEnabled, enabled]

theorem buttonCancel_sysEnables (s : State) :
    sysEnables (buttonCancel s).2 =
      if s.enable_ then
        (if s.prev_enable_ != enabled (buttonCancel s).1 then
          [enabled (buttonCancel s).1] else [])
      else [] := by
  rw [buttonCancel_state]
  simp only [buttonCancel]
  cases s.enable_ <;>
    simp [sysEnables_append, sysEnables, sysEnables_publishDbwEnabled, enabled]

theorem timeoutBrake_sysEnables (s : State) (t e : Bool) :
    sysEnables (timeoutBrake s t e).2 = [] := by
  simp only [timeoutBrake, sysEnables_logIf]

theorem timeoutAcceleratorPedal_sysEnables (s : State) (t e : Bool) :
    sysEnables (timeoutAcceleratorPedal s t e).2 = [] := by
  simp only [timeoutAcceleratorPedal, sysEnables_logIf]

theorem timeoutSteering_sysEnables (s : State) (t e : Bool) :
    sysEnables (timeoutSteering s t e).2 = [] := by
  simp only [timeoutSteering, sysEnables_logIf]

/-! ### The encoders and the timer publish frames only -/

theorem sysEnables_canIf (c : Bool) (f : Frame) :
    sysEnables (if c = true then [Out.can f] else []) = [] := by
  cases c <;> rfl

theorem timerCallback_sysEnables (clear : State → Bool) (s : State) (d : Dbc) :
    sysEnables (timerCallback clear s d).2 = [] := by
  simp only [timerCallback]
  split
  · simp only [sysEnables_append, sysEnables_canIf, List.append_nil]
  · rfl

/-! ### The shadow `prev_enable_` along a trace -/

theorem step_prev (fl : FloatOps) (clear : State → Bool) (n : Node) (e : Event)
    (h : n.st.prev_enable_ = enabled n.st) :
    (step fl clear n e).1.st.prev_enable_ = enabled (step fl clear n e).1.st := by
  cases e with
  | enable =>
    simp only [step, onState, enableSystem_state]
    split
    · simp [enabled, fault, override]
    · exact h
  | disable =>
    simp only [step, onState, disableSystem_state]
    split
    · simp [enabled]
    · exact h
  | buttonCancel =>
    simp only [step, onState, buttonCancel_state]
    split
    · simp [enabled]
    · exact h
  | overrideBrake b => exact overrideBrake_prev n.st b
  | overrideAcceleratorPedal b => exact overrideAcceleratorPedal_prev n.st b
  | overrideSteering b => exact overrideSteering_prev n.st b
  | overrideGear b => exact overrideGear_prev n.st b
  | timeoutBrake t e => exact h
  | timeoutAcceleratorPedal t e => exact h
  | timeoutSteering t e => exact h
  | faultBrakes b => exact faultBrakes_prev n.st b
  | faultAcceleratorPedal b => exact faultAcceleratorPedal_prev n.st b
  | faultSteering b => exact faultSteering_prev n.st b
  | faultSteeringCal b => exact faultSteeringCal_prev n.st b
  | faultWatchdog f src b => exact faultWatchdog_prev n.st f src b
  | faultWatchdog₂ f src => exact faultWatchdog_prev n.st f src _
  | timer => exact h
  | brakeCmd msg => exact h
  | acceleratorPedalCmd msg => exact h
  | steeringCmd msg => exact h
  | gearCmd msg => exact h
  | miscCmd msg => exact h

theorem run_prev (fl : FloatOps) (clear : State → Bool) (es : List Event) :
    ∀ n : Node, n.st.prev_enable_ = enabled n.st →
      (run fl clear n es).st.prev_enable_ = enabled (run fl clear n es).st := by
  induction es with
  | nil => intro n h; exact h
  | cons e es ih =>
    intro n h
    exact ih (step fl clear n e).1 (step_prev fl clear n e h)

theorem initial_prev (dbc : Dbc) :
    (initial dbc).st.prev_enable_ = enabled (initial dbc).st := by
  show construct.1.prev_enable_ = enabled construct.1
  decide

theorem step_sysEnables (fl : FloatOps) (clear : State → Bool) (n : Node) (e : Event)
    (h : n.st.prev_enable_ = enabled n.st) :
    sysEnables (step fl clear n e).2 =
      if n.st.prev_enable_ != enabled (step fl clear n e).1.st then
        [enabled (step fl clear n e).1.st] else [] := by
  cases e with
  | enable =>
    simp only [step, onState, enableSystem_sysEnables]
    split
    · rfl
    · rename_i hc
      simp only [enableSystem_state, hc]
      simp [h]
  | disable =>
    simp only [step, onState, disableSystem_sysEnables]
    split
    · rfl
    · rename_i hc
      simp only [disableSystem_state, hc]
      simp [h]
  | buttonCancel =>
    simp only [step, onState, buttonCancel_sysEnables]
    split
    · rfl
    · rename_i hc
      simp only [buttonCancel_state, hc]
      simp [h]
  | overrideBrake b => exact overrideBrake_sysEnables n.st b
  | overrideAcceleratorPedal b => exact overrideAcceleratorPedal_sysEnables n.st b
  | overrideSteering b => exact overrideSteering_sysEnables n.st b
  | overrideGear b => exact overrideGear_sysEnables n.st b
  | timeoutBrake t e =>
    simp only [step, onState, timeoutBrake_sysEnables]
    simp [timeoutBrake, h, enabled, fault, override]
  | timeoutAcceleratorPedal t e =>
    simp only [step, onState, timeoutAcceleratorPedal_sysEnables]
    simp [timeoutAcceleratorPedal, h, enabled, fault, override]
  | timeoutSteering t e =>
    simp only [step, onState, timeoutSteering_sysEnables]
    simp [timeoutSteering, h, enabled, fault, override]
  | faultBrakes b => exact faultBrakes_sysEnables n.st b
  | faultAcceleratorPedal b => exact faultAcceleratorPedal_sysEnables n.st b
  | faultSteering b => exact faultSteering_sysEnables n.st b
  | faultSteeringCal b => exact faultSteeringCal_sysEnables n.st b
  | faultWatchdog f src b => exact faultWatchdog_sysEnables n.st f src b
  | faultWatchdog₂ f src => exact faultWatchdog_sysEnables n.st f src _
  | timer =>
    simp only [step, onDbc, timerCallback_sysEnables]
    simp [h]
  | brakeCmd msg => simp [step, onDbc, recvBrakeCmd, sysEnables, h]
  | acceleratorPedalCmd msg => simp [step, onDbc, recvAcceleratorPedalCmd, sysEnables, h]
  | steeringCmd msg => simp [step, onDbc, recvSteeringCmd, sysEnables, h]
  | gearCmd msg => simp [step, onDbc, recvGearCmd, sysEnables, h]
  | miscCmd msg => simp [step, onDbc, recvMiscCmd, sysEnables, h]

/-! ## Theorems -/

/-- C1. After every sequence of events served from the constructed node, `enabled()`
true implies that none of the five fault flags and none of the four override flags is
true. -/
theorem enabled_excludes_faults_and_overrides (fl : FloatOps) (clear : State → Bool)
    (dbc : Dbc) (es : List Event) :
    enabled (run fl clear (initial dbc) es).st = true →
      (run fl clear (initial dbc) es).st.fault_brakes_ = false ∧
      (run fl clear (initial dbc) es).st.fault_accelerator_pedal_ = false ∧
      (run fl clear (initial dbc) es).st.fault_steering_ = false ∧
      (run fl clear (initial dbc) es).st.fault_steering_cal_ = false ∧
      (run fl clear (initial dbc) es).st.fault_watchdog_ = false ∧
      (run fl clear (initial dbc) es).st.override_brake_ = false ∧
      (run fl clear (initial dbc) es).st.override_accelerator_pedal_ = false ∧
      (run fl clear (initial dbc) es).st.override_steering_ = false ∧
      (run fl clear (initial dbc) es).st.override_gear_ = false := by
  intro h
  simp only [enabled, fault, override, Bool.and_eq_true, Bool.not_eq_true',
    Bool.or_eq_false_iff] at h
  tauto

/-- C1, instance: the trace that consists of one enable request. -/
theorem enabled_excludes_faults_and_overrides_witness :
    enabled (run exampleFloatOps exampleClear (initial zeroDbc) [Event.enable]).st = true ∧
      (run exampleFloatOps exampleClear (initial zeroDbc) [Event.enable]).st.fault_brakes_
        = false ∧
      (run exampleFloatOps exampleClear (initial zeroDbc)
        [Event.enable]).st.fault_accelerator_pedal_ = false ∧
      (run exampleFloatOps exampleClear (initial zeroDbc) [Event.enable]).st.fault_steering_
        = false ∧
      (run exampleFloatOps exampleClear (initial zeroDbc)
        [Event.enable]).st.fault_steering_cal_ = false ∧
      (run exampleFloatOps exampleClear (initial zeroDbc) [Event.enable]).st.fault_watchdog_
        = false ∧
      (run exampleFloatOps exampleClear (initial zeroDbc) [Event.enable]).st.override_brake_
        = false ∧
      (run exampleFloatOps exampleClear (initial zeroDbc)
        [Event.enable]).st.override_accelerator_pedal_ = false ∧
      (run exampleFloatOps exampleClear (initial zeroDbc)
        [Event.enable]).st.override_steering_ = false ∧
      (run exampleFloatOps exampleClear (initial zeroDbc) [Event.enable]).st.override_gear_
        = false :=
  ⟨by decide,
    enabled_excludes_faults_and_overrides exampleFloatOps exampleClear zeroDbc
      [Event.enable] (by decide)⟩

/-- C2 (as stated, refuted). After a brake override report and an enable request the
node is reachable with `enabled()` false; the override report that clears the flag is
not an enable request, yet `enabled()` is true after it. -/
theorem override_release_enables_without_request :
    enabled (run exampleFloatOps exampleClear (initial zeroDbc)
        [Event.overrideBrake true, Event.enable]).st = false ∧
      Event.overrideBrake false ≠ Event.enable ∧
      enabled (step exampleFloatOps exampleClear
        (run exampleFloatOps exampleClear (initial zeroDbc)
          [Event.overrideBrake true, Event.enable])
        (Event.overrideBrake false)).1.st = true := by
  decide

/-- C2 (amended). From a node whose master flag `enable_` is false, every event other
than the enable request leaves `enable_` false and `enabled()` false; the enable
request leaves `enable_` equal to the negation of `fault()`, so the flag rises only
there and only without a fault. -/
theorem enable_flag_rises_only_on_request (fl : FloatOps) (clear : State → Bool)
    (n : Node) (e : Event) (h : n.st.enable_ = false) :
    if e = Event.enable then
      (step fl clear n e).1.st.enable_ = !fault n.st
    else
      (step fl clear n e).1.st.enable_ = false ∧ enabled (step fl clear n e).1.st = false := by
  cases e with
  | enable =>
    simp only [step, onState, enableSystem_state, if_true]
    cases hf : fault n.st <;> simp [h]
  | disable => simp [step, onState, disableSystem_state, h, enabled]
  | buttonCancel => simp [step, onState, buttonCancel_state, h, enabled]
  | overrideBrake b => simp [step, onState, overrideBrake_state, h, enabled]
  | overrideAcceleratorPedal b =>
    simp [step, onState, overrideAcceleratorPedal_state, h, enabled]
  | overrideSteering b => simp [step, onState, overrideSteering_state, h, enabled]
  | overrideGear b => simp [step, onState, overrideGear_state, h, enabled]
  | timeoutBrake t e => simp [step, onState, timeoutBrake, h, enabled]
  | timeoutAcceleratorPedal t e => simp [step, onState, timeoutAcceleratorPedal, h, enabled]
  | timeoutSteering t e => simp [step, onState, timeoutSteering, h, enabled]
  | faultBrakes b => simp [step, onState, faultBrakes_state, h, enabled]
  | faultAcceleratorPedal b => simp [step, onState, faultAcceleratorPedal_state, h, enabled]
  | faultSteering b => simp [step, onState, faultSteering_state, h, enabled]
  | faultSteeringCal b => simp [step, onState, faultSteeringCal_state, h, enabled]
  | faultWatchdog f src b => simp [step, onState, faultWatchdog_state, h, enabled]
  | faultWatchdog₂ f src => simp [step, onState, faultWatchdog₂, faultWatchdog_state, h, enabled]
  | timer => simp [step, onDbc, h, enabled]
  | brakeCmd msg => simp [step, onDbc, h, enabled]
  | acceleratorPedalCmd msg => simp [step, onDbc, h, enabled]
  | steeringCmd msg => simp [step, onDbc, h, enabled]
  | gearCmd msg => simp [step, onDbc, h, enabled]
  | miscCmd msg => simp [step, onDbc, h, enabled]

/-- C2 (amended), instance: a gear override report with value false, served by the
constructed node. -/
theorem enable_flag_rises_only_on_request_witness :
    (initial zeroDbc).st.enable_ = false ∧
      (if Event.overrideGear false = Event.enable then
        (step exampleFloatOps exampleClear (initial zeroDbc)
          (Event.overrideGear false)).1.st.enable_ = !fault (initial zeroDbc).st
      else
        (step exampleFloatOps exampleClear (initial zeroDbc)
          (Event.overrideGear false)).1.st.enable_ = false ∧
        enabled (step exampleFloatOps exampleClear (initial zeroDbc)
          (Event.overrideGear false)).1.st = false) :=
  ⟨by decide,
    enable_flag_rises_only_on_request exampleFloatOps exampleClear (initial zeroDbc)
      (Event.overrideGear false) (by decide)⟩

/-- C3. With any fault flag true, `enableSystem` changes no member of the enable state
machine; in particular `enabled()` keeps its value, and nothing is published on
"dbw_enabled". -/
theorem enableSystem_refused_on_fault (s : State)
    (h : s.fault_brakes_ = true ∨ s.fault_accelerator_pedal_ = true ∨
      s.fault_steering_ = true ∨ s.fault_steering_cal_ = true ∨ s.fault_watchdog_ = true) :
    (enableSystem s).1 = s ∧ enabled (enableSystem s).1 = enabled s ∧
      sysEnables (enableSystem s).2 = [] := by
  have hf : fault s = true := by
    simp only [fault, Bool.or_eq_true]
    tauto
  have hs : (enableSystem s).1 = s := by
    rw [enableSystem_state]
    simp [hf]
  refine ⟨hs, by rw [hs], ?_⟩
  simp only [enableSystem, hf]
  cases s.enable_ <;> simp [sysEnables_append, sysEnables_logIf, sysEnables]

/-- C3, instance: the constructed state with the steering fault flag set. -/
theorem enableSystem_refused_on_fault_witness :
    { constructorFields with fault_steering_ := true }.fault_steering_ = true ∧
      (enableSystem { constructorFields with fault_steering_ := true }).1 =
        { constructorFields with fault_steering_ := true } ∧
      enabled (enableSystem { constructorFields with fault_steering_ := true }).1 =
        enabled { constructorFields with fault_steering_ := true } ∧
      sysEnables (enableSystem { constructorFields with fault_steering_ := true }).2 = [] :=
  ⟨by decide,
    enableSystem_refused_on_fault { constructorFields with fault_steering_ := true }
      (by decide)⟩

/-- C4 (as stated, refuted). In the state reached from construction by a brake
override report, `fault()` is false and the system is disabled, yet `enabled()` is
still false right after `enableSystem`. -/
theorem enableSystem_with_override_stays_disabled :
    fault (overrideBrake construct.1 true).1 = false ∧
      (overrideBrake construct.1 true).1.enable_ = false ∧
      enabled (overrideBrake construct.1 true).1 = false ∧
      enabled (enableSystem (overrideBrake construct.1 true).1).1 = false := by
  decide

/-- C4 (amended). From a state in which `fault()` is false, no override flag is true
and `enabled()` is false, `enableSystem` returns with the master flag `enable_` true
and `enabled()` true. -/
theorem enableSystem_enables_without_override (s : State) (hf : fault s = false)
    (ho : override s = false) (hd : enabled s = false) :
    (enableSystem s).1.enable_ = true ∧ enabled (enableSystem s).1 = true := by
  have he : s.enable_ = false := by
    simpa [enabled, hf, ho] using hd
  have hf' := hf
  have ho' := ho
  simp only [fault, Bool.or_eq_false_iff] at hf'
  simp only [override, Bool.or_eq_false_iff] at ho'
  rw [enableSystem_state]
  simp [he, hf, enabled, fault, override, hf', ho']

/-- C4, instance: the constructed state. -/
theorem enableSystem_enables_without_override_witness :
    (fault construct.1 = false ∧ override construct.1 = false ∧
        enabled construct.1 = false) ∧
      (enableSystem construct.1).1.enable_ = true ∧
      enabled (enableSystem construct.1).1 = true :=
  ⟨by decide,
    enableSystem_enables_without_override construct.1 (by decide) (by decide) (by decide)⟩

/-- C5. From a state in which `enabled()` is true, one call that reports an override
(brake, accelerator pedal, steering, gear) or a fault (brakes, accelerator pedal,
steering, steering calibration, watchdog with either overload) as active returns with
the master flag `enable_` false, `enabled()` false and the reported flag true. -/
theorem active_report_disables_in_same_call (s : State) (h : enabled s = true)
    (src : Nat) (braking : Bool) :
    ((overrideBrake s true).1.enable_ = false ∧ enabled (overrideBrake s true).1 = false ∧
      (overrideBrake s true).1.override_brake_ = true) ∧
    ((overrideAcceleratorPedal s true).1.enable_ = false ∧
      enabled (overrideAcceleratorPedal s true).1 = false ∧
      (overrideAcceleratorPedal s true).1.override_accelerator_pedal_ = true) ∧
    ((overrideSteering s true).1.enable_ = false ∧
      enabled (overrideSteering s true).1 = false ∧
      (overrideSteering s true).1.override_steering_ = true) ∧
    ((overrideGear s true).1.enable_ = false ∧ enabled (overrideGear s true).1 = false ∧
      (overrideGear s true).1.override_gear_ = true) ∧
    ((faultBrakes s true).1.enable_ = false ∧ enabled (faultBrakes s true).1 = false ∧
      (faultBrakes s true).1.fault_brakes_ = true) ∧
    ((faultAcceleratorPedal s true).1.enable_ = false ∧
      enabled (faultAcceleratorPedal s true).1 = false ∧
      (faultAcceleratorPedal s true).1.fault_accelerator_pedal_ = true) ∧
    ((faultSteering s true).1.enable_ = false ∧ enabled (faultSteering s true).1 = false ∧
      (faultSteering s true).1.fault_steering_ = true) ∧
    ((faultSteeringCal s true).1.enable_ = false ∧
      enabled (faultSteeringCal s true).1 = false ∧
      (faultSteeringCal s true).1.fault_steering_cal_ = true) ∧
    ((faultWatchdog s true src braking).1.enable_ = false ∧
      enabled (faultWatchdog s true src braking).1 = false ∧
      (faultWatchdog s true src braking).1.fault_watchdog_ = true) ∧
    ((faultWatchdog₂ s true src).1.enable_ = false ∧
      enabled (faultWatchdog₂ s true src).1 = false ∧
      (faultWatchdog₂ s true src).1.fault_watchdog_ = true) := by
  refine ⟨?_, ?_, ?_, ?_, ?_, ?_, ?_, ?_, ?_, ?_⟩
  · simp only [overrideBrake_state, h]
    simp [enabled, fault, override]
  · simp only [overrideAcceleratorPedal_state, h]
    simp [enabled, fault, override]
  · simp only [overrideSteering_state, h]
    simp [enabled, fault, override]
  · simp only [overrideGear_state, h]
    simp [enabled, fault, override]
  · simp only [faultBrakes_state, h]
    simp [enabled, fault, override]
  · simp only [faultAcceleratorPedal_state, h]
    simp [enabled, fault, override]
  · simp only [faultSteering_state, h]
    simp [enabled, fault, override]
  · simp only [faultSteeringCal_state, h]
    simp [enabled, fault, override]
  · simp only [faultWatchdog_state, h]
    simp [enabled, fault, override]
  · simp only [faultWatchdog₂, faultWatchdog_state, h]
    simp [enabled, fault, override]

/-- C5, instance: the state that an enable request leaves after construction, with
watchdog source 6 and braking true. -/
theorem active_report_disables_in_same_call_witness :
    enabled (enableSystem construct.1).1 = true ∧
    (((overrideBrake (enableSystem construct.1).1 true).1.enable_ = false ∧
      enabled (overrideBrake (enableSystem construct.1).1 true).1 = false ∧
      (overrideBrake (enableSystem construct.1).1 true).1.override_brake_ = true) ∧
    ((overrideAcceleratorPedal (enableSystem construct.1).1 true).1.enable_ = false ∧
      enabled (overrideAcceleratorPedal (enableSystem construct.1).1 true).1 = false ∧
      (overrideAcceleratorPedal (enableSystem construct.1).1
        true).1.override_accelerator_pedal_ = true) ∧
    ((overrideSteering (enableSystem construct.1).1 true).1.enable_ = false ∧
      enabled (overrideSteering (enableSystem construct.1).1 true).1 = false ∧
      (overrideSteering (enableSystem construct.1).1 true).1.override_steering_ = true) ∧
    ((overrideGear (enableSystem construct.1).1 true).1.enable_ = false ∧
      enabled (overrideGear (enableSystem construct.1).1 true).1 = false ∧
      (overrideGear (enableSystem construct.1).1 true).1.override_gear_ = true) ∧
    ((faultBrakes (enableSystem construct.1).1 true).1.enable_ = false ∧
      enabled (faultBrakes (enableSystem construct.1).1 true).1 = false ∧
      (faultBrakes (enableSystem construct.1).1 true).1.fault_brakes_ = true) ∧
    ((faultAcceleratorPedal (enableSystem construct.1).1 true).1.enable_ = false ∧
      enabled (faultAcceleratorPedal (enableSystem construct.1).1 true).1 = false ∧
      (faultAcceleratorPedal (enableSystem construct.1).1 true).1.fault_accelerator_pedal_
        = true) ∧
    ((faultSteering (enableSystem construct.1).1 true).1.enable_ = false ∧
      enabled (faultSteering (enableSystem construct.1).1 true).1 = false ∧
      (faultSteering (enableSystem construct.1).1 true).1.fault_steering_ = true) ∧
    ((faultSteeringCal (enableSystem construct.1).1 true).1.enable_ = false ∧
      enabled (faultSteeringCal (enableSystem construct.1).1 true).1 = false ∧
      (faultSteeringCal (enableSystem construct.1).1 true).1.fault_steering_cal_ = true) ∧
    ((faultWatchdog (enableSystem construct.1).1 true 6 true).1.enable_ = false ∧
      enabled (faultWatchdog (enableSystem construct.1).1 true 6 true).1 = false ∧
      (faultWatchdog (enableSystem construct.1).1 true 6 true).1.fault_watchdog_ = true) ∧
    ((faultWatchdog₂ (enableSystem construct.1).1 true 6).1.enable_ = false ∧
      enabled (faultWatchdog₂ (enableSystem construct.1).1 true 6).1 = false ∧
      (faultWatchdog₂ (enableSystem construct.1).1 true 6).1.fault_watchdog_ = true)) :=
  ⟨by decide,
    active_report_disables_in_same_call (enableSystem construct.1).1 (by decide) 6 true⟩

/-- C6. After `disableSystem`, `enabled()` is false, and `disableSystem` changes no
fault flag, no override flag, no timeout or subsystem feedback flag and no watchdog
flag. -/
theorem disableSystem_disables_and_keeps_flags (s : State) :
    enabled (disableSystem s).1 = false ∧
      (disableSystem s).1.enable_ = false ∧
      (disableSystem s).1.fault_brakes_ = s.fault_brakes_ ∧
      (disableSystem s).1.fault_accelerator_pedal_ = s.fault_accelerator_pedal_ ∧
      (disableSystem s).1.fault_steering_ = s.fault_steering_ ∧
      (disableSystem s).1.fault_steering_cal_ = s.fault_steering_cal_ ∧
      (disableSystem s).1.fault_watchdog_ = s.fault_watchdog_ ∧
      (disableSystem s).1.fault_watchdog_using_brakes_ = s.fault_watchdog_using_brakes_ ∧
      (disableSystem s).1.fault_watchdog_warned_ = s.fault_watchdog_warned_ ∧
      (disableSystem s).1.override_brake_ = s.override_brake_ ∧
      (disableSystem s).1.override_accelerator_pedal_ = s.override_accelerator_pedal_ ∧
      (disableSystem s).1.override_steering_ = s.override_steering_ ∧
      (disableSystem s).1.override_gear_ = s.override_gear_ ∧
      (disableSystem s).1.timeout_brakes_ = s.timeout_brakes_ ∧
      (disableSystem s).1.timeout_accelerator_pedal_ = s.timeout_accelerator_pedal_ ∧
      (disableSystem s).1.timeout_steering_ = s.timeout_steering_ ∧
      (disableSystem s).1.enabled_brakes_ = s.enabled_brakes_ ∧
      (disableSystem s).1.enabled_accelerator_pedal_ = s.enabled_accelerator_pedal_ ∧
      (disableSystem s).1.enabled_steering_ = s.enabled_steering_ ∧
      (disableSystem s).1.gear_warned_ = s.gear_warned_ := by
  rw [disableSystem_state]
  cases he : s.enable_ <;> simp [enabled, he]

/-- C7. For every node reached from construction and every event, a "dbw_enabled"
message is published exactly when `enabled()` after the event differs from
`prev_enable_` before it, there is then exactly one and it carries the new value of
`enabled()`; and after the event `prev_enable_` equals `enabled()`. -/
theorem dbw_enabled_published_exactly_on_change (fl : FloatOps) (clear : State → Bool)
    (dbc : Dbc) (es : List Event) (e : Event) :
    sysEnables (step fl clear (run fl clear (initial dbc) es) e).2 =
        (if (run fl clear (initial dbc) es).st.prev_enable_ !=
            enabled (step fl clear (run fl clear (initial dbc) es) e).1.st then
          [enabled (step fl clear (run fl clear (initial dbc) es) e).1.st] else []) ∧
      (step fl clear (run fl clear (initial dbc) es) e).1.st.prev_enable_ =
        enabled (step fl clear (run fl clear (initial dbc) es) e).1.st :=
  ⟨step_sysEnables fl clear _ e (run_prev fl clear es _ (initial_prev dbc)),
    step_prev fl clear _ e (run_prev fl clear es _ (initial_prev dbc))⟩

/-- C8. Every mutator of the enable state machine is idempotent: served a second time
with the same arguments it returns the state the first call left and publishes nothing
on "dbw_enabled". -/
theorem mutators_idempotent (s : State) (b t e f braking : Bool) (src : Nat) :
    ((enableSystem (enableSystem s).1).1 = (enableSystem s).1 ∧
      sysEnables (enableSystem (enableSystem s).1).2 = []) ∧
    ((disableSystem (disableSystem s).1).1 = (disableSystem s).1 ∧
      sysEnables (disableSystem (disableSystem s).1).2 = []) ∧
    ((buttonCancel (buttonCancel s).1).1 = (buttonCancel s).1 ∧
      sysEnables (buttonCancel (buttonCancel s).1).2 = []) ∧
    ((overrideBrake (overrideBrake s b).1 b).1 = (overrideBrake s b).1 ∧
      sysEnables (overrideBrake (overrideBrake s b).1 b).2 = []) ∧
    ((overrideAcceleratorPedal (overrideAcceleratorPedal s b).1 b).1 =
        (overrideAcceleratorPedal s b).1 ∧
      sysEnables (overrideAcceleratorPedal (overrideAcceleratorPedal s b).1 b).2 = []) ∧
    ((overrideSteering (overrideSteering s b).1 b).1 = (overrideSteering s b).1 ∧
      sysEnables (overrideSteering (overrideSteering s b).1 b).2 = []) ∧
    ((overrideGear (overrideGear s b).1 b).1 = (overrideGear s b).1 ∧
      sysEnables (overrideGear (overrideGear s b).1 b).2 = []) ∧
    ((faultBrakes (faultBrakes s f).1 f).1 = (faultBrakes s f).1 ∧
      sysEnables (faultBrakes (faultBrakes s f).1 f).2 = []) ∧
    ((faultAcceleratorPedal (faultAcceleratorPedal s f).1 f).1 =
        (faultAcceleratorPedal s f).1 ∧
      sysEnables (faultAcceleratorPedal (faultAcceleratorPedal s f).1 f).2 = []) ∧
    ((faultSteering (faultSteering s f).1 f).1 = (faultSteering s f).1 ∧
      sysEnables (faultSteering (faultSteering s f).1 f).2 = []) ∧
    ((faultSteeringCal (faultSteeringCal s f).1 f).1 = (faultSteeringCal s f).1 ∧
      sysEnables (faultSteeringCal (faultSteeringCal s f).1 f).2 = []) ∧
    ((faultWatchdog (faultWatchdog s f src braking).1 f src braking).1 =
        (faultWatchdog s f src braking).1 ∧
      sysEnables (faultWatchdog (faultWatchdog s f src braking).1 f src braking).2 = []) ∧
    ((timeoutBrake (timeoutBrake s t e).1 t e).1 = (timeoutBrake s t e).1 ∧
      sysEnables (timeoutBrake (timeoutBrake s t e).1 t e).2 = []) ∧
    ((timeoutAcceleratorPedal (timeoutAcceleratorPedal s t e).1 t e).1 =
        (timeoutAcceleratorPedal s t e).1 ∧
      sysEnables (timeoutAcceleratorPedal (timeoutAcceleratorPedal s t e).1 t e).2 = []) ∧
    ((timeoutSteering (timeoutSteering s t e).1 t e).1 = (timeoutSteering s t e).1 ∧
      sysEnables (timeoutSteering (timeoutSteering s t e).1 t e).2 = []) := by
  refine ⟨⟨?_, ?_⟩, ⟨?_, ?_⟩, ⟨?_, ?_⟩, ?_, ?_, ?_, ?_, ?_, ?_, ?_, ?_, ?_, ?_, ?_, ?_⟩
  · simp only [enableSystem_state]
    cases he : s.enable_ <;> cases hf : fault s <;> simp [he, hf]
  · rw [enableSystem_sysEnables]
    simp only [enableSystem_state]
    cases he : s.enable_ <;> cases hf : fault s <;> simp [he, hf]
  · simp only [disableSystem_state]
    cases he : s.enable_ <;> simp [he]
  · rw [disableSystem_sysEnables]
    simp only [disableSystem_state]
    cases he : s.enable_ <;> simp [he]
  · simp only [buttonCancel_state]
    cases he : s.enable_ <;> simp [he]
  · rw [buttonCancel_sysEnables]
    simp only [buttonCancel_state]
    cases he : s.enable_ <;> simp [he]
  · refine ⟨overrideBrake_idem s b, ?_⟩
    rw [overrideBrake_sysEnables, overrideBrake_idem, overrideBrake_prev]
    simp
  · refine ⟨overrideAcceleratorPedal_idem s b, ?_⟩
    rw [overrideAcceleratorPedal_sysEnables, overrideAcceleratorPedal_idem,
      overrideAcceleratorPedal_prev]
    simp
  · refine ⟨overrideSteering_idem s b, ?_⟩
    rw [overrideSteering_sysEnables, overrideSteering_idem, overrideSteering_prev]
    simp
  · refine ⟨overrideGear_idem s b, ?_⟩
    rw [overrideGear_sysEnables, overrideGear_idem, overrideGear_prev]
    simp
  · refine ⟨faultBrakes_idem s f, ?_⟩
    rw [faultBrakes_sysEnables, faultBrakes_idem, faultBrakes_prev]
    simp
  · refine ⟨faultAcceleratorPedal_idem s f, ?_⟩
    rw [faultAcceleratorPedal_sysEnables, faultAcceleratorPedal_idem,
      faultAcceleratorPedal_prev]
    simp
  · refine ⟨faultSteering_idem s f, ?_⟩
    rw [faultSteering_sysEnables, faultSteering_idem, faultSteering_prev]
    simp
  · refine ⟨faultSteeringCal_idem s f, ?_⟩
    rw [faultSteeringCal_sysEnables, faultSteeringCal_idem, faultSteeringCal_prev]
    simp
  · refine ⟨faultWatchdog_idem s f src braking, ?_⟩
    rw [faultWatchdog_sysEnables, faultWatchdog_idem, faultWatchdog_prev]
    simp
  · exact ⟨rfl, timeoutBrake_sysEnables _ t e⟩
  · exact ⟨rfl, timeoutAcceleratorPedal_sysEnables _ t e⟩
  · exact ⟨rfl, timeoutSteering_sysEnables _ t e⟩

/-- C9. From the constructed state: `enableSystem` gives `enabled()` true and publishes
exactly `true`; then `overrideSteering(true)` gives `enabled()` false, publishes
exactly `false` and leaves `override_steering_` true; then `overrideSteering(false)`
leaves `enabled()` false and publishes nothing. -/
theorem enable_then_steering_override_scenario :
    enabled construct.1 = false ∧ fault construct.1 = false ∧
      override construct.1 = false ∧
    enabled (enableSystem construct.1).1 = true ∧
      sysEnables (enableSystem construct.1).2 = [true] ∧
    enabled (overrideSteering (enableSystem construct.1).1 true).1 = false ∧
      sysEnables (overrideSteering (enableSystem construct.1).1 true).2 = [false] ∧
      (overrideSteering (enableSystem construct.1).1 true).1.override_steering_ = true ∧
    enabled (overrideSteering
        (overrideSteering (enableSystem construct.1).1 true).1 false).1 = false ∧
      sysEnables (overrideSteering
        (overrideSteering (enableSystem construct.1).1 true).1 false).2 = [] := by
  decide

/-- C10. The constructor initialises `prev_enable_` to true and every other member of
the enable state machine (the master flag, the overrides, the faults, the watchdog
flags, the timeouts, the subsystem feedback flags) to false, so that its
`publishDbwEnabled()` publishes exactly one message, carrying `false`, and leaves
`prev_enable_` false. -/
theorem constructor_publishes_disabled_once :
    constructorFields.prev_enable_ = true ∧
      constructorFields = { construct.1 with prev_enable_ := true } ∧
      construct.1 =
        { prev_enable_ := false, enable_ := false, override_brake_ := false,
          override_accelerator_pedal_ := false, override_steering_ := false,
          override_gear_ := false, fault_brakes_ := false,
          fault_accelerator_pedal_ := false, fault_steering_ := false,
          fault_steering_cal_ := false, fault_watchdog_ := false,
          fault_watchdog_using_brakes_ := false, fault_watchdog_warned_ := false,
          timeout_brakes_ := false, timeout_accelerator_pedal_ := false,
          timeout_steering_ := false, enabled_brakes_ := false,
          enabled_accelerator_pedal_ := false, enabled_steering_ := false,
          gear_warned_ := false } ∧
      enabled constructorFields = false ∧
      (publishDbwEnabled constructorFields).1 = true ∧
      construct.2 = [Out.sysEnable false] ∧
      sysEnables construct.2 = [false] ∧
      construct.1.prev_enable_ = false := by
  decide

/-! ## Auxiliary facts: the message each encoder leaves, in closed form -/

theorem recvBrakeCmd_message (clear : State → Bool) (s : State) (d : Dbc) (msg : BrakeCmd) :
    (recvBrakeCmd clear s d msg).1.brakeCommand =
      { AKit_BrakeCtrlEnblCmd := if enabled s then 1 else 0
        AKit_BrakePedalCmd := if enabled s then msg.pedal_cmd else 0
        AKit_BrakePedalCtrlMode := if msg.control_mode = 1 then 1 else 0
        AKit_BrakePedalClearDriverOvrd := if clear s || msg.clear then 1 else 0
        AKit_BrakeWatchdogCntr := (msg.count : ℚ) } := by
  simp only [recvBrakeCmd]
  split_ifs <;> rfl

theorem recvBrakeCmd_frame (clear : State → Bool) (s : State) (d : Dbc) (msg : BrakeCmd) :
    (recvBrakeCmd clear s d msg).2 =
      [Out.can (Frame.brake (recvBrakeCmd clear s d msg).1.brakeCommand)] := rfl

theorem recvAcceleratorPedalCmd_message (clear : State → Bool) (s : State) (d : Dbc)
    (msg : AcceleratorPedalCmd) :
    (recvAcceleratorPedalCmd clear s d msg).1.accelPdlCommand =
      { AKit_AccelPdlEnblCmd := if enabled s then 1 else 0
        AKit_AccelPdlCmd := if enabled s then msg.pedal_cmd else 0
        AKit_AccelPdlWatchdogCntr :=
          if msg.control_mode = 1 then 1
          else (msg.accelerator_pedal_cmd_rolling_counter : ℚ)
        AKit_AccelPdlCtrlMode := if msg.control_mode = 1 then 1 else 0
        AKit_AccelPdlClearDriverOvrd := if clear s || msg.clear then 1 else 0
        Akit_AccelPdlIgnoreDriverOvrd := if msg.ignore then 1 else 0 } := by
  simp only [recvAcceleratorPedalCmd]
  split_ifs <;> rfl

theorem recvAcceleratorPedalCmd_frame (clear : State → Bool) (s : State) (d : Dbc)
    (msg : AcceleratorPedalCmd) :
    (recvAcceleratorPedalCmd clear s d msg).2 =
      [Out.can (Frame.accel (recvAcceleratorPedalCmd clear s d msg).1.accelPdlCommand)] :=
  rfl

theorem AKit_SteeringCommand.eq_of_fields (a b : AKit_SteeringCommand)
    (h1 : a.AKit_SteerCtrlEnblCmd = b.AKit_SteerCtrlEnblCmd)
    (h2 : a.AKit_SteeringWhlAngleCmd = b.AKit_SteeringWhlAngleCmd)
    (h3 : a.AKit_SteeringWhlTrqCmd = b.AKit_SteeringWhlTrqCmd)
    (h4 : a.AKit_SteeringWhlAngleVelocity = b.AKit_SteeringWhlAngleVelocity)
    (h5 : a.AKit_SteeringWhlClearDriverOvrd = b.AKit_SteeringWhlClearDriverOvrd)
    (h6 : a.AKit_SteeringWhlIgnoreDriverOvrd = b.AKit_SteeringWhlIgnoreDriverOvrd)
    (h7 : a.AKit_SteeringWhlQuiet = b.AKit_SteeringWhlQuiet)
    (h8 : a.AKit_SteeringWhlCtrlMode = b.AKit_SteeringWhlCtrlMode)
    (h9 : a.AKit_SteeringWhlCmdType = b.AKit_SteeringWhlCmdType)
    (h10 : a.AKit_SteerCmdWatchdogCntr = b.AKit_SteerCmdWatchdogCntr) : a = b := by
  cases a
  cases b
  simp_all

theorem recvSteeringCmd_message (fl : FloatOps) (clear : State → Bool) (s : State) (d : Dbc)
    (msg : SteeringCmd) :
    (recvSteeringCmd fl clear s d msg).1.steeringCommand =
      { AKit_SteerCtrlEnblCmd := if enabled s then 1 else 0
        AKit_SteeringWhlAngleCmd :=
          if enabled s && decide (msg.command_type = 0) then
            max (-5000) (min 5000 (fl.angleTenths msg.steering_wheel_angle_cmd)) / 10
          else 0
        AKit_SteeringWhlTrqCmd :=
          if enabled s && !decide (msg.command_type = 0) then msg.steering_wheel_torque_cmd
          else 0
        AKit_SteeringWhlAngleVelocity :=
          if enabled s && decide (0 < |msg.steering_wheel_angle_velocity|) then
            ((⌊max 1 (min 254 (fl.rateRaw msg.steering_wheel_angle_velocity))⌋₊ : ℕ) : ℚ)
          else 0
        AKit_SteeringWhlClearDriverOvrd := if clear s || msg.clear then 1 else 0
        AKit_SteeringWhlIgnoreDriverOvrd := if msg.ignore then 1 else 0
        AKit_SteeringWhlQuiet := if msg.quiet then 1 else 0
        AKit_SteeringWhlCtrlMode := if msg.control_mode = 1 then 1 else 0
        AKit_SteeringWhlCmdType :=
          if enabled s then (msg.command_type : ℚ)
          else d.steeringCommand.AKit_SteeringWhlCmdType
        AKit_SteerCmdWatchdogCntr := (msg.count : ℚ) } := by
  apply AKit_SteeringCommand.eq_of_fields
  · simp only [recvSteeringCmd, apply_ite AKit_SteeringCommand.AKit_SteerCtrlEnblCmd, ite_self]
  · simp only [recvSteeringCmd, apply_ite AKit_SteeringCommand.AKit_SteeringWhlAngleCmd,
      ite_self]
    cases enabled s <;> simp
  · simp only [recvSteeringCmd, apply_ite AKit_SteeringCommand.AKit_SteeringWhlTrqCmd, ite_self]
    cases enabled s <;> simp
  · simp only [recvSteeringCmd, apply_ite AKit_SteeringCommand.AKit_SteeringWhlAngleVelocity,
      ite_self]
    cases enabled s <;> simp
  · simp only [recvSteeringCmd, apply_ite AKit_SteeringCommand.AKit_SteeringWhlClearDriverOvrd,
      ite_self]
  · simp only [recvSteeringCmd,
      apply_ite AKit_SteeringCommand.AKit_SteeringWhlIgnoreDriverOvrd, ite_self]
  · simp only [recvSteeringCmd, apply_ite AKit_SteeringCommand.AKit_SteeringWhlQuiet, ite_self]
  · simp only [recvSteeringCmd, apply_ite AKit_SteeringCommand.AKit_SteeringWhlCtrlMode,
      ite_self]
  · simp only [recvSteeringCmd, apply_ite AKit_SteeringCommand.AKit_SteeringWhlCmdType,
      ite_self]
  · simp only [recvSteeringCmd, apply_ite AKit_SteeringCommand.AKit_SteerCmdWatchdogCntr,
      ite_self]

theorem recvSteeringCmd_frame (fl : FloatOps) (clear : State → Bool) (s : State) (d : Dbc)
    (msg : SteeringCmd) :
    (recvSteeringCmd fl clear s d msg).2 =
      [Out.can (Frame.steering (recvSteeringCmd fl clear s d msg).1.steeringCommand)] := rfl

theorem recvGearCmd_message (clear : State → Bool) (s : State) (d : Dbc) (msg : GearCmd) :
    (recvGearCmd clear s d msg).1.gearCommand =
      { AKit_PrndStateCmd := if enabled s then (msg.cmd_gear : ℚ) else 0
        AKit_PrndClearDriverOvrd := if clear s || msg.clear then 1 else 0
        AKit_PrndCmdWatchdogCntr := (msg.gear_cmd_rolling_counter : ℚ) } := by
  simp only [recvGearCmd]
  split_ifs <;> rfl

theorem recvGearCmd_frame (clear : State → Bool) (s : State) (d : Dbc) (msg : GearCmd) :
    (recvGearCmd clear s d msg).2 =
      [Out.can (Frame.gear (recvGearCmd clear s d msg).1.gearCommand)] := rfl

theorem recvMiscCmd_message (s : State) (d : Dbc) (msg : MiscCmd) :
    (recvMiscCmd s d msg).1.misc =
      { AKit_TurnSignalCmd := if enabled s then (msg.cmd : ℚ) else 0
        AKit_DoorToggleReq := (msg.door_request : ℚ)
        AKit_MiscCmdWatchdogCntr := (msg.misc_cmd_rolling_counter : ℚ) } := by
  simp only [recvMiscCmd]
  split_ifs <;> rfl

theorem recvMiscCmd_frame (s : State) (d : Dbc) (msg : MiscCmd) :
    (recvMiscCmd s d msg).2 = [Out.can (Frame.misc (recvMiscCmd s d msg).1.misc)] := rfl

/-! ## Theorems about the command encoders -/

/-- C11. While `enabled()` is false the brake, accelerator pedal, steering and gear
encoders each publish one frame whose actuation signals are 0 (brake pedal command;
accelerator pedal command; steering angle, torque and angle velocity; gear state
command) and whose enable request signal is 0 (brake, accelerator pedal, steering),
whatever the request carries and whatever the message store held. -/
theorem disabled_commands_are_neutral (fl : FloatOps) (clear : State → Bool) (s : State)
    (d : Dbc) (h : enabled s = false) (b : BrakeCmd) (a : AcceleratorPedalCmd)
    (c : SteeringCmd) (g : GearCmd) :
    (∃ m, (recvBrakeCmd clear s d b).2 = [Out.can (Frame.brake m)] ∧
      m.AKit_BrakePedalCmd = 0 ∧ m.AKit_BrakeCtrlEnblCmd = 0) ∧
    (∃ m, (recvAcceleratorPedalCmd clear s d a).2 = [Out.can (Frame.accel m)] ∧
      m.AKit_AccelPdlCmd = 0 ∧ m.AKit_AccelPdlEnblCmd = 0) ∧
    (∃ m, (recvSteeringCmd fl clear s d c).2 = [Out.can (Frame.steering m)] ∧
      m.AKit_SteeringWhlAngleCmd = 0 ∧ m.AKit_SteeringWhlTrqCmd = 0 ∧
      m.AKit_SteeringWhlAngleVelocity = 0 ∧ m.AKit_SteerCtrlEnblCmd = 0) ∧
    (∃ m, (recvGearCmd clear s d g).2 = [Out.can (Frame.gear m)] ∧
      m.AKit_PrndStateCmd = 0) := by
  refine ⟨⟨_, recvBrakeCmd_frame clear s d b, ?_⟩,
    ⟨_, recvAcceleratorPedalCmd_frame clear s d a, ?_⟩,
    ⟨_, recvSteeringCmd_frame fl clear s d c, ?_⟩,
    ⟨_, recvGearCmd_frame clear s d g, ?_⟩⟩
  · simp [recvBrakeCmd_message, h]
  · simp [recvAcceleratorPedalCmd_message, h]
  · simp [recvSteeringCmd_message, h]
  · simp [recvGearCmd_message, h]

/-- C11, instance: the constructed state, a message store full of stale values and
requests that carry non-zero commands. -/
theorem disabled_commands_are_neutral_witness :
    enabled construct.1 = false ∧
    ((∃ m, (recvBrakeCmd exampleClear construct.1 staleDbc exampleBrakeCmd).2 =
        [Out.can (Frame.brake m)] ∧
      m.AKit_BrakePedalCmd = 0 ∧ m.AKit_BrakeCtrlEnblCmd = 0) ∧
    (∃ m, (recvAcceleratorPedalCmd exampleClear construct.1 staleDbc
        exampleAcceleratorPedalCmd).2 = [Out.can (Frame.accel m)] ∧
      m.AKit_AccelPdlCmd = 0 ∧ m.AKit_AccelPdlEnblCmd = 0) ∧
    (∃ m, (recvSteeringCmd exampleFloatOps exampleClear construct.1 staleDbc
        exampleSteeringCmd).2 = [Out.can (Frame.steering m)] ∧
      m.AKit_SteeringWhlAngleCmd = 0 ∧ m.AKit_SteeringWhlTrqCmd = 0 ∧
      m.AKit_SteeringWhlAngleVelocity = 0 ∧ m.AKit_SteerCtrlEnblCmd = 0) ∧
    (∃ m, (recvGearCmd exampleClear construct.1 staleDbc exampleGearCmd).2 =
        [Out.can (Frame.gear m)] ∧
      m.AKit_PrndStateCmd = 0)) :=
  ⟨by decide,
    disabled_commands_are_neutral exampleFloatOps exampleClear construct.1 staleDbc
      (by decide) exampleBrakeCmd exampleAcceleratorPedalCmd exampleSteeringCmd
      exampleGearCmd⟩

/-- C12 (as stated, refuted). With `enabled()` false, a miscellaneous request whose
door request is 1 is encoded with `AKit_DoorToggleReq` equal to 1. -/
theorem door_request_encoded_while_disabled :
    enabled construct.1 = false ∧
      (recvMiscCmd construct.1 zeroDbc exampleMiscCmd).2 =
        [Out.can (Frame.misc
          { AKit_TurnSignalCmd := 0, AKit_DoorToggleReq := 1,
            AKit_MiscCmdWatchdogCntr := 11 })] ∧
      (1 : ℚ) ≠ 0 := by
  refine ⟨by decide, ?_, one_ne_zero⟩
  rw [recvMiscCmd_frame, recvMiscCmd_message]
  simp [exampleMiscCmd, show enabled construct.1 = false by decide]

/-- C12 (amended). While `enabled()` is false the miscellaneous encoder publishes one
frame whose turn signal command is 0; its door toggle request is the one of the
request. -/
theorem disabled_misc_turn_signal_neutral (s : State) (d : Dbc) (h : enabled s = false)
    (msg : MiscCmd) :
    ∃ m, (recvMiscCmd s d msg).2 = [Out.can (Frame.misc m)] ∧
      m.AKit_TurnSignalCmd = 0 ∧ m.AKit_DoorToggleReq = (msg.door_request : ℚ) := by
  refine ⟨_, recvMiscCmd_frame s d msg, ?_⟩
  simp [recvMiscCmd_message, h]

/-- C12 (amended), instance: the constructed state and a request with turn signal 2
and door request 1. -/
theorem disabled_misc_turn_signal_neutral_witness :
    enabled construct.1 = false ∧
      ∃ m, (recvMiscCmd construct.1 staleDbc exampleMiscCmd).2 = [Out.can (Frame.misc m)] ∧
        m.AKit_TurnSignalCmd = 0 ∧
        m.AKit_DoorToggleReq = (exampleMiscCmd.door_request : ℚ) :=
  ⟨by decide,
    disabled_misc_turn_signal_neutral construct.1 staleDbc (by decide) exampleMiscCmd⟩

/-- C13 (the code at the failing input). An accelerator pedal request with rolling
counter 5 and control mode 1 is encoded with `AKit_AccelPdlWatchdogCntr` equal to 1,
not 5. -/
theorem accelerator_counter_overwritten_in_control_mode_one :
    exampleAcceleratorPedalCmd.accelerator_pedal_cmd_rolling_counter = 5 ∧
      exampleAcceleratorPedalCmd.control_mode = 1 ∧
      (recvAcceleratorPedalCmd exampleClear construct.1 zeroDbc
          exampleAcceleratorPedalCmd).2 =
        [Out.can (Frame.accel
          { AKit_AccelPdlEnblCmd := 0, AKit_AccelPdlCmd := 0,
            AKit_AccelPdlWatchdogCntr := 1, AKit_AccelPdlCtrlMode := 1,
            AKit_AccelPdlClearDriverOvrd := 1, Akit_AccelPdlIgnoreDriverOvrd := 0 })] ∧
      (1 : ℚ) ≠ 5 := by
  refine ⟨rfl, rfl, ?_, by norm_num⟩
  rw [recvAcceleratorPedalCmd_frame, recvAcceleratorPedalCmd_message]
  simp [exampleAcceleratorPedalCmd, exampleClear,
    show enabled construct.1 = false by decide, show fault construct.1 = false by decide]

/-- C14. The brake, steering, gear and miscellaneous encoders each publish one frame
whose watchdog counter signal is the counter of the request, enabled or not. -/
theorem counters_copied_from_request (fl : FloatOps) (clear : State → Bool) (s : State)
    (d : Dbc) (b : BrakeCmd) (c : SteeringCmd) (g : GearCmd) (k : MiscCmd) :
    (∃ m, (recvBrakeCmd clear s d b).2 = [Out.can (Frame.brake m)] ∧
      m.AKit_BrakeWatchdogCntr = (b.count : ℚ)) ∧
    (∃ m, (recvSteeringCmd fl clear s d c).2 = [Out.can (Frame.steering m)] ∧
      m.AKit_SteerCmdWatchdogCntr = (c.count : ℚ)) ∧
    (∃ m, (recvGearCmd clear s d g).2 = [Out.can (Frame.gear m)] ∧
      m.AKit_PrndCmdWatchdogCntr = (g.gear_cmd_rolling_counter : ℚ)) ∧
    (∃ m, (recvMiscCmd s d k).2 = [Out.can (Frame.misc m)] ∧
      m.AKit_MiscCmdWatchdogCntr = (k.misc_cmd_rolling_counter : ℚ)) := by
  refine ⟨⟨_, recvBrakeCmd_frame clear s d b, ?_⟩,
    ⟨_, recvSteeringCmd_frame fl clear s d c, ?_⟩,
    ⟨_, recvGearCmd_frame clear s d g, ?_⟩,
    ⟨_, recvMiscCmd_frame s d k, ?_⟩⟩
  · rw [recvBrakeCmd_message]
  · rw [recvSteeringCmd_message]
  · rw [recvGearCmd_message]
  · rw [recvMiscCmd_message]

/-- C15. The brake, accelerator pedal, steering and gear encoders each publish one frame
whose clear driver override signal is 1 if `clear()` is true or the request asks for a
clear, and 0 otherwise, for every state (enabled or not) and every value of `clear()`. -/
theorem clear_override_signal (fl : FloatOps) (clear : State → Bool) (s : State)
    (d : Dbc) (b : BrakeCmd) (a : AcceleratorPedalCmd) (c : SteeringCmd) (g : GearCmd) :
    (∃ m, (recvBrakeCmd clear s d b).2 = [Out.can (Frame.brake m)] ∧
      m.AKit_BrakePedalClearDriverOvrd = if clear s || b.clear then 1 else 0) ∧
    (∃ m, (recvAcceleratorPedalCmd clear s d a).2 = [Out.can (Frame.accel m)] ∧
      m.AKit_AccelPdlClearDriverOvrd = if clear s || a.clear then 1 else 0) ∧
    (∃ m, (recvSteeringCmd fl clear s d c).2 = [Out.can (Frame.steering m)] ∧
      m.AKit_SteeringWhlClearDriverOvrd = if clear s || c.clear then 1 else 0) ∧
    (∃ m, (recvGearCmd clear s d g).2 = [Out.can (Frame.gear m)] ∧
      m.AKit_PrndClearDriverOvrd = if clear s || g.clear then 1 else 0) := by
  refine ⟨⟨_, recvBrakeCmd_frame clear s d b, ?_⟩,
    ⟨_, recvAcceleratorPedalCmd_frame clear s d a, ?_⟩,
    ⟨_, recvSteeringCmd_frame fl clear s d c, ?_⟩,
    ⟨_, recvGearCmd_frame clear s d g, ?_⟩⟩
  · rw [recvBrakeCmd_message]
  · rw [recvAcceleratorPedalCmd_message]
  · rw [recvSteeringCmd_message]
  · rw [recvGearCmd_message]

/-- C16. While `enabled()` is true, a steering request in angle mode (command type 0)
is encoded with an angle signal equal to the commanded angle in tenths of a degree,
clamped to [-5000, 5000] and divided by 10: 500 from 5000 tenths upwards (600 degrees
are 6000 tenths), -500 from -5000 tenths downwards, a tenth of the value in between; so
the signal lies in [-500, 500]. The conversion to tenths of a degree is `angleTenths`. -/
theorem steering_angle_clamped (fl : FloatOps) (clear : State → Bool) (s : State)
    (d : Dbc) (msg : SteeringCmd) (h : enabled s = true) (hc : msg.command_type = 0) :
    ∃ m, (recvSteeringCmd fl clear s d msg).2 = [Out.can (Frame.steering m)] ∧
      m.AKit_SteeringWhlAngleCmd =
        max (-5000) (min 5000 (fl.angleTenths msg.steering_wheel_angle_cmd)) / 10 ∧
      m.AKit_SteeringWhlAngleCmd =
        (if 5000 ≤ fl.angleTenths msg.steering_wheel_angle_cmd then 500
         else if fl.angleTenths msg.steering_wheel_angle_cmd ≤ -5000 then -500
         else fl.angleTenths msg.steering_wheel_angle_cmd / 10) ∧
      -500 ≤ m.AKit_SteeringWhlAngleCmd ∧ m.AKit_SteeringWhlAngleCmd ≤ 500 := by
  refine ⟨_, recvSteeringCmd_frame fl clear s d msg, ?_⟩
  rw [recvSteeringCmd_message]
  simp only [h, hc, decide_True, Bool.and_self, if_true]
  generalize fl.angleTenths msg.steering_wheel_angle_cmd = t
  refine ⟨trivial, ?_, ?_, ?_⟩
  · split_ifs with h1 h2
    · rw [min_eq_left h1, max_eq_right (by norm_num)]
      norm_num
    · rw [min_eq_right (by linarith), max_eq_left h2]
      norm_num
    · rw [min_eq_right (le_of_lt (not_le.mp h1)), max_eq_right (le_of_lt (not_le.mp h2))]
  · have : (-5000 : ℚ) ≤ max (-5000) (min 5000 t) := le_max_left _ _
    linarith
  · have : max (-5000) (min 5000 t) ≤ (5000 : ℚ) := max_le (by norm_num) (min_le_left _ _)
    linarith

/-- C16, instance: 600 degrees, which `exampleFloatOps` converts to 6000 tenths, is
encoded as 500. -/
theorem steering_angle_clamped_witness :
    enabled exampleEnabled = true ∧ exampleSteeringCmd.command_type = 0 ∧
    exampleFloatOps.angleTenths exampleSteeringCmd.steering_wheel_angle_cmd = 6000 ∧
    ∃ m, (recvSteeringCmd exampleFloatOps exampleClear exampleEnabled staleDbc
        exampleSteeringCmd).2 = [Out.can (Frame.steering m)] ∧
      m.AKit_SteeringWhlAngleCmd =
        max (-5000) (min 5000
          (exampleFloatOps.angleTenths exampleSteeringCmd.steering_wheel_angle_cmd)) / 10 ∧
      m.AKit_SteeringWhlAngleCmd =
        (if 5000 ≤ exampleFloatOps.angleTenths exampleSteeringCmd.steering_wheel_angle_cmd
          then 500
         else if exampleFloatOps.angleTenths exampleSteeringCmd.steering_wheel_angle_cmd
            ≤ -5000 then -500
         else exampleFloatOps.angleTenths exampleSteeringCmd.steering_wheel_angle_cmd / 10) ∧
      -500 ≤ m.AKit_SteeringWhlAngleCmd ∧ m.AKit_SteeringWhlAngleCmd ≤ 500 :=
  ⟨by decide, rfl, by norm_num [exampleFloatOps, exampleSteeringCmd],
    steering_angle_clamped exampleFloatOps exampleClear exampleEnabled staleDbc
      exampleSteeringCmd (by decide) rfl⟩

/-- C17. While `enabled()` is true, the angle velocity signal of an encoded steering
request is 0 when the commanded angular rate is zero; otherwise it is the rounded rate
`rateRaw` (an integer, named `k` here) clamped into [1, 254], hence between 1 and 254
and never 255. -/
theorem steering_velocity_clamped (fl : FloatOps) (clear : State → Bool) (s : State)
    (d : Dbc) (msg : SteeringCmd) (k : ℕ) (h : enabled s = true)
    (hk : fl.rateRaw msg.steering_wheel_angle_velocity = (k : ℚ)) :
    ∃ m, (recvSteeringCmd fl clear s d msg).2 = [Out.can (Frame.steering m)] ∧
      m.AKit_SteeringWhlAngleVelocity =
        (if msg.steering_wheel_angle_velocity = 0 then 0
         else ((max 1 (min 254 k) : ℕ) : ℚ)) ∧
      (msg.steering_wheel_angle_velocity = 0 ∨
        (1 ≤ m.AKit_SteeringWhlAngleVelocity ∧ m.AKit_SteeringWhlAngleVelocity ≤ 254)) ∧
      m.AKit_SteeringWhlAngleVelocity ≠ 255 := by
  refine ⟨_, recvSteeringCmd_frame fl clear s d msg, ?_⟩
  rw [recvSteeringCmd_message]
  simp only [h, hk, Bool.true_and]
  have hfloor : ⌊max (1 : ℚ) (min 254 (k : ℚ))⌋₊ = max 1 (min 254 k) := by
    have : max (1 : ℚ) (min 254 (k : ℚ)) = ((max 1 (min 254 k) : ℕ) : ℚ) := by
      push_cast
      rfl
    rw [this, Nat.floor_natCast]
  have hlo : 1 ≤ max 1 (min 254 k) := le_max_left _ _
  have hhi : max 1 (min 254 k) ≤ 254 := max_le (by norm_num) (min_le_left _ _)
  rw [hfloor]
  by_cases hv : msg.steering_wheel_angle_velocity = 0
  · simp [hv]
  · have hpos : 0 < |msg.steering_wheel_angle_velocity| := abs_pos.mpr hv
    simp only [hv, hpos, decide_True, if_true, if_false, false_or]
    refine ⟨trivial, ⟨?_, ?_⟩, ?_⟩
    · exact_mod_cast hlo
    · exact_mod_cast hhi
    · intro h255
      have : max 1 (min 254 k) = 255 := by exact_mod_cast h255
      omega

/-- C17, instance: an angular rate of 1/2, which `exampleFloatOps` rounds to 15. -/
theorem steering_velocity_clamped_witness :
    enabled exampleEnabled = true ∧
    exampleFloatOps.rateRaw exampleSteeringCmd.steering_wheel_angle_velocity = ((15 : ℕ) : ℚ) ∧
    ∃ m, (recvSteeringCmd exampleFloatOps exampleClear exampleEnabled staleDbc
        exampleSteeringCmd).2 = [Out.can (Frame.steering m)] ∧
      m.AKit_SteeringWhlAngleVelocity =
        (if exampleSteeringCmd.steering_wheel_angle_velocity = 0 then 0
         else ((max 1 (min 254 15) : ℕ) : ℚ)) ∧
      (exampleSteeringCmd.steering_wheel_angle_velocity = 0 ∨
        (1 ≤ m.AKit_SteeringWhlAngleVelocity ∧ m.AKit_SteeringWhlAngleVelocity ≤ 254)) ∧
      m.AKit_SteeringWhlAngleVelocity ≠ 255 :=
  ⟨by decide, by norm_num [exampleFloatOps, exampleSteeringCmd, abs_of_pos],
    steering_velocity_clamped exampleFloatOps exampleClear exampleEnabled staleDbc
      exampleSteeringCmd 15 (by decide)
      (by norm_num [exampleFloatOps, exampleSteeringCmd, abs_of_pos])⟩

/-! ## Theorems about the periodic timer -/

/-- C18. A timer tick publishes frames and nothing else; their number is the number of
override flags that are true (brake, accelerator pedal, steering, gear) when `clear()`
is true, and 0 when `clear()` is false, hence 0 when no override flag is true; and the
tick leaves the enable state machine as it was. -/
theorem timer_frame_count (fl : FloatOps) (clear : State → Bool) (n : Node) :
    (canFrames (timerCallback clear n.st n.dbc).2).length =
        (if clear n.st then
          (if n.st.override_brake_ then 1 else 0) +
          (if n.st.override_accelerator_pedal_ then 1 else 0) +
          (if n.st.override_steering_ then 1 else 0) +
          (if n.st.override_gear_ then 1 else 0)
        else 0) ∧
      (timerCallback clear n.st n.dbc).2.length =
        (canFrames (timerCallback clear n.st n.dbc).2).length ∧
      (step fl clear n Event.timer).2 = (timerCallback clear n.st n.dbc).2 ∧
      (step fl clear n Event.timer).1.st = n.st := by
  refine ⟨?_, ?_, rfl, rfl⟩
  · simp only [timerCallback]
    cases clear n.st <;> cases n.st.override_brake_ <;>
      cases n.st.override_accelerator_pedal_ <;> cases n.st.override_steering_ <;>
      cases n.st.override_gear_ <;> rfl
  · simp only [timerCallback]
    cases clear n.st <;> cases n.st.override_brake_ <;>
      cases n.st.override_accelerator_pedal_ <;> cases n.st.override_steering_ <;>
      cases n.st.override_gear_ <;> rfl

/-- C19. Every frame that a timer tick publishes has its clear driver override signal
equal to 1 and its actuation signals equal to 0 (brake pedal command; accelerator pedal
command; steering angle, torque and angle velocity; gear state command), the brake and
accelerator pedal frames also have their enable request equal to 0, and no
miscellaneous frame is published, whatever the message store held. -/
theorem timer_frames_clear_and_neutral (clear : State → Bool) (s : State) (d : Dbc)
    (f : Frame) (hf : Out.can f ∈ (timerCallback clear s d).2) :
    match f with
    | Frame.brake m =>
      m.AKit_BrakePedalClearDriverOvrd = 1 ∧ m.AKit_BrakeCtrlEnblCmd = 0 ∧
        m.AKit_BrakePedalCmd = 0
    | Frame.accel m =>
      m.AKit_AccelPdlClearDriverOvrd = 1 ∧ m.AKit_AccelPdlEnblCmd = 0 ∧
        m.AKit_AccelPdlCmd = 0
    | Frame.steering m =>
      m.AKit_SteeringWhlClearDriverOvrd = 1 ∧ m.AKit_SteeringWhlAngleCmd = 0 ∧
        m.AKit_SteeringWhlTrqCmd = 0 ∧ m.AKit_SteeringWhlAngleVelocity = 0
    | Frame.gear m => m.AKit_PrndClearDriverOvrd = 1 ∧ m.AKit_PrndStateCmd = 0
    | Frame.misc _ => False := by
  simp only [timerCallback] at hf
  split at hf
  · simp only [List.mem_append] at hf
    rcases hf with ((hf | hf) | hf) | hf
    all_goals
      split at hf
      · simp only [List.mem_singleton, Out.can.injEq] at hf
        subst hf
        simp [*]
      · simp at hf
  · simp at hf

/-- C19, instance: the brake frame of a tick served with overrides on the brake and the
steering wheel and a message store full of stale values. -/
theorem timer_frames_clear_and_neutral_witness :
    Out.can (Frame.brake
        { AKit_BrakeCtrlEnblCmd := 0, AKit_BrakePedalCmd := 0, AKit_BrakePedalCtrlMode := 0,
          AKit_BrakePedalClearDriverOvrd := 1, AKit_BrakeWatchdogCntr := 9 }) ∈
      (timerCallback exampleClear exampleOverridden staleDbc).2 ∧
    ((⟨0, 0, 0, 1, 9⟩ : AKit_BrakeCommand).AKit_BrakePedalClearDriverOvrd = 1 ∧
      (⟨0, 0, 0, 1, 9⟩ : AKit_BrakeCommand).AKit_BrakeCtrlEnblCmd = 0 ∧
      (⟨0, 0, 0, 1, 9⟩ : AKit_BrakeCommand).AKit_BrakePedalCmd = 0) :=
  ⟨by
      simp [timerCallback, exampleClear, staleDbc,
        show fault exampleOverridden = false by decide,
        show exampleOverridden.override_brake_ = true by decide],
    timer_frames_clear_and_neutral exampleClear exampleOverridden staleDbc
      (Frame.brake
        { AKit_BrakeCtrlEnblCmd := 0, AKit_BrakePedalCmd := 0, AKit_BrakePedalCtrlMode := 0,
          AKit_BrakePedalClearDriverOvrd := 1, AKit_BrakeWatchdogCntr := 9 })
      (by
        simp [timerCallback, exampleClear, staleDbc,
          show fault exampleOverridden = false by decide,
          show exampleOverridden.override_brake_ = true by decide])⟩

/-! ## Theorems about report decoding -/

/-- C20 (as stated, refuted). With 8 bytes expected, a gear report frame of 1 byte that
reports driver activity is not dropped: served in the enabled state it sets
`override_gear_`, clears `enable_` and publishes a gear report. -/
theorem short_gear_report_is_decoded :
    exampleShortGearReport.dlc < exampleGetDlc exampleShortGearReport.id ∧
      exampleEnabled.override_gear_ = false ∧ exampleEnabled.enable_ = true ∧
      (recvCAN exampleConstants exampleGetDlc exampleUnbound exampleJointOps
        { initial zeroDbc with st := exampleEnabled }
        exampleShortGearReport).1.st.override_gear_ = true ∧
      (recvCAN exampleConstants exampleGetDlc exampleUnbound exampleJointOps
        { initial zeroDbc with st := exampleEnabled }
        exampleShortGearReport).1.st.enable_ = false ∧
      Out.report Report.gear ∈
        (recvCAN exampleConstants exampleGetDlc exampleUnbound exampleJointOps
          { initial zeroDbc with st := exampleEnabled } exampleShortGearReport).2 := by
  refine ⟨by decide, by decide, by decide, ?_, ?_, ?_⟩
  · simp [recvCAN, recvCAN_ID_GEAR_REPORT, exampleShortGearReport, exampleGetDlc,
      overrideGear_state]
  · simp [recvCAN, recvCAN_ID_GEAR_REPORT, exampleShortGearReport, exampleGetDlc,
      overrideGear_state, show enabled exampleEnabled = true by decide]
  · simp [recvCAN, recvCAN_ID_GEAR_REPORT, exampleShortGearReport, exampleGetDlc]

/-- C20 (amended). A frame shorter than the length that the DBC file gives for its
identifier is dropped, leaving the node as it was and publishing nothing, unless it is
a gear report of at least one byte; such a frame is served as the gear override report
of its driver activity signal followed by the publication of a gear report. -/
theorem short_frame_dropped_unless_gear (K : Constants) (GetDlc : MsgId → Nat)
    (u : Unbound) (jo : JointOps) (n : Node) (msg : CanMsg)
    (h : msg.dlc < GetDlc msg.id) :
    recvCAN K GetDlc u jo n msg =
      if msg.id = MsgId.ID_GEAR_REPORT ∧ 1 ≤ msg.dlc ∧ msg.is_rtr = false ∧
          msg.is_error = false then
        ({ n with
            st := (overrideGear n.st (msg.signal Signal.DBW_PrndDriverActivity != 0)).1 },
          (overrideGear n.st (msg.signal Signal.DBW_PrndDriverActivity != 0)).2 ++
            [Out.report Report.gear])
      else (n, []) := by
  have h' : ∀ i, msg.id = i → ¬ GetDlc i ≤ msg.dlc := by
    intro i hi
    rw [← hi]
    exact not_le.mpr h
  unfold recvCAN
  cases hr : msg.is_rtr
  · cases he : msg.is_error
    · cases hid : msg.id <;>
        simp [recvCAN_ID_BRAKE_REPORT, recvCAN_ID_ACCEL_PEDAL_REPORT,
          recvCAN_ID_STEERING_REPORT, recvCAN_ID_GEAR_REPORT, recvCAN_ID_REPORT_WHEEL_SPEED,
          recvCAN_ID_VIN, recvCAN_report, h' _ hid]
    · simp
  · simp

/-- C20 (amended), instance: a brake report frame of 7 bytes where 8 are expected,
although it reports faults on both channels. -/
theorem short_frame_dropped_unless_gear_witness :
    exampleShortBrakeReport.dlc < exampleGetDlc exampleShortBrakeReport.id ∧
      recvCAN exampleConstants exampleGetDlc exampleUnbound exampleJointOps
          { initial zeroDbc with st := exampleEnabled } exampleShortBrakeReport =
        if exampleShortBrakeReport.id = MsgId.ID_GEAR_REPORT ∧
            1 ≤ exampleShortBrakeReport.dlc ∧ exampleShortBrakeReport.is_rtr = false ∧
            exampleShortBrakeReport.is_error = false then
          ({ ({ initial zeroDbc with st := exampleEnabled } : Node) with
              st := (overrideGear exampleEnabled
                (exampleShortBrakeReport.signal Signal.DBW_PrndDriverActivity != 0)).1 },
            (overrideGear exampleEnabled
                (exampleShortBrakeReport.signal Signal.DBW_PrndDriverActivity != 0)).2 ++
              [Out.report Report.gear])
        else ({ initial zeroDbc with st := exampleEnabled }, []) :=
  ⟨by decide,
    short_frame_dropped_unless_gear exampleConstants exampleGetDlc exampleUnbound
      exampleJointOps { initial zeroDbc with st := exampleEnabled } exampleShortBrakeReport
      (by decide)⟩

/-! ## Auxiliary facts: the diagnostics of `faultWatchdog` and `enableSystem` -/

theorem log_mem_publishAndReport (en : Bool) (t d : Diag) (s : State)
    (h : Out.log d ∈ (publishAndReport en t s).2) : d = t ∨ d = Diag.systemEnabled := by
  simp only [publishAndReport, publishDbwEnabled_outs, publishDbwEnabled_change,
    List.mem_append] at h
  rcases h with h | h
  · split at h <;> simp at h
  · split at h
    · simp only [List.mem_singleton, Out.log.injEq] at h
      cases en <;> simp_all
    · simp at h

theorem faultWatchdog_outs (s : State) (f : Bool) (src : Nat) (b : Bool) :
    (faultWatchdog s f src b).2 =
      (publishAndReport (enabled s) Diag.disabledFaultWatchdog
        { s with enable_ := s.enable_ && !(f && enabled s), fault_watchdog_ := f }).2 ++
      (if b && !s.fault_watchdog_using_brakes_ then [Out.log Diag.watchdogApplyingBrakes]
        else if !b && s.fault_watchdog_using_brakes_ then
          [Out.log Diag.watchdogDriverTookControl]
        else []) ++
      (if f && (src != 0) && !s.fault_watchdog_warned_ then
        [Out.log (Diag.watchdogSource src)] else []) ++
      (if f && !b && (if f && (src != 0) && !s.fault_watchdog_warned_ then true
          else if !f then false else s.fault_watchdog_warned_) then
        [Out.log Diag.watchdogClearReminder] else []) := by
  simp only [faultWatchdog, gate_eq, publishAndReport_state]
  congr 1
  split
  · simp_all
  · split <;> simp_all

/-! ## Theorems about the watchdog, the timeouts and refused enable requests -/

/-- C21. From a state `s` with `fault_watchdog_warned_` false, a watchdog report with
fault true and a source other than 0 (the test `src` of line 1082; 0 is the source
"none") leaves `fault_watchdog_warned_` true and runs the `switch` on the source; and
from every state `t` a watchdog report with fault false leaves `fault_watchdog_warned_`
false. Both hold for either overload and whatever the other arguments. -/
theorem watchdog_warned_latch (s t : State) (src src' : Nat) (braking braking' : Bool)
    (hw : s.fault_watchdog_warned_ = false) (hs : src ≠ 0) :
    ((faultWatchdog s true src braking).1.fault_watchdog_warned_ = true ∧
      (faultWatchdog₂ s true src).1.fault_watchdog_warned_ = true ∧
      Out.log (Diag.watchdogSource src) ∈ (faultWatchdog s true src braking).2) ∧
    ((faultWatchdog t false src' braking').1.fault_watchdog_warned_ = false ∧
      (faultWatchdog₂ t false src').1.fault_watchdog_warned_ = false) := by
  refine ⟨⟨?_, ?_, ?_⟩, ?_, ?_⟩
  · simp [faultWatchdog_state, hw, hs]
  · simp [faultWatchdog₂, faultWatchdog_state, hw, hs]
  · simp [faultWatchdog_outs, hw, hs]
  · simp [faultWatchdog_state]
  · simp [faultWatchdog₂, faultWatchdog_state]

/-- C21, instance: a fault with source 6 reported to the constructed state, and a
report without fault served by the state that the first report leaves. -/
theorem watchdog_warned_latch_witness :
    (construct.1.fault_watchdog_warned_ = false ∧ (6 : Nat) ≠ 0) ∧
    ((faultWatchdog construct.1 true 6 true).1.fault_watchdog_warned_ = true ∧
      (faultWatchdog₂ construct.1 true 6).1.fault_watchdog_warned_ = true ∧
      Out.log (Diag.watchdogSource 6) ∈ (faultWatchdog construct.1 true 6 true).2) ∧
    ((faultWatchdog (faultWatchdog construct.1 true 6 true).1 false 0
        false).1.fault_watchdog_warned_ = false ∧
      (faultWatchdog₂ (faultWatchdog construct.1 true 6 true).1 false
        0).1.fault_watchdog_warned_ = false) :=
  ⟨⟨by decide, by decide⟩,
    watchdog_warned_latch construct.1 (faultWatchdog construct.1 true 6 true).1 6 0 true
      false (by decide) (by decide)⟩

/-- C22. From a state with `fault_watchdog_using_brakes_` false, a watchdog report with
fault true and braking true followed by one with fault true and braking false (same
source, any value of it, such as `BRAKE_COMMAND`) logs "applying brakes" and not
"driver has taken control" during the first call, "driver has taken control" and not
"applying brakes" during the second, and ends with `fault_watchdog_using_brakes_`
false. -/
theorem watchdog_braking_scenario (s : State) (src : Nat)
    (h : s.fault_watchdog_using_brakes_ = false) :
    (Out.log Diag.watchdogApplyingBrakes ∈ (faultWatchdog s true src true).2 ∧
      Out.log Diag.watchdogDriverTookControl ∉ (faultWatchdog s true src true).2) ∧
    (Out.log Diag.watchdogDriverTookControl ∈
        (faultWatchdog (faultWatchdog s true src true).1 true src false).2 ∧
      Out.log Diag.watchdogApplyingBrakes ∉
        (faultWatchdog (faultWatchdog s true src true).1 true src false).2) ∧
    (faultWatchdog s true src true).1.fault_watchdog_using_brakes_ = true ∧
    (faultWatchdog (faultWatchdog s true src true).1 true src
      false).1.fault_watchdog_using_brakes_ = false := by
  have hpub : ∀ (en : Bool) (x : State) (d : Diag),
      d = Diag.watchdogApplyingBrakes ∨ d = Diag.watchdogDriverTookControl →
      Out.log d ∉ (publishAndReport en Diag.disabledFaultWatchdog x).2 := by
    intro en x d hd hmem
    rcases log_mem_publishAndReport en _ d x hmem with h1 | h1 <;>
      rcases hd with h2 | h2 <;> rw [h2] at h1 <;> cases h1
  have hu : (faultWatchdog s true src true).1.fault_watchdog_using_brakes_ = true := by
    simp [faultWatchdog_state]
  refine ⟨⟨?_, ?_⟩, ⟨?_, ?_⟩, hu, ?_⟩
  · simp [faultWatchdog_outs, h]
  · rw [faultWatchdog_outs]
    simp only [List.mem_append, not_or]
    refine ⟨⟨⟨hpub _ _ _ (Or.inr rfl), ?_⟩, ?_⟩, ?_⟩
    · simp [h]
    · split <;> simp
    · split <;> simp
  · simp [faultWatchdog_outs, hu]
  · rw [faultWatchdog_outs]
    simp only [List.mem_append, not_or]
    refine ⟨⟨⟨hpub _ _ _ (Or.inl rfl), ?_⟩, ?_⟩, ?_⟩
    · simp [hu]
    · split <;> simp
    · split <;> simp
  · simp [faultWatchdog_state]

/-- C22, instance: the constructed state and source 6. -/
theorem watchdog_braking_scenario_witness :
    construct.1.fault_watchdog_using_brakes_ = false ∧
    ((Out.log Diag.watchdogApplyingBrakes ∈ (faultWatchdog construct.1 true 6 true).2 ∧
      Out.log Diag.watchdogDriverTookControl ∉ (faultWatchdog construct.1 true 6 true).2) ∧
    (Out.log Diag.watchdogDriverTookControl ∈
        (faultWatchdog (faultWatchdog construct.1 true 6 true).1 true 6 false).2 ∧
      Out.log Diag.watchdogApplyingBrakes ∉
        (faultWatchdog (faultWatchdog construct.1 true 6 true).1 true 6 false).2) ∧
    (faultWatchdog construct.1 true 6 true).1.fault_watchdog_using_brakes_ = true ∧
    (faultWatchdog (faultWatchdog construct.1 true 6 true).1 true 6
      false).1.fault_watchdog_using_brakes_ = false) :=
  ⟨by decide, watchdog_braking_scenario construct.1 6 (by decide)⟩

/-- C23. The two-argument watchdog report is the three-argument report called with the
stored `fault_watchdog_using_brakes_` as braking: it returns the same state and the
same effects, which are those of the report that omits the braking update; it leaves
`fault_watchdog_using_brakes_` as it was, and logs neither "applying brakes" nor
"driver has taken control". -/
theorem watchdog_two_argument_overload (s : State) (f : Bool) (src : Nat) :
    faultWatchdog₂ s f src = faultWatchdog s f src s.fault_watchdog_using_brakes_ ∧
      faultWatchdog₂ s f src = specTwoArgumentWatchdog s f src ∧
      (faultWatchdog₂ s f src).1.fault_watchdog_using_brakes_ =
        s.fault_watchdog_using_brakes_ ∧
      Out.log Diag.watchdogApplyingBrakes ∉ (faultWatchdog₂ s f src).2 ∧
      Out.log Diag.watchdogDriverTookControl ∉ (faultWatchdog₂ s f src).2 := by
  have hpub : ∀ (en : Bool) (x : State) (d : Diag),
      d = Diag.watchdogApplyingBrakes ∨ d = Diag.watchdogDriverTookControl →
      Out.log d ∉ (publishAndReport en Diag.disabledFaultWatchdog x).2 := by
    intro en x d hd hmem
    rcases log_mem_publishAndReport en _ d x hmem with h1 | h1 <;>
      rcases hd with h2 | h2 <;> rw [h2] at h1 <;> cases h1
  refine ⟨rfl, ?_, ?_, ?_, ?_⟩
  · apply Prod.ext
    · rw [faultWatchdog₂, faultWatchdog_state]
      simp only [specTwoArgumentWatchdog, gate_eq, publishAndReport_state]
      split
      · simp_all
      · split <;> simp_all
    · rw [faultWatchdog₂, faultWatchdog_outs]
      simp only [specTwoArgumentWatchdog, gate_eq, publishAndReport_state]
      cases s.fault_watchdog_using_brakes_ <;> cases f <;>
        cases s.fault_watchdog_warned_ <;> by_cases hsrc : src = 0 <;> simp [hsrc]
  · simp [faultWatchdog₂, faultWatchdog_state]
  · rw [faultWatchdog₂, faultWatchdog_outs]
    simp only [List.mem_append, not_or]
    refine ⟨⟨⟨hpub _ _ _ (Or.inl rfl), ?_⟩, ?_⟩, ?_⟩
    · cases s.fault_watchdog_using_brakes_ <;> simp
    · split <;> simp
    · split <;> simp
  · rw [faultWatchdog₂, faultWatchdog_outs]
    simp only [List.mem_append, not_or]
    refine ⟨⟨⟨hpub _ _ _ (Or.inr rfl), ?_⟩, ?_⟩, ?_⟩
    · cases s.fault_watchdog_using_brakes_ <;> simp
    · split <;> simp
    · split <;> simp

/-- C24. A timeout report for the brake, the accelerator pedal or the steering writes
the two members of its subsystem (`timeout_*_` and `enabled_*_`) and nothing else, so
`enabled()`, `enable_`, the fault, override and watchdog flags keep their values; and
it publishes nothing on "dbw_enabled". -/
theorem timeout_reports_frame (s : State) (t e : Bool) :
    ((timeoutBrake s t e).1 = { s with timeout_brakes_ := t, enabled_brakes_ := e } ∧
      enabled (timeoutBrake s t e).1 = enabled s ∧
      fault (timeoutBrake s t e).1 = fault s ∧
      override (timeoutBrake s t e).1 = override s ∧
      sysEnables (timeoutBrake s t e).2 = []) ∧
    ((timeoutAcceleratorPedal s t e).1 =
        { s with timeout_accelerator_pedal_ := t, enabled_accelerator_pedal_ := e } ∧
      enabled (timeoutAcceleratorPedal s t e).1 = enabled s ∧
      fault (timeoutAcceleratorPedal s t e).1 = fault s ∧
      override (timeoutAcceleratorPedal s t e).1 = override s ∧
      sysEnables (timeoutAcceleratorPedal s t e).2 = []) ∧
    ((timeoutSteering s t e).1 =
        { s with timeout_steering_ := t, enabled_steering_ := e } ∧
      enabled (timeoutSteering s t e).1 = enabled s ∧
      fault (timeoutSteering s t e).1 = fault s ∧
      override (timeoutSteering s t e).1 = override s ∧
      sysEnables (timeoutSteering s t e).2 = []) :=
  ⟨⟨rfl, rfl, rfl, rfl, timeoutBrake_sysEnables s t e⟩,
    ⟨rfl, rfl, rfl, rfl, timeoutAcceleratorPedal_sysEnables s t e⟩,
    ⟨rfl, rfl, rfl, rfl, timeoutSteering_sysEnables s t e⟩⟩

/-- C25 (as stated, refuted). After a brake override report, an enable request and a
brake fault report the node holds `enable_` true with `fault_brakes_` true; an enable
request then sets nothing, `enabled()` stays false, and no diagnostic is logged
although a fault flag is true. -/
theorem enableSystem_silent_when_flag_already_set :
    (faultBrakes (enableSystem (overrideBrake construct.1 true).1).1 true).1.fault_brakes_
        = true ∧
      (faultBrakes (enableSystem (overrideBrake construct.1 true).1).1 true).1.enable_
        = true ∧
      enabled (enableSystem
        (faultBrakes (enableSystem (overrideBrake construct.1 true).1).1 true).1).1
        = false ∧
      enableSystem (faultBrakes (enableSystem (overrideBrake construct.1 true).1).1 true).1
        = ((faultBrakes (enableSystem (overrideBrake construct.1 true).1).1 true).1, []) := by
  decide

/-- C25 (amended). In a state where `enable_` is already true or a fault flag is true,
`enableSystem` changes no state; with `enable_` false it logs exactly one refusal for
each fault flag that is true, in the order steering calibration, brakes, accelerator
pedal, steering, watchdog, hence at least one; with `enable_` true it logs nothing. -/
theorem enableSystem_refusal_diagnostics (s : State)
    (h : s.enable_ = true ∨ fault s = true) :
    enableSystem s =
        (s,
          if s.enable_ then []
          else
            (if s.fault_steering_cal_ then [Out.log Diag.notEnabledSteeringCal] else []) ++
            (if s.fault_brakes_ then [Out.log Diag.notEnabledBrakes] else []) ++
            (if s.fault_accelerator_pedal_ then [Out.log Diag.notEnabledAcceleratorPedal]
              else []) ++
            (if s.fault_steering_ then [Out.log Diag.notEnabledSteering] else []) ++
            (if s.fault_watchdog_ then [Out.log Diag.notEnabledWatchdog] else [])) ∧
      (s.enable_ = true ∨ 1 ≤ (enableSystem s).2.length) := by
  cases he : s.enable_
  · have hf : fault s = true := by
      rcases h with h | h
      · rw [he] at h
        cases h
      · exact h
    refine ⟨by simp [enableSystem, he, hf], Or.inr ?_⟩
    simp only [enableSystem, he, hf]
    simp only [fault] at hf
    cases h1 : s.fault_steering_cal_ <;> cases h2 : s.fault_brakes_ <;>
      cases h3 : s.fault_accelerator_pedal_ <;> cases h4 : s.fault_steering_ <;>
      cases h5 : s.fault_watchdog_ <;> simp_all
  · exact ⟨by simp [enableSystem, he], Or.inl rfl⟩

/-- C25 (amended), instance: the constructed state with the brake and watchdog fault
flags set; the two refusals are logged in that order. -/
theorem enableSystem_refusal_diagnostics_witness :
    fault exampleFaulted = true ∧
    enableSystem exampleFaulted =
      (exampleFaulted, [Out.log Diag.notEnabledBrakes, Out.log Diag.notEnabledWatchdog]) ∧
    (enableSystem exampleFaulted =
        (exampleFaulted,
          if exampleFaulted.enable_ then []
          else
            (if exampleFaulted.fault_steering_cal_ then
              [Out.log Diag.notEnabledSteeringCal] else []) ++
            (if exampleFaulted.fault_brakes_ then [Out.log Diag.notEnabledBrakes] else []) ++
            (if exampleFaulted.fault_accelerator_pedal_ then
              [Out.log Diag.notEnabledAcceleratorPedal] else []) ++
            (if exampleFaulted.fault_steering_ then [Out.log Diag.notEnabledSteering]
              else []) ++
            (if exampleFaulted.fault_watchdog_ then [Out.log Diag.notEnabledWatchdog]
              else [])) ∧
      (exampleFaulted.enable_ = true ∨ 1 ≤ (enableSystem exampleFaulted).2.length)) :=
  ⟨by decide, by decide,
    enableSystem_refusal_diagnostics exampleFaulted (Or.inr (by decide))⟩

/-! ## Theorems about the VIN and the command encoders, continued -/

/-- C26 (the code at the failing input). The three VIN fragments are received twice,
with `DBW_VinDigit_01` decoding to 1, 2 and 3. The first third fragment publishes 17
values; the second one publishes 34 values, the groups of all six frames, because
`vin_` is never cleared. Every group repeats one value, that of `DBW_VinDigit_01`. -/
theorem vin_accumulates_across_rounds :
    (recvCAN exampleConstants exampleGetDlc exampleUnbound exampleJointOps
        (recvCANs exampleConstants exampleGetDlc exampleUnbound exampleJointOps
          (initial zeroDbc) [exampleVin 0 1, exampleVin 1 2])
        (exampleVin 2 3)).2 =
      [Out.vin [1, 1, 1, 1, 1, 1, 1, 2, 2, 2, 2, 2, 2, 2, 3, 3, 3]] ∧
    (recvCAN exampleConstants exampleGetDlc exampleUnbound exampleJointOps
        (recvCANs exampleConstants exampleGetDlc exampleUnbound exampleJointOps
          (initial zeroDbc)
          [exampleVin 0 1, exampleVin 1 2, exampleVin 2 3, exampleVin 0 1, exampleVin 1 2])
        (exampleVin 2 3)).2 =
      [Out.vin [1, 1, 1, 1, 1, 1, 1, 2, 2, 2, 2, 2, 2, 2, 3, 3, 3,
        1, 1, 1, 1, 1, 1, 1, 2, 2, 2, 2, 2, 2, 2, 3, 3, 3]] := by
  constructor <;>
    simp [recvCANs, recvCAN, recvCAN_ID_VIN, exampleVin, exampleGetDlc, exampleConstants,
      initial]

/-- C27. While `enabled()` is true, the brake and accelerator pedal encoders publish a
frame with enable request 1 and the pedal command of the request; the steering encoder
one with enable request 1, the command type of the request and, according to that
type, the clamped angle of the request or its torque; the gear encoder one with the
gear of the request. -/
theorem enabled_commands_carry_request (fl : FloatOps) (clear : State → Bool) (s : State)
    (d : Dbc) (h : enabled s = true) (b : BrakeCmd) (a : AcceleratorPedalCmd)
    (c : SteeringCmd) (g : GearCmd) :
    (∃ m, (recvBrakeCmd clear s d b).2 = [Out.can (Frame.brake m)] ∧
      m.AKit_BrakeCtrlEnblCmd = 1 ∧ m.AKit_BrakePedalCmd = b.pedal_cmd) ∧
    (∃ m, (recvAcceleratorPedalCmd clear s d a).2 = [Out.can (Frame.accel m)] ∧
      m.AKit_AccelPdlEnblCmd = 1 ∧ m.AKit_AccelPdlCmd = a.pedal_cmd) ∧
    (∃ m, (recvSteeringCmd fl clear s d c).2 = [Out.can (Frame.steering m)] ∧
      m.AKit_SteerCtrlEnblCmd = 1 ∧ m.AKit_SteeringWhlCmdType = (c.command_type : ℚ) ∧
      m.AKit_SteeringWhlAngleCmd =
        (if c.command_type = 0 then
          max (-5000) (min 5000 (fl.angleTenths c.steering_wheel_angle_cmd)) / 10
        else 0) ∧
      m.AKit_SteeringWhlTrqCmd =
        (if c.command_type = 0 then 0 else c.steering_wheel_torque_cmd)) ∧
    (∃ m, (recvGearCmd clear s d g).2 = [Out.can (Frame.gear m)] ∧
      m.AKit_PrndStateCmd = (g.cmd_gear : ℚ)) := by
  refine ⟨⟨_, recvBrakeCmd_frame clear s d b, ?_⟩,
    ⟨_, recvAcceleratorPedalCmd_frame clear s d a, ?_⟩,
    ⟨_, recvSteeringCmd_frame fl clear s d c, ?_⟩,
    ⟨_, recvGearCmd_frame clear s d g, ?_⟩⟩
  · simp [recvBrakeCmd_message, h]
  · simp [recvAcceleratorPedalCmd_message, h]
  · rw [recvSteeringCmd_message]
    by_cases hc : c.command_type = 0 <;> simp [h, hc]
  · simp [recvGearCmd_message, h]

/-- C27, instance: the state after an enable request and the example requests. -/
theorem enabled_commands_carry_request_witness :
    enabled exampleEnabled = true ∧
    ((∃ m, (recvBrakeCmd exampleClear exampleEnabled staleDbc exampleBrakeCmd).2 =
        [Out.can (Frame.brake m)] ∧
      m.AKit_BrakeCtrlEnblCmd = 1 ∧ m.AKit_BrakePedalCmd = exampleBrakeCmd.pedal_cmd) ∧
    (∃ m, (recvAcceleratorPedalCmd exampleClear exampleEnabled staleDbc
        exampleAcceleratorPedalCmd).2 = [Out.can (Frame.accel m)] ∧
      m.AKit_AccelPdlEnblCmd = 1 ∧
      m.AKit_AccelPdlCmd = exampleAcceleratorPedalCmd.pedal_cmd) ∧
    (∃ m, (recvSteeringCmd exampleFloatOps exampleClear exampleEnabled staleDbc
        exampleTorqueCmd).2 = [Out.can (Frame.steering m)] ∧
      m.AKit_SteerCtrlEnblCmd = 1 ∧
      m.AKit_SteeringWhlCmdType = (exampleTorqueCmd.command_type : ℚ) ∧
      m.AKit_SteeringWhlAngleCmd =
        (if exampleTorqueCmd.command_type = 0 then
          max (-5000) (min 5000
            (exampleFloatOps.angleTenths exampleTorqueCmd.steering_wheel_angle_cmd)) / 10
        else 0) ∧
      m.AKit_SteeringWhlTrqCmd =
        (if exampleTorqueCmd.command_type = 0 then 0
          else exampleTorqueCmd.steering_wheel_torque_cmd)) ∧
    (∃ m, (recvGearCmd exampleClear exampleEnabled staleDbc exampleGearCmd).2 =
        [Out.can (Frame.gear m)] ∧
      m.AKit_PrndStateCmd = (exampleGearCmd.cmd_gear : ℚ))) :=
  ⟨by decide,
    enabled_commands_carry_request exampleFloatOps exampleClear exampleEnabled staleDbc
      (by decide) exampleBrakeCmd exampleAcceleratorPedalCmd exampleTorqueCmd
      exampleGearCmd⟩

/-- C28. While `enabled()` is true the steering encoder populates one of the two
actuation signals, chosen by the command type: with type 0 the torque signal is 0 (and
the angle signal is the clamped angle), with any other type the angle signal is 0 and
the torque signal is the torque of the request. -/
theorem steering_mode_selects_actuation (fl : FloatOps) (clear : State → Bool) (s : State)
    (d : Dbc) (c : SteeringCmd) (h : enabled s = true) :
    ∃ m, (recvSteeringCmd fl clear s d c).2 = [Out.can (Frame.steering m)] ∧
      if c.command_type = 0 then
        m.AKit_SteeringWhlTrqCmd = 0 ∧
        m.AKit_SteeringWhlAngleCmd =
          max (-5000) (min 5000 (fl.angleTenths c.steering_wheel_angle_cmd)) / 10
      else
        m.AKit_SteeringWhlAngleCmd = 0 ∧
        m.AKit_SteeringWhlTrqCmd = c.steering_wheel_torque_cmd := by
  refine ⟨_, recvSteeringCmd_frame fl clear s d c, ?_⟩
  rw [recvSteeringCmd_message]
  by_cases hc : c.command_type = 0 <;> simp [h, hc]

/-- C28, instance: a torque request served in the state after an enable request, with
a message store whose angle signal held 9. -/
theorem steering_mode_selects_actuation_witness :
    enabled exampleEnabled = true ∧
    ∃ m, (recvSteeringCmd exampleFloatOps exampleClear exampleEnabled staleDbc
        exampleTorqueCmd).2 = [Out.can (Frame.steering m)] ∧
      if exampleTorqueCmd.command_type = 0 then
        m.AKit_SteeringWhlTrqCmd = 0 ∧
        m.AKit_SteeringWhlAngleCmd =
          max (-5000) (min 5000
            (exampleFloatOps.angleTenths exampleTorqueCmd.steering_wheel_angle_cmd)) / 10
      else
        m.AKit_SteeringWhlAngleCmd = 0 ∧
        m.AKit_SteeringWhlTrqCmd = exampleTorqueCmd.steering_wheel_torque_cmd :=
  ⟨by decide,
    steering_mode_selects_actuation exampleFloatOps exampleClear exampleEnabled staleDbc
      exampleTorqueCmd (by decide)⟩

/-- C29. The steering encoder publishes a frame whose ignore driver override and quiet
signals are 1 exactly when the request sets `ignore` and `quiet`, and the accelerator
pedal encoder one whose ignore driver override signal is 1 exactly when the request
sets `ignore`; otherwise they are 0, for every state and every message store. -/
theorem ignore_and_quiet_follow_request (fl : FloatOps) (clear : State → Bool) (s : State)
    (d : Dbc) (c : SteeringCmd) (a : AcceleratorPedalCmd) :
    (∃ m, (recvSteeringCmd fl clear s d c).2 = [Out.can (Frame.steering m)] ∧
      m.AKit_SteeringWhlIgnoreDriverOvrd = (if c.ignore then 1 else 0) ∧
      m.AKit_SteeringWhlQuiet = (if c.quiet then 1 else 0)) ∧
    (∃ m, (recvAcceleratorPedalCmd clear s d a).2 = [Out.can (Frame.accel m)] ∧
      m.Akit_AccelPdlIgnoreDriverOvrd = (if a.ignore then 1 else 0)) := by
  refine ⟨⟨_, recvSteeringCmd_frame fl clear s d c, ?_⟩,
    ⟨_, recvAcceleratorPedalCmd_frame clear s d a, ?_⟩⟩
  · rw [recvSteeringCmd_message]
    exact ⟨rfl, rfl⟩
  · rw [recvAcceleratorPedalCmd_message]

/-- C30 (the code at the failing input). Two histories end in the same state of the
enable state machine, the constructed one: no event at all, and an enable request, a
torque mode steering request and a disable request. The same steering request is then
encoded with `AKit_SteeringWhlCmdType` 0 after the first and 1 after the second. -/
theorem steering_command_type_depends_on_history :
    (run exampleFloatOps exampleClear (initial zeroDbc)
        [Event.enable, Event.steeringCmd exampleTorqueCmd, Event.disable]).st =
      (initial zeroDbc).st ∧
    enabled (initial zeroDbc).st = false ∧
    (step exampleFloatOps exampleClear (initial zeroDbc)
        (Event.steeringCmd exampleSteeringCmd)).2 =
      [Out.can (Frame.steering
        { AKit_SteerCtrlEnblCmd := 0, AKit_SteeringWhlAngleCmd := 0,
          AKit_SteeringWhlTrqCmd := 0, AKit_SteeringWhlAngleVelocity := 0,
          AKit_SteeringWhlClearDriverOvrd := 1, AKit_SteeringWhlIgnoreDriverOvrd := 1,
          AKit_SteeringWhlQuiet := 1, AKit_SteeringWhlCtrlMode := 1,
          AKit_SteeringWhlCmdType := 0, AKit_SteerCmdWatchdogCntr := 7 })] ∧
    (step exampleFloatOps exampleClear
        (run exampleFloatOps exampleClear (initial zeroDbc)
          [Event.enable, Event.steeringCmd exampleTorqueCmd, Event.disable])
        (Event.steeringCmd exampleSteeringCmd)).2 =
      [Out.can (Frame.steering
        { AKit_SteerCtrlEnblCmd := 0, AKit_SteeringWhlAngleCmd := 0,
          AKit_SteeringWhlTrqCmd := 0, AKit_SteeringWhlAngleVelocity := 0,
          AKit_SteeringWhlClearDriverOvrd := 1, AKit_SteeringWhlIgnoreDriverOvrd := 1,
          AKit_SteeringWhlQuiet := 1, AKit_SteeringWhlCtrlMode := 1,
          AKit_SteeringWhlCmdType := 1, AKit_SteerCmdWatchdogCntr := 7 })] := by
  have hst : (run exampleFloatOps exampleClear (initial zeroDbc)
      [Event.enable, Event.steeringCmd exampleTorqueCmd, Event.disable]).st =
      (initial zeroDbc).st := by decide
  have hen : enabled (initial zeroDbc).st = false := by decide
  have hfa : fault (initial zeroDbc).st = false := by decide
  have hty : (run exampleFloatOps exampleClear (initial zeroDbc)
      [Event.enable, Event.steeringCmd exampleTorqueCmd,
        Event.disable]).dbc.steeringCommand.AKit_SteeringWhlCmdType = 1 := by
    have he : enabled (enableSystem (initial zeroDbc).st).1 = true := by decide
    simp only [run, List.foldl, step, onState, onDbc, recvSteeringCmd_message, he]
    simp [exampleTorqueCmd]
  refine ⟨hst, hen, ?_, ?_⟩
  · simp only [step, onDbc, recvSteeringCmd_frame, recvSteeringCmd_message, hen]
    simp [exampleSteeringCmd, exampleClear, initial, zeroDbc,
      show fault construct.1 = false by decide]
  · simp only [step, onDbc, recvSteeringCmd_frame, recvSteeringCmd_message, hst, hen, hty]
    simp [exampleSteeringCmd, exampleClear, hfa]


/-! ## Theorems about the joint states, the fault flags of reports and the VIN length -/

/-- C31. A joint state update stores the new stamp and publishes the stored joint state.
The wheel velocities are those of the wheel speed report, if one is passed. When the
time elapsed since the stored stamp is below one half second, each of the four wheel
positions becomes `fmod` by `2*M_PI` of the position plus the elapsed time times the
velocity of that wheel; otherwise the four wheel positions are left as they were, and
the stamp moves forward. -/
theorem wheel_positions_integrated_unless_stale (jo : JointOps) (j : JointState)
    (stamp : ℚ) (wheels : Option WheelSpeedReport) (steering : Option ℚ) :
    (publishJointStates jo j stamp wheels steering).1.stamp = stamp ∧
    (publishJointStates jo j stamp wheels steering).2 =
      [Out.jointStates (publishJointStates jo j stamp wheels steering).1] ∧
    (publishJointStates jo j stamp wheels steering).1.velocity_FL =
      (match wheels with | some w => w.front_left | none => j.velocity_FL) ∧
    (publishJointStates jo j stamp wheels steering).1.velocity_FR =
      (match wheels with | some w => w.front_right | none => j.velocity_FR) ∧
    (publishJointStates jo j stamp wheels steering).1.velocity_RL =
      (match wheels with | some w => w.rear_left | none => j.velocity_RL) ∧
    (publishJointStates jo j stamp wheels steering).1.velocity_RR =
      (match wheels with | some w => w.rear_right | none => j.velocity_RR) ∧
    (if stamp - j.stamp < 1 / 2 then
      (publishJointStates jo j stamp wheels steering).1.position_FL =
        jo.fmod2pi (j.position_FL + (stamp - j.stamp) *
          (publishJointStates jo j stamp wheels steering).1.velocity_FL) ∧
      (publishJointStates jo j stamp wheels steering).1.position_FR =
        jo.fmod2pi (j.position_FR + (stamp - j.stamp) *
          (publishJointStates jo j stamp wheels steering).1.velocity_FR) ∧
      (publishJointStates jo j stamp wheels steering).1.position_RL =
        jo.fmod2pi (j.position_RL + (stamp - j.stamp) *
          (publishJointStates jo j stamp wheels steering).1.velocity_RL) ∧
      (publishJointStates jo j stamp wheels steering).1.position_RR =
        jo.fmod2pi (j.position_RR + (stamp - j.stamp) *
          (publishJointStates jo j stamp wheels steering).1.velocity_RR)
    else
      (publishJointStates jo j stamp wheels steering).1.position_FL = j.position_FL ∧
      (publishJointStates jo j stamp wheels steering).1.position_FR = j.position_FR ∧
      (publishJointStates jo j stamp wheels steering).1.position_RL = j.position_RL ∧
      (publishJointStates jo j stamp wheels steering).1.position_RR = j.position_RR ∧
      j.stamp < (publishJointStates jo j stamp wheels steering).1.stamp) := by
  refine ⟨rfl, rfl, ?_, ?_, ?_, ?_, ?_⟩
  · cases wheels <;> cases steering <;> simp only [publishJointStates] <;> split <;> rfl
  · cases wheels <;> cases steering <;> simp only [publishJointStates] <;> split <;> rfl
  · cases wheels <;> cases steering <;> simp only [publishJointStates] <;> split <;> rfl
  · cases wheels <;> cases steering <;> simp only [publishJointStates] <;> split <;> rfl
  · by_cases h : stamp - j.stamp < 1 / 2
    · rw [if_pos h]
      cases wheels <;> cases steering <;> simp only [publishJointStates, if_pos h, and_self]
    · rw [if_neg h]
      have h' : j.stamp < stamp := by linarith [not_lt.mp h]
      cases wheels <;> cases steering <;> simp only [publishJointStates, if_neg h, true_and] <;>
        exact h'

/-- C32. A brake report frame that is neither a remote request nor an error frame and
is at least as long as the DBC file requires leaves `fault_brakes_` equal to the AND of
its channel 1 and channel 2 fault signals and `fault_watchdog_` equal to its
`DBW_BrakeFault` signal. When exactly one of the two channels reports a fault,
`fault_brakes_` is left false, and unless the frame also carries the subsystem fault or
driver activity, `enable_` is left as it was and a system that was enabled stays
enabled. The same holds of an accelerator pedal report frame, with
`fault_accelerator_pedal_` and the accelerator pedal signals. -/
theorem report_fault_is_and_of_channels (K : Constants) (GetDlc : MsgId → Nat)
    (u : Unbound) (jo : JointOps) (n : Node) (b a : CanMsg)
    (hb : b.id = MsgId.ID_BRAKE_REPORT) (ha : a.id = MsgId.ID_ACCEL_PEDAL_REPORT)
    (hbr : b.is_rtr = false) (hbe : b.is_error = false)
    (har : a.is_rtr = false) (hae : a.is_error = false)
    (hbd : GetDlc MsgId.ID_BRAKE_REPORT ≤ b.dlc)
    (had : GetDlc MsgId.ID_ACCEL_PEDAL_REPORT ≤ a.dlc) :
    ((recvCAN K GetDlc u jo n b).1.st.fault_brakes_ =
        (b.signal Signal.DBW_BrakeFault_Ch1 != 0 && b.signal Signal.DBW_BrakeFault_Ch2 != 0) ∧
      (recvCAN K GetDlc u jo n b).1.st.fault_watchdog_ =
        (b.signal Signal.DBW_BrakeFault != 0) ∧
      (if (b.signal Signal.DBW_BrakeFault_Ch1 != 0) = (b.signal Signal.DBW_BrakeFault_Ch2 != 0)
        then True
        else
          (recvCAN K GetDlc u jo n b).1.st.fault_brakes_ = false ∧
          ((b.signal Signal.DBW_BrakeFault != 0) = true ∨
            (b.signal Signal.DBW_BrakeDriverActivity != 0) = true ∨
            ((recvCAN K GetDlc u jo n b).1.st.enable_ = n.st.enable_ ∧
              (enabled n.st = false ∨ enabled (recvCAN K GetDlc u jo n b).1.st = true))))) ∧
    ((recvCAN K GetDlc u jo n a).1.st.fault_accelerator_pedal_ =
        (a.signal Signal.DBW_AccelPdlFault_Ch1 != 0 &&
          a.signal Signal.DBW_AccelPdlFault_Ch2 != 0) ∧
      (recvCAN K GetDlc u jo n a).1.st.fault_watchdog_ =
        (a.signal Signal.DBW_AccelPdlFault != 0) ∧
      (if (a.signal Signal.DBW_AccelPdlFault_Ch1 != 0) =
          (a.signal Signal.DBW_AccelPdlFault_Ch2 != 0)
        then True
        else
          (recvCAN K GetDlc u jo n a).1.st.fault_accelerator_pedal_ = false ∧
          ((a.signal Signal.DBW_AccelPdlFault != 0) = true ∨
            (a.signal Signal.DBW_AccelPdlDriverActivity != 0) = true ∨
            ((recvCAN K GetDlc u jo n a).1.st.enable_ = n.st.enable_ ∧
              (enabled n.st = false ∨ enabled (recvCAN K GetDlc u jo n a).1.st = true))))) := by
  have eb : (recvCAN K GetDlc u jo n b).1.st =
      (overrideBrake (faultWatchdog₂ (faultBrakes n.st
        (b.signal Signal.DBW_BrakeFault_Ch1 != 0 && b.signal Signal.DBW_BrakeFault_Ch2 != 0)).1
        (b.signal Signal.DBW_BrakeFault != 0)
        (if (b.signal Signal.DBW_BrakeFault != 0) = true then 1 else 0)).1
        (b.signal Signal.DBW_BrakeDriverActivity != 0)).1 := by
    simp only [recvCAN, hb, hbr, hbe, recvCAN_ID_BRAKE_REPORT, if_pos hbd]
    rfl
  have ea : (recvCAN K GetDlc u jo n a).1.st =
      (overrideAcceleratorPedal (faultWatchdog₂ (faultAcceleratorPedal n.st
        (a.signal Signal.DBW_AccelPdlFault_Ch1 != 0 &&
          a.signal Signal.DBW_AccelPdlFault_Ch2 != 0)).1
        (a.signal Signal.DBW_AccelPdlFault != 0)
        (if (a.signal Signal.DBW_AccelPdlFault != 0) = true then 1 else 0)).1
        (a.signal Signal.DBW_AccelPdlDriverActivity != 0)).1 := by
    simp only [recvCAN, ha, har, hae, recvCAN_ID_ACCEL_PEDAL_REPORT, if_pos had]
    rfl
  rw [eb, ea]
  generalize (b.signal Signal.DBW_BrakeFault_Ch1 != 0) = b1
  generalize (b.signal Signal.DBW_BrakeFault_Ch2 != 0) = b2
  generalize (b.signal Signal.DBW_BrakeFault != 0) = bw
  generalize (b.signal Signal.DBW_BrakeDriverActivity != 0) = bo
  generalize (a.signal Signal.DBW_AccelPdlFault_Ch1 != 0) = a1
  generalize (a.signal Signal.DBW_AccelPdlFault_Ch2 != 0) = a2
  generalize (a.signal Signal.DBW_AccelPdlFault != 0) = aw
  generalize (a.signal Signal.DBW_AccelPdlDriverActivity != 0) = ao
  simp only [overrideBrake_state, overrideAcceleratorPedal_state, faultWatchdog₂,
    faultWatchdog_state, faultBrakes_state, faultAcceleratorPedal_state]
  refine ⟨⟨trivial, trivial, ?_⟩, ⟨trivial, trivial, ?_⟩⟩
  · split
    · trivial
    · rename_i hne
      have h12 : (b1 && b2) = false := by
        cases b1 <;> cases b2 <;> simp_all
      refine ⟨h12, ?_⟩
      cases bw
      · cases bo
        · right; right
          simp only [h12]
          constructor
          · simp
          · by_cases hen : enabled n.st = true
            · right
              simp only [enabled, fault, override, Bool.and_eq_true, Bool.not_eq_true',
                Bool.or_eq_false_iff] at hen
              simp [enabled, fault, override, hen]
            · left
              simpa using hen
        · right; left; rfl
      · left; rfl
  · split
    · trivial
    · rename_i hne
      have h12 : (a1 && a2) = false := by
        cases a1 <;> cases a2 <;> simp_all
      refine ⟨h12, ?_⟩
      cases aw
      · cases ao
        · right; right
          simp only [h12]
          constructor
          · simp
          · by_cases hen : enabled n.st = true
            · right
              simp only [enabled, fault, override, Bool.and_eq_true, Bool.not_eq_true',
                Bool.or_eq_false_iff] at hen
              simp [enabled, fault, override, hen]
            · left
              simpa using hen
        · right; left; rfl
      · left; rfl

/-- C32, instance: in the state after an enable request, a brake report with a fault on
channel 1 only and an accelerator pedal report with a fault on channel 2 only, both of
eight bytes. Neither fault flag is set and the system stays enabled. -/
theorem report_fault_is_and_of_channels_witness :
    (exampleBrakeReport.id = MsgId.ID_BRAKE_REPORT ∧
      exampleAccelPedalReport.id = MsgId.ID_ACCEL_PEDAL_REPORT ∧
      exampleBrakeReport.is_rtr = false ∧ exampleBrakeReport.is_error = false ∧
      exampleAccelPedalReport.is_rtr = false ∧ exampleAccelPedalReport.is_error = false ∧
      exampleGetDlc MsgId.ID_BRAKE_REPORT ≤ exampleBrakeReport.dlc ∧
      exampleGetDlc MsgId.ID_ACCEL_PEDAL_REPORT ≤ exampleAccelPedalReport.dlc) ∧
    ((recvCAN exampleConstants exampleGetDlc exampleUnbound exampleJointOps
        { initial zeroDbc with st := exampleEnabled } exampleBrakeReport).1.st.fault_brakes_ =
        false ∧
      (recvCAN exampleConstants exampleGetDlc exampleUnbound exampleJointOps
        { initial zeroDbc with st := exampleEnabled }
        exampleAccelPedalReport).1.st.fault_accelerator_pedal_ =
        false ∧
      (recvCAN exampleConstants exampleGetDlc exampleUnbound exampleJointOps
        { initial zeroDbc with st := exampleEnabled } exampleBrakeReport).1.st.fault_watchdog_ =
        false ∧
      (recvCAN exampleConstants exampleGetDlc exampleUnbound exampleJointOps
        { initial zeroDbc with st := exampleEnabled }
        exampleAccelPedalReport).1.st.fault_watchdog_ =
        false) :=
  ⟨by decide,
    ⟨(report_fault_is_and_of_channels exampleConstants exampleGetDlc exampleUnbound
        exampleJointOps { initial zeroDbc with st := exampleEnabled } exampleBrakeReport
        exampleAccelPedalReport rfl rfl rfl rfl rfl rfl (by decide) (by decide)).1.1,
      (report_fault_is_and_of_channels exampleConstants exampleGetDlc exampleUnbound
        exampleJointOps { initial zeroDbc with st := exampleEnabled } exampleBrakeReport
        exampleAccelPedalReport rfl rfl rfl rfl rfl rfl (by decide) (by decide)).2.1,
      (report_fault_is_and_of_channels exampleConstants exampleGetDlc exampleUnbound
        exampleJointOps { initial zeroDbc with st := exampleEnabled } exampleBrakeReport
        exampleAccelPedalReport rfl rfl rfl rfl rfl rfl (by decide) (by decide)).1.2.1,
      (report_fault_is_and_of_channels exampleConstants exampleGetDlc exampleUnbound
        exampleJointOps { initial zeroDbc with st := exampleEnabled } exampleBrakeReport
        exampleAccelPedalReport rfl rfl rfl rfl rfl rfl (by decide) (by decide)).2.2.1⟩⟩

/-! ## Auxiliary facts: the VIN accumulator -/

theorem recvCAN_ID_VIN_vin (K : Constants) (GetDlc : MsgId → Nat) (n : Node)
    (msg : CanMsg) :
    (recvCAN_ID_VIN K GetDlc n msg).1.vin_ =
      n.vin_ ++
        (if GetDlc MsgId.ID_VIN ≤ msg.dlc then
          if msg.signal Signal.DBW_VinMultiplexor = (K.VIN_MUX_VIN0 : ℚ) then
            List.replicate 7 (msg.signal Signal.DBW_VinDigit_01)
          else if msg.signal Signal.DBW_VinMultiplexor = (K.VIN_MUX_VIN1 : ℚ) then
            List.replicate 7 (msg.signal Signal.DBW_VinDigit_01)
          else if msg.signal Signal.DBW_VinMultiplexor = (K.VIN_MUX_VIN2 : ℚ) then
            List.replicate 3 (msg.signal Signal.DBW_VinDigit_01)
          else []
        else []) := by
  simp only [recvCAN_ID_VIN]
  split
  · split
    · rfl
    · split
      · rfl
      · split
        · rfl
        · simp
  · simp

theorem recvCAN_vin_append (K : Constants) (GetDlc : MsgId → Nat) (u : Unbound)
    (jo : JointOps) (n : Node) (msg : CanMsg) :
    ∃ t, (recvCAN K GetDlc u jo n msg).1.vin_ = n.vin_ ++ t := by
  unfold recvCAN
  split
  · cases msg.id
    case ID_VIN => exact ⟨_, recvCAN_ID_VIN_vin K GetDlc n msg⟩
    all_goals
      refine ⟨[], ?_⟩
      simp only [recvCAN_ID_BRAKE_REPORT, recvCAN_ID_ACCEL_PEDAL_REPORT,
        recvCAN_ID_STEERING_REPORT, recvCAN_ID_GEAR_REPORT, recvCAN_ID_REPORT_WHEEL_SPEED,
        recvCAN_report, List.append_nil]
      try first
        | rfl
        | (split <;> rfl)
  · exact ⟨[], by simp⟩

theorem recvCANs_cons (K : Constants) (GetDlc : MsgId → Nat) (u : Unbound)
    (jo : JointOps) (n : Node) (x : CanMsg) (xs : List CanMsg) :
    recvCANs K GetDlc u jo n (x :: xs) =
      recvCANs K GetDlc u jo (recvCAN K GetDlc u jo n x).1 xs := rfl

theorem recvCAN_vin_length (K : Constants) (GetDlc : MsgId → Nat) (u : Unbound)
    (jo : JointOps) (n : Node) (x : CanMsg)
    (hK : K.VIN_MUX_VIN0 ≠ K.VIN_MUX_VIN1 ∧ K.VIN_MUX_VIN0 ≠ K.VIN_MUX_VIN2 ∧
      K.VIN_MUX_VIN1 ≠ K.VIN_MUX_VIN2)
    (hx : x.id = MsgId.ID_VIN ∧ x.is_rtr = false ∧ x.is_error = false ∧
      GetDlc MsgId.ID_VIN ≤ x.dlc) :
    (recvCAN K GetDlc u jo n x).1.vin_.length =
      n.vin_.length +
        7 * (if x.signal Signal.DBW_VinMultiplexor = (K.VIN_MUX_VIN0 : ℚ) then 1 else 0) +
        7 * (if x.signal Signal.DBW_VinMultiplexor = (K.VIN_MUX_VIN1 : ℚ) then 1 else 0) +
        3 * (if x.signal Signal.DBW_VinMultiplexor = (K.VIN_MUX_VIN2 : ℚ) then 1 else 0) := by
  obtain ⟨hid, hr, he, hd⟩ := hx
  obtain ⟨h01, h02, h12⟩ := hK
  have e : (recvCAN K GetDlc u jo n x).1 = (recvCAN_ID_VIN K GetDlc n x).1 := by
    simp only [recvCAN, hid, hr, he]
    rfl
  rw [e, recvCAN_ID_VIN_vin, if_pos hd]
  by_cases c0 : x.signal Signal.DBW_VinMultiplexor = (K.VIN_MUX_VIN0 : ℚ)
  · have c1 : ¬ x.signal Signal.DBW_VinMultiplexor = (K.VIN_MUX_VIN1 : ℚ) := by
      rw [c0]; exact_mod_cast h01
    have c2 : ¬ x.signal Signal.DBW_VinMultiplexor = (K.VIN_MUX_VIN2 : ℚ) := by
      rw [c0]; exact_mod_cast h02
    simp only [if_pos c0, if_neg c1, if_neg c2, List.length_append, List.length_replicate]
  · by_cases c1 : x.signal Signal.DBW_VinMultiplexor = (K.VIN_MUX_VIN1 : ℚ)
    · have c2 : ¬ x.signal Signal.DBW_VinMultiplexor = (K.VIN_MUX_VIN2 : ℚ) := by
        rw [c1]; exact_mod_cast h12
      simp only [if_neg c0, if_pos c1, if_neg c2, List.length_append, List.length_replicate]
    · by_cases c2 : x.signal Signal.DBW_VinMultiplexor = (K.VIN_MUX_VIN2 : ℚ)
      · simp only [if_neg c0, if_neg c1, if_pos c2, List.length_append, List.length_replicate]
      · simp only [if_neg c0, if_neg c1, if_neg c2, List.length_append, List.length_nil]

theorem recvCANs_vin_length (K : Constants) (GetDlc : MsgId → Nat) (u : Unbound)
    (jo : JointOps)
    (hK : K.VIN_MUX_VIN0 ≠ K.VIN_MUX_VIN1 ∧ K.VIN_MUX_VIN0 ≠ K.VIN_MUX_VIN2 ∧
      K.VIN_MUX_VIN1 ≠ K.VIN_MUX_VIN2)
    (msgs : List CanMsg) :
    ∀ n : Node,
      (∀ x ∈ msgs, x.id = MsgId.ID_VIN ∧ x.is_rtr = false ∧ x.is_error = false ∧
        GetDlc MsgId.ID_VIN ≤ x.dlc) →
      (recvCANs K GetDlc u jo n msgs).vin_.length =
        n.vin_.length +
          7 * msgs.countP
            (fun x => decide (x.signal Signal.DBW_VinMultiplexor = (K.VIN_MUX_VIN0 : ℚ))) +
          7 * msgs.countP
            (fun x => decide (x.signal Signal.DBW_VinMultiplexor = (K.VIN_MUX_VIN1 : ℚ))) +
          3 * msgs.countP
            (fun x => decide (x.signal Signal.DBW_VinMultiplexor = (K.VIN_MUX_VIN2 : ℚ))) := by
  induction msgs with
  | nil => intro n _; simp [recvCANs]
  | cons x xs ih =>
    intro n h
    have hx := h x (List.mem_cons_self x xs)
    have hxs : ∀ y ∈ xs, y.id = MsgId.ID_VIN ∧ y.is_rtr = false ∧ y.is_error = false ∧
        GetDlc MsgId.ID_VIN ≤ y.dlc := fun y hy => h y (List.mem_cons_of_mem x hy)
    rw [recvCANs_cons, ih _ hxs, recvCAN_vin_length K GetDlc u jo n x hK hx]
    simp only [List.countP_cons, decide_eq_true_eq]
    ring

theorem recvCAN_vin_outs (K : Constants) (GetDlc : MsgId → Nat) (u : Unbound)
    (jo : JointOps) (n : Node) (x : CanMsg)
    (hK : K.VIN_MUX_VIN0 ≠ K.VIN_MUX_VIN1 ∧ K.VIN_MUX_VIN0 ≠ K.VIN_MUX_VIN2 ∧
      K.VIN_MUX_VIN1 ≠ K.VIN_MUX_VIN2)
    (hx : x.id = MsgId.ID_VIN ∧ x.is_rtr = false ∧ x.is_error = false ∧
      GetDlc MsgId.ID_VIN ≤ x.dlc) :
    (recvCAN K GetDlc u jo n x).2 =
      if x.signal Signal.DBW_VinMultiplexor = (K.VIN_MUX_VIN2 : ℚ) then
        [Out.vin (recvCAN K GetDlc u jo n x).1.vin_]
      else [] := by
  obtain ⟨hid, hr, he, hd⟩ := hx
  obtain ⟨h01, h02, h12⟩ := hK
  have e : recvCAN K GetDlc u jo n x = recvCAN_ID_VIN K GetDlc n x := by
    simp only [recvCAN, hid, hr, he]
    rfl
  rw [e]
  simp only [recvCAN_ID_VIN, if_pos hd]
  by_cases c2 : x.signal Signal.DBW_VinMultiplexor = (K.VIN_MUX_VIN2 : ℚ)
  · have c0 : ¬ x.signal Signal.DBW_VinMultiplexor = (K.VIN_MUX_VIN0 : ℚ) := by
      rw [c2]; exact_mod_cast (Ne.symm h02)
    have c1 : ¬ x.signal Signal.DBW_VinMultiplexor = (K.VIN_MUX_VIN1 : ℚ) := by
      rw [c2]; exact_mod_cast (Ne.symm h12)
    simp only [if_neg c0, if_neg c1, if_pos c2]
  · simp only [if_neg c2]
    split
    · rfl
    · split <;> rfl

/-! ## Theorems about the VIN accumulator -/

/-- C33. The VIN accumulator `vin_` only grows: after any received frame it is the old
accumulator followed by some values, and no other event changes it. With three distinct
multiplexor constants, take full-length VIN data frames. Served in order, a first and a
second fragment publish nothing and the third fragment publishes the accumulator, which
is 17 values longer than before the three (17 values from an empty accumulator). After
any sequence of such frames the accumulator has grown by 7 for each first fragment, 7
for each second fragment and 3 for each third fragment. -/
theorem vin_accumulator_length (K : Constants) (GetDlc : MsgId → Nat) (u : Unbound)
    (jo : JointOps) (fl : FloatOps) (clear : State → Bool) (n : Node) (m : CanMsg)
    (e : Event) (f0 f1 f2 : CanMsg) (msgs : List CanMsg)
    (hK : K.VIN_MUX_VIN0 ≠ K.VIN_MUX_VIN1 ∧ K.VIN_MUX_VIN0 ≠ K.VIN_MUX_VIN2 ∧
      K.VIN_MUX_VIN1 ≠ K.VIN_MUX_VIN2)
    (hv : ∀ x ∈ f0 :: f1 :: f2 :: msgs,
      x.id = MsgId.ID_VIN ∧ x.is_rtr = false ∧ x.is_error = false ∧
        GetDlc MsgId.ID_VIN ≤ x.dlc)
    (h0 : f0.signal Signal.DBW_VinMultiplexor = (K.VIN_MUX_VIN0 : ℚ))
    (h1 : f1.signal Signal.DBW_VinMultiplexor = (K.VIN_MUX_VIN1 : ℚ))
    (h2 : f2.signal Signal.DBW_VinMultiplexor = (K.VIN_MUX_VIN2 : ℚ)) :
    (∃ t, (recvCAN K GetDlc u jo n m).1.vin_ = n.vin_ ++ t) ∧
    (step fl clear n e).1.vin_ = n.vin_ ∧
    (recvCAN K GetDlc u jo n f0).2 = [] ∧
    (recvCAN K GetDlc u jo (recvCANs K GetDlc u jo n [f0]) f1).2 = [] ∧
    (∃ v, (recvCAN K GetDlc u jo (recvCANs K GetDlc u jo n [f0, f1]) f2).2 = [Out.vin v] ∧
      v = (recvCANs K GetDlc u jo n [f0, f1, f2]).vin_ ∧
      v.length = n.vin_.length + 17) ∧
    (recvCANs K GetDlc u jo n msgs).vin_.length =
      n.vin_.length +
        7 * msgs.countP
          (fun x => decide (x.signal Signal.DBW_VinMultiplexor = (K.VIN_MUX_VIN0 : ℚ))) +
        7 * msgs.countP
          (fun x => decide (x.signal Signal.DBW_VinMultiplexor = (K.VIN_MUX_VIN1 : ℚ))) +
        3 * msgs.countP
          (fun x => decide (x.signal Signal.DBW_VinMultiplexor = (K.VIN_MUX_VIN2 : ℚ))) := by
  have hf0 := hv f0 (by simp)
  have hf1 := hv f1 (by simp)
  have hf2 := hv f2 (by simp)
  have hms : ∀ x ∈ msgs, x.id = MsgId.ID_VIN ∧ x.is_rtr = false ∧ x.is_error = false ∧
      GetDlc MsgId.ID_VIN ≤ x.dlc := fun x hx => hv x (by simp [hx])
  obtain ⟨h01, h02, h12⟩ := hK
  have c01 : ¬ f0.signal Signal.DBW_VinMultiplexor = (K.VIN_MUX_VIN1 : ℚ) := by
    rw [h0]; exact_mod_cast h01
  have c02 : ¬ f0.signal Signal.DBW_VinMultiplexor = (K.VIN_MUX_VIN2 : ℚ) := by
    rw [h0]; exact_mod_cast h02
  have c10 : ¬ f1.signal Signal.DBW_VinMultiplexor = (K.VIN_MUX_VIN0 : ℚ) := by
    rw [h1]; exact_mod_cast (Ne.symm h01)
  have c12 : ¬ f1.signal Signal.DBW_VinMultiplexor = (K.VIN_MUX_VIN2 : ℚ) := by
    rw [h1]; exact_mod_cast h12
  have c20 : ¬ f2.signal Signal.DBW_VinMultiplexor = (K.VIN_MUX_VIN0 : ℚ) := by
    rw [h2]; exact_mod_cast (Ne.symm h02)
  have c21 : ¬ f2.signal Signal.DBW_VinMultiplexor = (K.VIN_MUX_VIN1 : ℚ) := by
    rw [h2]; exact_mod_cast (Ne.symm h12)
  have hK : K.VIN_MUX_VIN0 ≠ K.VIN_MUX_VIN1 ∧ K.VIN_MUX_VIN0 ≠ K.VIN_MUX_VIN2 ∧
      K.VIN_MUX_VIN1 ≠ K.VIN_MUX_VIN2 := ⟨h01, h02, h12⟩
  refine ⟨recvCAN_vin_append K GetDlc u jo n m, ?_, ?_, ?_, ?_,
    recvCANs_vin_length K GetDlc u jo hK msgs n hms⟩
  · cases e <;> rfl
  · rw [recvCAN_vin_outs K GetDlc u jo n f0 hK hf0, if_neg c02]
  · rw [recvCAN_vin_outs K GetDlc u jo _ f1 hK hf1, if_neg c12]
  · refine ⟨_, ?_, rfl, ?_⟩
    · rw [recvCAN_vin_outs K GetDlc u jo _ f2 hK hf2, if_pos h2]
      rfl
    · have hl := recvCANs_vin_length K GetDlc u jo hK [f0, f1, f2] n
        (fun x hx => hv x (by
          simp only [List.mem_cons, List.mem_singleton, List.not_mem_nil, or_false] at hx
          simp only [List.mem_cons]
          rcases hx with hx | hx | hx
          · exact Or.inl hx
          · exact Or.inr (Or.inl hx)
          · exact Or.inr (Or.inr (Or.inl hx))))
      rw [hl]
      simp [List.countP_cons, h0, h1, h2, h01, h02, h12, Ne.symm h01, Ne.symm h02,
        Ne.symm h12]

/-- C33, instance: from the constructed node, whose accumulator is empty, the three
fragments served once in order publish 17 values; five frames, of which two first
fragments, two second fragments and one third fragment, leave 31 values. -/
theorem vin_accumulator_length_witness :
    ((exampleConstants.VIN_MUX_VIN0 ≠ exampleConstants.VIN_MUX_VIN1 ∧
        exampleConstants.VIN_MUX_VIN0 ≠ exampleConstants.VIN_MUX_VIN2 ∧
        exampleConstants.VIN_MUX_VIN1 ≠ exampleConstants.VIN_MUX_VIN2) ∧
      (∀ x ∈ [exampleVin 0 1, exampleVin 1 2, exampleVin 2 3, exampleVin 0 4,
          exampleVin 1 5, exampleVin 2 6, exampleVin 0 7, exampleVin 1 8],
        x.id = MsgId.ID_VIN ∧ x.is_rtr = false ∧ x.is_error = false ∧
          exampleGetDlc MsgId.ID_VIN ≤ x.dlc) ∧
      (exampleVin 0 1).signal Signal.DBW_VinMultiplexor =
        (exampleConstants.VIN_MUX_VIN0 : ℚ) ∧
      (exampleVin 1 2).signal Signal.DBW_VinMultiplexor =
        (exampleConstants.VIN_MUX_VIN1 : ℚ) ∧
      (exampleVin 2 3).signal Signal.DBW_VinMultiplexor =
        (exampleConstants.VIN_MUX_VIN2 : ℚ)) ∧
    (∃ v, (recvCAN exampleConstants exampleGetDlc exampleUnbound exampleJointOps
        (recvCANs exampleConstants exampleGetDlc exampleUnbound exampleJointOps
          (initial zeroDbc) [exampleVin 0 1, exampleVin 1 2]) (exampleVin 2 3)).2 =
          [Out.vin v] ∧
      v = (recvCANs exampleConstants exampleGetDlc exampleUnbound exampleJointOps
          (initial zeroDbc) [exampleVin 0 1, exampleVin 1 2, exampleVin 2 3]).vin_ ∧
      v.length = (initial zeroDbc).vin_.length + 17) ∧
    (recvCANs exampleConstants exampleGetDlc exampleUnbound exampleJointOps
        (initial zeroDbc)
        [exampleVin 0 4, exampleVin 1 5, exampleVin 2 6, exampleVin 0 7,
          exampleVin 1 8]).vin_.length =
      (initial zeroDbc).vin_.length +
        7 * [exampleVin 0 4, exampleVin 1 5, exampleVin 2 6, exampleVin 0 7,
          exampleVin 1 8].countP
          (fun x => decide (x.signal Signal.DBW_VinMultiplexor =
            (exampleConstants.VIN_MUX_VIN0 : ℚ))) +
        7 * [exampleVin 0 4, exampleVin 1 5, exampleVin 2 6, exampleVin 0 7,
          exampleVin 1 8].countP
          (fun x => decide (x.signal Signal.DBW_VinMultiplexor =
            (exampleConstants.VIN_MUX_VIN1 : ℚ))) +
        3 * [exampleVin 0 4, exampleVin 1 5, exampleVin 2 6, exampleVin 0 7,
          exampleVin 1 8].countP
          (fun x => decide (x.signal Signal.DBW_VinMultiplexor =
            (exampleConstants.VIN_MUX_VIN2 : ℚ))) :=
  ⟨⟨by decide, by decide, by decide, by decide, by decide⟩,
    (vin_accumulator_length exampleConstants exampleGetDlc exampleUnbound exampleJointOps
      exampleFloatOps exampleClear (initial zeroDbc) (exampleVin 0 1) Event.timer
      (exampleVin 0 1) (exampleVin 1 2) (exampleVin 2 3)
      [exampleVin 0 4, exampleVin 1 5, exampleVin 2 6, exampleVin 0 7, exampleVin 1 8]
      (by decide) (by decide) (by decide) (by decide) (by decide)).2.2.2.2.1,
    (vin_accumulator_length exampleConstants exampleGetDlc exampleUnbound exampleJointOps
      exampleFloatOps exampleClear (initial zeroDbc) (exampleVin 0 1) Event.timer
      (exampleVin 0 1) (exampleVin 1 2) (exampleVin 2 3)
      [exampleVin 0 4, exampleVin 1 5, exampleVin 2 6, exampleVin 0 7, exampleVin 1 8]
      (by decide) (by decide) (by decide) (by decide) (by decide)).2.2.2.2.2⟩

end DbwNode
